import Mathlib

/-!
# Verification of the Coup rules engine

Shallow embedding of the repository's game engine (`gameEngine.js`), action
resolver (`actionResolver.js`) and the server dispatch layer (`server.js`).

Conventions of the embedding:
* JS arrays become `List`; `push` appends, `pop` takes the last element
  (`getLast?`/`dropLast`), `unshift` conses in front.
* `Math.random`-driven shuffling is parameterized by an explicit tape of
  naturals (`rng : Nat → Nat` plus a cursor `rngIdx`): the Fisher-Yates loop
  draws `rng k % (i + 1)` for position `i`, so every concrete execution of the
  JS code corresponds to some tape.
* JS objects used as string-keyed maps (`responders`, `_private.exchange`)
  become association lists with JS assignment semantics (replace the existing
  key in place, else append); key order is insertion order, as in JS.
* Player coins are `Int` (JS numbers, integral in this program).
* Fallible JS property accesses that would throw on `null`/`undefined`
  (never exercised by the resolver's own call discipline) are modelled as
  no-ops or defaults; each such place is marked with a comment.
-/

namespace Coup

/-! ## Generic list helpers -/

/-- Modify the element at index `i` (identity when out of range). -/
def modifyAt (l : List α) (i : Nat) (f : α → α) : List α :=
  match l, i with
  | [], _ => []
  | a :: as, 0 => f a :: as
  | a :: as, n + 1 => a :: modifyAt as n f

/-- Swap two positions of a list (identity when either index is out of
range).  One step of the Fisher-Yates loop in `shuffle`. -/
def listSwap (l : List α) (i j : Nat) : List α :=
  match l.get? i, l.get? j with
  | some a, some b => (l.set i b).set j a
  | _, _ => l

/-- JS-object assignment on an association list: replace the first entry with
this key, else append a new entry. -/
def setEntry [DecidableEq κ] (m : List (κ × β)) (k : κ) (v : β) : List (κ × β) :=
  match m with
  | [] => [(k, v)]
  | e :: es => if e.1 = k then (k, v) :: es else e :: setEntry es k v

/-- `Map.delete` on an association list (keys are unique in practice). -/
def delEntry [DecidableEq κ] (m : List (κ × β)) (k : κ) : List (κ × β) :=
  match m with
  | [] => []
  | e :: es => if e.1 = k then es else e :: delEntry es k

/-- `Map.get` on an association list. -/
def getEntry [DecidableEq κ] (m : List (κ × β)) (k : κ) : Option β :=
  match m with
  | [] => none
  | e :: es => if e.1 = k then some e.2 else getEntry es k

/-- `array.slice(-n)`: the last `n` elements. -/
def lastN (n : Nat) (l : List α) : List α := l.drop (l.length - n)

/-- `arr.map((x, i) => ...)`-style enumeration, starting at index `k`. -/
def enumFrom (k : Nat) : List α → List (Nat × α)
  | [] => []
  | a :: as => (k, a) :: enumFrom (k + 1) as

/-- `[...new Set(keep)]`: deduplicate keeping first occurrences. -/
def jsSetDedup : List String → List String
  | [] => []
  | x :: xs => x :: jsSetDedup (xs.filter (fun y => y ≠ x))
termination_by l => l.length
decreasing_by
  simp_wf
  exact Nat.lt_succ_of_le (List.length_filter_le _ _)

/-- One Fisher-Yates pass: `for (let i = n-1; i > 0; i--) swap(i, rand(i+1))`.
The fuel argument is the current position `i`; `tape idx % (i + 1)` models
`(Math.random() * (i + 1)) | 0`. -/
def fyGo (tape : Nat → Nat) : Nat → List α → Nat → List α × Nat
  | idx, arr, 0 => (arr, idx)
  | idx, arr, i + 1 => fyGo tape (idx + 1) (listSwap arr (i + 1) (tape idx % (i + 2))) i

/-- `shuffle(arr)` with an explicit random tape; returns the shuffled list and
the new tape cursor. -/
def shuffleT (tape : Nat → Nat) (idx : Nat) (arr : List α) : List α × Nat :=
  fyGo tape idx arr (arr.length - 1)

/-! ## Domain types (gameEngine.js) -/

/-- Player ids are opaque strings supplied by the transport layer. -/
abbrev PId := String

inductive Role
  | Duke | Assassin | Captain | Ambassador | Contessa
deriving DecidableEq, Repr

/-- The string name of a role, as it appears in JS. -/
def Role.str : Role → String
  | .Duke => "Duke"
  | .Assassin => "Assassin"
  | .Captain => "Captain"
  | .Ambassador => "Ambassador"
  | .Contessa => "Contessa"

/-- `makeDeck()` before shuffling: the unrolled `for (const r of roles) for
(let i = 0; i < 3; i++) deck.push(r)` — three of each of the five roles. -/
def makeDeckRaw : List Role :=
  [.Duke, .Duke, .Duke,
   .Assassin, .Assassin, .Assassin,
   .Captain, .Captain, .Captain,
   .Ambassador, .Ambassador, .Ambassador,
   .Contessa, .Contessa, .Contessa]

/-- `{ role, revealed }`. -/
structure Card where
  role : Role
  revealed : Bool
deriving DecidableEq, Repr

/-- `{ id, name, coins, influence }`. -/
structure Player where
  id : PId
  name : String
  coins : Int
  influence : List Card
deriving DecidableEq, Repr

/-- A responder's recorded state: `"pending" | "passed" | "challenged"`. -/
inductive RStatus
  | pending | passed | challenged
deriving DecidableEq, Repr

/-- The `responders` JS object: id → status, in insertion order. -/
abbrev Responders := List (PId × RStatus)

/-- The `continuation` tagged values produced by the resolver
(`{ type: "endTurn" }`, `{ type: "assassinate_open_block", actorId, targetId }`, ...). -/
inductive Continuation
  | endTurn
  | assassinateOpenBlock (actorId targetId : PId)
  | assassinateBlockStands
  | assassinateForceTargetLoss (actorId targetId : PId)
  | endTurnAfterAssassination (targetId : PId)
  | stealOpenBlock (actorId targetId : PId)
  | stealApply (actorId targetId : PId)
  | stealBlockStands
  | stealApplyAfterBlockFail (actorId targetId : PId)
  | exchangeStartChoice (actorId : PId)
deriving DecidableEq, Repr

inductive Stage
  | awaitingChallenge | awaitingBlock | awaitingChallengeBlock | awaitingChoice
deriving DecidableEq, Repr

/-- `game.pendingAction`.  One constructor per JS `type`; constant fields of
the JS records (`claimedRole`, and `stage` where only one value ever occurs)
are omitted because the resolver never reads them (it compares against role
literals directly); `blockRole` is kept because the steal resolver reads it. -/
inductive Pending
  | loseInfluence (playerId : PId) (reason : String) (continuation : Continuation)
  | tax (actorId : PId) (responders : Responders)
  | foreignAid (stage : Stage) (actorId : PId) (responders : Responders) (blockedBy : Option PId)
  | assassinate (stage : Stage) (actorId targetId : PId) (blockedBy : Option PId)
      (responders : Responders)
  | steal (stage : Stage) (actorId targetId : PId) (blockedBy : Option PId)
      (blockRole : Option Role) (responders : Responders)
  | exchange (actorId : PId) (responders : Responders)
  | exchangeChoice (actorId : PId) (keepCount : Nat)
deriving DecidableEq, Repr

/-- One option of the exchange secret store:
`{ id, role, source: "hand"|"drawn", handIndex? }`. -/
inductive OptSource
  | hand | drawn
deriving DecidableEq, Repr

structure ExchangeOption where
  id : String
  role : Role
  source : OptSource
  handIndex : Option Nat
deriving DecidableEq, Repr

/-- `_private.exchange` entry: `{ keepCount, options }`. -/
structure ExchangeSecret where
  keepCount : Nat
  options : List ExchangeOption
deriving DecidableEq, Repr

/-- The `GameEngine` instance state. -/
structure Game where
  players : List Player
  deck : List Role
  log : List String
  turnIndex : Nat
  pendingAction : Option Pending
  gameOver : Bool
  winnerId : Option PId
  exchangeSecrets : List (PId × ExchangeSecret)
  rng : Nat → Nat
  rngIdx : Nat

/-! ## GameEngine methods -/

/-- `getPlayer(id)`: first player with this id. -/
def findPlayer : List Player → PId → Option Player
  | [], _ => none
  | p :: ps, pid => if p.id = pid then some p else findPlayer ps pid

def Game.getPlayer (g : Game) (pid : PId) : Option Player :=
  findPlayer g.players pid

/-- Mutating the player object returned by `getPlayer(id)`: update the first
player with this id in place. -/
def modPlayer : List Player → PId → (Player → Player) → List Player
  | [], _, _ => []
  | p :: ps, pid, f => if p.id = pid then f p :: ps else p :: modPlayer ps pid f

def Game.updatePlayer (g : Game) (pid : PId) (f : Player → Player) : Game :=
  { g with players := modPlayer g.players pid f }

/-- `getPlayer` on a possibly-null target id (`targetId` may be `null`). -/
def Game.getPlayerOpt (g : Game) : Option PId → Option Player
  | none => none
  | some pid => g.getPlayer pid

def Player.hasUnrevealed (p : Player) : Bool :=
  p.influence.any (fun c => !c.revealed)

/-- `isAlive(id)`: some influence card is unrevealed. -/
def Game.isAlive (g : Game) (pid : PId) : Bool :=
  match g.getPlayer pid with
  | none => false
  | some p => p.hasUnrevealed

def Game.alivePlayers (g : Game) : List Player :=
  g.players.filter (fun p => g.isAlive p.id)

/-- The scanning loop of `currentPlayer()`: note that the JS method *mutates*
`turnIndex` while skipping eliminated players, so it returns the new index as
well.  The fallback after the guard exhausts is `getPlayer(players[0].id)`
(`players[0]` would throw on an empty list; modelled as `none`). -/
def cpGo (g : Game) : Nat → Nat → Option Player × Nat
  | ti, 0 =>
    match g.players with
    | [] => (none, ti)
    | p0 :: _ => (g.getPlayer p0.id, ti)
  | ti, guard + 1 =>
    match g.players.get? (ti % g.players.length) with
    | none => (none, ti)
    | some p =>
      if g.isAlive p.id then (some p, ti)
      else cpGo g ((ti + 1) % g.players.length) guard

/-- `currentPlayer()`, returning both the result and the mutated `turnIndex`. -/
def Game.currentPlayerCalc (g : Game) : Option Player × Nat :=
  if g.gameOver then (none, g.turnIndex)
  else if g.alivePlayers.isEmpty then (none, g.turnIndex)
  else cpGo g g.turnIndex g.players.length

def Game.currentPlayer (g : Game) : Option Player :=
  g.currentPlayerCalc.1

/-- The state mutation performed by any call of `currentPlayer()` (hence by
`getStateFor`/`getPublicState`): the turn index skips past dead players. -/
def Game.touch (g : Game) : Game :=
  { g with turnIndex := g.currentPlayerCalc.2 }

/-- `checkWin()`. -/
def Game.checkWin (g : Game) : Game :=
  if g.gameOver then g
  else
    match g.alivePlayers with
    | [a] => { g with gameOver := true, winnerId := some a.id, log := g.log ++ [a.name ++ " wins!"] }
    | _ => g

/-- The advancing loop of `nextTurn()`. -/
def ntGo (g : Game) : Nat → Nat → Nat
  | ti, 0 => ti
  | ti, guard + 1 =>
    let ti2 := (ti + 1) % g.players.length
    match g.players.get? ti2 with
    | none => ti2
    | some p => if g.isAlive p.id then ti2 else ntGo g ti2 guard

/-- `nextTurn()`: win check, advance past dead players, then the
`currentPlayer()` call used for the log line (which itself may move the
index). -/
def Game.nextTurn (g : Game) : Game :=
  let g1 := g.checkWin
  if g1.gameOver then g1
  else
    let g2 := { g1 with turnIndex := ntGo g1 g1.turnIndex g1.players.length }
    let r := g2.currentPlayerCalc
    let g3 := { g2 with turnIndex := r.2 }
    match r.1 with
    | some cp => { g3 with log := g3.log ++ ["It is now " ++ cp.name ++ "'s turn."] }
    | none => g3

/-- `draw()`: pop from the deck, regenerating a full fresh (shuffled) deck
first when empty.  The `none` branch is unreachable (a fresh deck has 15
cards; JS would return `undefined` there). -/
def Game.draw (g : Game) : Role × Game :=
  let g1 :=
    if g.deck.isEmpty then
      let s := shuffleT g.rng g.rngIdx makeDeckRaw
      { g with deck := s.1, rngIdx := s.2 }
    else g
  match g1.deck.getLast? with
  | some r => (r, { g1 with deck := g1.deck.dropLast })
  | none => (Role.Duke, g1)

/-- `returnToDeck(roles)`: unshift each role, then reshuffle the whole deck. -/
def Game.returnToDeck (g : Game) (roles : List Role) : Game :=
  let g1 := { g with deck := roles.reverse ++ g.deck }
  let s := shuffleT g1.rng g1.rngIdx g1.deck
  { g1 with deck := s.1, rngIdx := s.2 }

/-- `playerHasRole(playerId, role)`. -/
def Game.playerHasRole (g : Game) (pid : PId) (role : Role) : Bool :=
  match g.getPlayer pid with
  | none => false
  | some p => p.influence.any (fun c => !c.revealed && c.role == role)

/-- First half of the success path of `revealAndRedraw`: mark the found slot
revealed, log, and return the role to the deck. -/
def Game.rrMid (g : Game) (pid : PId) (role : Role) (pname : String) (idx : Nat) : Game :=
  let g1 := g.updatePlayer pid (fun q =>
    { q with influence := modifyAt q.influence idx (fun c => { c with revealed := true }) })
  let g2 := { g1 with log := g1.log ++ [pname ++ " reveals " ++ role.str ++ "."] }
  g2.returnToDeck [role]

/-- The success path of `revealAndRedraw` (player and matching unrevealed
slot found): mark the slot revealed, log, return the role to the deck, draw
the replacement into the same slot, log. -/
def Game.revealAndRedrawGo (g : Game) (pid : PId) (role : Role) (pname : String)
    (idx : Nat) : Game :=
  let g3 := g.rrMid pid role pname idx
  let d := g3.draw
  let g4 := d.2.updatePlayer pid (fun q =>
    { q with influence := q.influence.set idx { role := d.1, revealed := false } })
  { g4 with log := g4.log ++ [pname ++ " draws a replacement influence."] }

/-- `revealAndRedraw(playerId, role)`: reveal the first unrevealed card
matching `role`, return that role to the deck, then draw a replacement into
the same slot, unrevealed. -/
def Game.revealAndRedraw (g : Game) (pid : PId) (role : Role) : Bool × Game :=
  match g.getPlayer pid with
  | none => (false, g)
  | some p =>
    match p.influence.findIdx? (fun c => !c.revealed && c.role == role) with
    | none => (false, g)
    | some idx => (true, g.revealAndRedrawGo pid role p.name idx)

/-- `loseInfluence(playerId, cardIndex)`: reveal the unrevealed card at slot
`cardIndex`; fails when the index is invalid, out of range or already
revealed.  Runs the win check on success. -/
def Game.loseInfluence (g : Game) (pid : PId) (cardIndex : Option Nat) : Bool × Game :=
  match g.getPlayer pid with
  | none => (false, g)
  | some p =>
    let aliveCards : List (Nat × Card) := (enumFrom 0 p.influence).filter (fun q => !q.2.revealed)
    let pick : Option (Nat × Card) :=
      match cardIndex with
      | none => none
      | some ci => aliveCards.find? (fun q => q.1 == ci)
    match pick with
    | none => (false, g)
    | some q =>
      let g1 := g.updatePlayer pid (fun pl =>
        { pl with influence := modifyAt pl.influence q.1 (fun c => { c with revealed := true }) })
      let g2 := { g1 with
        log := g1.log ++ [p.name ++ " loses influence (" ++ q.2.role.str ++ " revealed)."] }
      (true, g2.checkWin)

/-! ## Per-viewer state projection (`getStateFor`) -/

structure ViewCard where
  role : String
  revealed : Bool
deriving DecidableEq, Repr

structure ViewPlayer where
  id : PId
  name : String
  coins : Int
  alive : Bool
  influence : List ViewCard
deriving DecidableEq, Repr

structure StateView where
  players : List ViewPlayer
  log : List String
  pendingAction : Option Pending
  turnPlayerId : Option PId
  gameOver : Bool
  winnerId : Option PId
deriving DecidableEq, Repr

/-- The per-card projection rule of `getStateFor`:
revealed cards show their role to everyone, the viewer sees their own
unrevealed roles, and all other unrevealed cards render as `"?"`. -/
def viewCardFor (viewer : Option PId) (ownerId : PId) (c : Card) : ViewCard :=
  if c.revealed then { role := c.role.str, revealed := true }
  else if some ownerId = viewer then { role := c.role.str, revealed := false }
  else { role := "?", revealed := false }

/-- `getStateFor(viewerId)`.  Like every `currentPlayer()` caller it also
nudges `turnIndex` past dead players, so the (projection, mutated game) pair
is returned. -/
def Game.getStateFor (g : Game) (viewer : Option PId) : StateView × Game :=
  ({ players := g.players.map (fun p =>
        { id := p.id
          name := p.name
          coins := p.coins
          alive := g.isAlive p.id
          influence := p.influence.map (viewCardFor viewer p.id) })
     log := lastN 80 g.log
     pendingAction := g.pendingAction
     turnPlayerId := g.currentPlayerCalc.1.map (fun p => p.id)
     gameOver := g.gameOver
     winnerId := g.winnerId }, g.touch)

/-- `getPublicState()`. -/
def Game.getPublicState (g : Game) : StateView × Game :=
  g.getStateFor none

/-! ## Game construction (`new GameEngine(players)`) -/

/-- The dealing loop of the constructor: each player is dealt two cards drawn
one at a time, in player order. -/
def dealSeq : Game → List Player → List Player × Game
  | g, [] => ([], g)
  | g, p :: rest =>
    let d1 := g.draw
    let d2 := d1.2.draw
    let p2 := { p with influence := p.influence ++ [{ role := d1.1, revealed := false }, { role := d2.1, revealed := false }] }
    let r := dealSeq d2.2 rest
    (p2 :: r.1, r.2)

/-- `new GameEngine(players)` for a given join list and random tape. -/
def newGame (ps : List (PId × String)) (tape : Nat → Nat) : Game :=
  let s := shuffleT tape 0 makeDeckRaw
  let g0 : Game :=
    { players := ps.map (fun q => { id := q.1, name := q.2, coins := 2, influence := [] })
      deck := s.1
      log := []
      turnIndex := 0
      pendingAction := none
      gameOver := false
      winnerId := none
      exchangeSecrets := []
      rng := tape
      rngIdx := s.2 }
  let r := dealSeq g0 g0.players
  let g1 := { r.2 with players := r.1 }
  let g2 := { g1 with log := g1.log ++ ["Game started. Each player has 2 influence and 2 coins."] }
  let c := g2.currentPlayerCalc
  let g3 := { g2 with turnIndex := c.2 }
  match c.1 with
  | some cp => { g3 with log := g3.log ++ ["It is now " ++ cp.name ++ "'s turn."] }
  | none => g3

/-! ## Action resolver (actionResolver.js) -/

/-- A targeted private payload (`privates`); the only kind in the code is the
exchange-options reveal, so the constant `type`/`kind` tags are dropped. -/
structure PrivateMsg where
  toId : PId
  keepCount : Nat
  options : List (String × Role)
deriving DecidableEq, Repr

/-- `initResponders(game, excludeId)`: every living player except `excludeId`
is set `"pending"`, in player order, with JS-object key semantics. -/
def initResponders (g : Game) (excludeId : PId) : Responders :=
  g.players.foldl
    (fun acc p =>
      if p.id = excludeId then acc
      else if g.isAlive p.id then setEntry acc p.id RStatus.pending
      else acc)
    []

/-- `everyonePassed(responders)`. -/
def everyonePassed (resp : Responders) : Bool :=
  resp.all (fun e => e.2 == RStatus.passed)

/-- `firstChallenger(responders)`: first entry recorded `"challenged"`. -/
def firstChallenger (resp : Responders) : Option PId :=
  (resp.find? (fun e => e.2 == RStatus.challenged)).map (fun e => e.1)

/-- `playerId in pending.responders`. -/
def hasResponder (resp : Responders) (pid : PId) : Bool :=
  resp.any (fun e => e.1 == pid)

/-- `pending.responders[playerId] = v`. -/
def setStatus (resp : Responders) (pid : PId) (v : RStatus) : Responders :=
  setEntry resp pid v

/-- `finishTurn(game)`: clear the pending action, advance the turn, return
`getPublicState()` (whose `currentPlayer()` call is the final `touch`). -/
def finishTurn (g : Game) : Game × List PrivateMsg :=
  let g1 := { g with pendingAction := none }
  let g2 := g1.nextTurn
  (g2.touch, [])

/-- `beginLoseInfluence(game, {playerId, reason, continuation})`. -/
def beginLoseInfluence (g : Game) (pid : PId) (reason : String) (cont : Continuation) : Game :=
  { g with pendingAction := some (.loseInfluence pid reason cont) }

/-- The `somePlayer.name` of a player fetched by id; the JS code would throw
on a missing player (never exercised by the resolver's call discipline). -/
def nameOf (g : Game) (pid : PId) : String :=
  match g.getPlayer pid with
  | some p => p.name
  | none => "?"

/-- `applySteal(game, actorId, targetId)`: move `min(2, target.coins)` coins.
When actor and target are the same object the two JS mutations alias, which
the sequential first-match updates reproduce. -/
def applySteal (g : Game) (actorId targetId : PId) : Game :=
  match g.getPlayer actorId, g.getPlayer targetId with
  | some actor, some target =>
    let amt : Int := min 2 target.coins
    let g1 := g.updatePlayer targetId (fun p => { p with coins := p.coins - amt })
    let g2 := g1.updatePlayer actorId (fun p => { p with coins := p.coins + amt })
    { g2 with log := g2.log ++
        [actor.name ++ " steals " ++ toString amt ++ " coin(s) from " ++ target.name ++ "."] }
  | _, _ => g

/-- The unrevealed hand-slot indices of a card list
(`influence.map((c,i)=>({c,i})).filter(({c}) => !c.revealed).map(({i}) => i)`). -/
def unrevSlots (cs : List Card) : List Nat :=
  ((enumFrom 0 cs).filter (fun q => !q.2.revealed)).map (fun q => q.1)

/-- `startExchangeChoice(game, actorId)`: label the actor's unrevealed roles
plus two fresh draws with synthetic ids `h0..h(k-1), dk, d(k+1)`, store them
in the private secret store, and open the `awaitingChoice` stage. -/
def startExchangeChoice (g : Game) (actorId : PId) : Game × List PrivateMsg :=
  match g.getPlayer actorId with
  | none => (g.touch, [])
  | some actor =>
    let handIdx := unrevSlots actor.influence
    let keepCount := handIdx.length
    if keepCount = 0 then finishTurn g
    else
      let handOpts : List ExchangeOption := (enumFrom 0 handIdx).map (fun q =>
        { id := "h" ++ toString q.1
          role := ((actor.influence.get? q.2).getD { role := .Duke, revealed := false }).role
          source := OptSource.hand
          handIndex := some q.2 })
      let d1 := g.draw
      let d2 := d1.2.draw
      let options := handOpts ++
        [ { id := "d" ++ toString keepCount, role := d1.1, source := .drawn, handIndex := none },
          { id := "d" ++ toString (keepCount + 1), role := d2.1, source := .drawn, handIndex := none } ]
      let g3 := { d2.2 with
        exchangeSecrets := setEntry d2.2.exchangeSecrets actorId { keepCount := keepCount, options := options },
        pendingAction := some (.exchangeChoice actorId keepCount) }
      (g3.touch,
       [ { toId := actorId, keepCount := keepCount, options := options.map (fun o => (o.id, o.role)) } ])

/-- `continueAfterLoseInfluence(game, cont)`: dispatch the stored
continuation once a forced influence loss completed. -/
def continueAfterLoseInfluence (g : Game) (cont : Continuation) : Game × List PrivateMsg :=
  match cont with
  | .endTurn => finishTurn g
  | .assassinateOpenBlock aid tid =>
    (({ g with
        pendingAction := some (.assassinate .awaitingBlock aid tid none [(tid, .pending)]) }).touch, [])
  | .assassinateBlockStands =>
    finishTurn { g with log := g.log ++ ["Assassination is blocked."] }
  | .assassinateForceTargetLoss _aid tid =>
    ((beginLoseInfluence g tid "assassinated" (.endTurnAfterAssassination tid)).touch, [])
  | .endTurnAfterAssassination tid =>
    match g.getPlayer tid with
    | some t => finishTurn { g with log := g.log ++ [t.name ++ " is assassinated."] }
    | none => finishTurn g
  | .stealOpenBlock aid tid =>
    (({ g with
        pendingAction := some (.steal .awaitingBlock aid tid none none [(tid, .pending)]) }).touch, [])
  | .stealApply aid tid => finishTurn (applySteal g aid tid)
  | .stealBlockStands => finishTurn { g with log := g.log ++ ["Steal is blocked."] }
  | .stealApplyAfterBlockFail aid tid => finishTurn (applySteal g aid tid)
  | .exchangeStartChoice aid => startExchangeChoice g aid

/-- `resolveAction(game, {actorId, actionType, targetId})` input. -/
structure ActionInput where
  actorId : PId
  actionType : String
  targetId : Option PId
deriving DecidableEq, Repr

/-- `handleResponse` payload (`{role}` for block, `{cardIndex}` for
loseInfluence, `{keep}` for exchangeChoice); absent fields are `none`. -/
structure Payload where
  role : Option Role
  cardIndex : Option Nat
  keep : Option (List String)
deriving DecidableEq, Repr

structure ResponseInput where
  playerId : PId
  responseType : String
  payload : Payload
deriving DecidableEq, Repr

/-- `resolveAction` — the Action Initiator. -/
def resolveAction (g : Game) (inp : ActionInput) : Game × List PrivateMsg :=
  match g.getPlayer inp.actorId with
  | none => (g.touch, [])
  | some actor =>
    if inp.actionType ≠ "coup" ∧ actor.coins ≥ 10 then
      (({ g with log := g.log ++ [actor.name ++ " has 10+ coins and must Coup."] }).touch, [])
    else if inp.actionType = "income" then
      let g1 := g.updatePlayer inp.actorId (fun p => { p with coins := p.coins + 1 })
      finishTurn { g1 with log := g1.log ++ [actor.name ++ " takes Income (+1)."] }
    else if inp.actionType = "coup" then
      match g.getPlayerOpt inp.targetId with
      | none => (({ g with log := g.log ++ ["Invalid Coup target."] }).touch, [])
      | some target =>
        if ¬ g.isAlive target.id then
          (({ g with log := g.log ++ ["Invalid Coup target."] }).touch, [])
        else if actor.coins < 7 then
          (({ g with log := g.log ++ [actor.name ++ " cannot Coup (needs 7 coins)."] }).touch, [])
        else
          let g1 := g.updatePlayer inp.actorId (fun p => { p with coins := p.coins - 7 })
          let g2 := { g1 with log := g1.log ++
            [actor.name ++ " launches a Coup on " ++ target.name ++ " (7 coins)."] }
          ((beginLoseInfluence g2 target.id "coup" .endTurn).touch, [])
    else if inp.actionType = "foreign_aid" then
      let g1 := g.updatePlayer inp.actorId (fun p => { p with coins := p.coins + 2 })
      let g2 := { g1 with log := g1.log ++ [actor.name ++ " attempts Foreign Aid (+2)."] }
      (({ g2 with
          pendingAction := some (.foreignAid .awaitingBlock inp.actorId (initResponders g2 inp.actorId) none) }).touch, [])
    else if inp.actionType = "tax" then
      let g1 := { g with log := g.log ++ [actor.name ++ " claims Duke for Tax (+3)."] }
      (({ g1 with
          pendingAction := some (.tax inp.actorId (initResponders g1 inp.actorId)) }).touch, [])
    else if inp.actionType = "assassinate" then
      match g.getPlayerOpt inp.targetId with
      | none => (({ g with log := g.log ++ ["Invalid Assassination target."] }).touch, [])
      | some target =>
        if ¬ g.isAlive target.id ∨ target.id = inp.actorId then
          (({ g with log := g.log ++ ["Invalid Assassination target."] }).touch, [])
        else if actor.coins < 3 then
          (({ g with log := g.log ++ [actor.name ++ " cannot Assassinate (needs 3 coins)."] }).touch, [])
        else
          let g1 := g.updatePlayer inp.actorId (fun p => { p with coins := p.coins - 3 })
          let g2 := { g1 with log := g1.log ++
            [actor.name ++ " claims Assassin to assassinate " ++ target.name ++ " (3 coins)."] }
          (({ g2 with
              pendingAction := some (.assassinate .awaitingChallenge inp.actorId target.id none
                (initResponders g2 inp.actorId)) }).touch, [])
    else if inp.actionType = "steal" then
      match g.getPlayerOpt inp.targetId with
      | none => (({ g with log := g.log ++ ["Invalid Steal target."] }).touch, [])
      | some target =>
        if ¬ g.isAlive target.id ∨ target.id = inp.actorId then
          (({ g with log := g.log ++ ["Invalid Steal target."] }).touch, [])
        else
          let g1 := { g with log := g.log ++
            [actor.name ++ " claims Captain to steal from " ++ target.name ++ "."] }
          (({ g1 with
              pendingAction := some (.steal .awaitingChallenge inp.actorId target.id none none
                (initResponders g1 inp.actorId)) }).touch, [])
    else if inp.actionType = "exchange" then
      let g1 := { g with log := g.log ++ [actor.name ++ " claims Ambassador to Exchange."] }
      (({ g1 with
          pendingAction := some (.exchange inp.actorId (initResponders g1 inp.actorId)) }).touch, [])
    else
      (({ g with log := g.log ++ ["Unknown action: " ++ inp.actionType] }).touch, [])

/-! ### handleResponse, by pending-action branch -/

/-- Branch 1: the `loseInfluence` pending action. -/
def loseInfluenceResponse (g : Game) (pid : PId) (cont : Continuation)
    (inp : ResponseInput) : Game × List PrivateMsg :=
  if inp.playerId ≠ pid then (g.touch, [])
  else if inp.responseType ≠ "loseInfluence" then (g.touch, [])
  else
    let r := g.loseInfluence inp.playerId inp.payload.cardIndex
    if r.1 = false then (r.2.touch, [])
    else
      continueAfterLoseInfluence { r.2 with pendingAction := none } cont

/-- Branch 2: tax (`awaitingChallenge` on the Duke claim). -/
def taxResponse (g : Game) (aid : PId) (resp : Responders)
    (inp : ResponseInput) : Game × List PrivateMsg :=
  if ¬ hasResponder resp inp.playerId then (g.touch, [])
  else
    let resp2? : Option Responders :=
      if inp.responseType = "pass" then some (setStatus resp inp.playerId .passed)
      else if inp.responseType = "challenge" then some (setStatus resp inp.playerId .challenged)
      else none
    match resp2? with
    | none => (g.touch, [])
    | some resp2 =>
      let g1 := { g with pendingAction := some (.tax aid resp2) }
      match firstChallenger resp2 with
      | some challengerId =>
        if g1.playerHasRole aid Role.Duke then
          let g2 := { g1 with log := g1.log ++ [nameOf g1 challengerId ++ " challenges — FAILED."] }
          let g3 := (g2.revealAndRedraw aid Role.Duke).2
          let g4 := g3.updatePlayer aid (fun p => { p with coins := p.coins + 3 })
          let g5 := { g4 with log := g4.log ++ [nameOf g4 aid ++ " takes Tax (+3)."] }
          ((beginLoseInfluence g5 challengerId "failed_challenge" .endTurn).touch, [])
        else
          let g2 := { g1 with log := g1.log ++
            [nameOf g1 challengerId ++ " challenges — SUCCESS.", "Tax fails."] }
          ((beginLoseInfluence g2 aid "lost_challenge" .endTurn).touch, [])
      | none =>
        if everyonePassed resp2 then
          let g2 := g1.updatePlayer aid (fun p => { p with coins := p.coins + 3 })
          let g3 := { g2 with log := g2.log ++ [nameOf g2 aid ++ " takes Tax (+3)."] }
          finishTurn g3
        else (g1.touch, [])

/-- Branch 3: foreign aid (block window, then challenge-the-block). -/
def foreignAidResponse (g : Game) (stage : Stage) (aid : PId) (resp : Responders)
    (blockedBy : Option PId) (inp : ResponseInput) : Game × List PrivateMsg :=
  match stage with
  | .awaitingBlock =>
    if ¬ hasResponder resp inp.playerId then (g.touch, [])
    else if inp.responseType = "pass" then
      let resp2 := setStatus resp inp.playerId .passed
      let g1 := { g with pendingAction := some (.foreignAid .awaitingBlock aid resp2 blockedBy) }
      if everyonePassed resp2 then finishTurn { g1 with log := g1.log ++ ["Foreign Aid succeeds."] }
      else (g1.touch, [])
    else if inp.responseType = "block" ∧ inp.payload.role = some Role.Duke then
      let g1 := { g with
        pendingAction := some (.foreignAid .awaitingChallengeBlock aid
          (initResponders g inp.playerId) (some inp.playerId)),
        log := g.log ++ [nameOf g inp.playerId ++ " blocks Foreign Aid with Duke."] }
      (g1.touch, [])
    else (g.touch, [])
  | .awaitingChallengeBlock =>
    if ¬ hasResponder resp inp.playerId then (g.touch, [])
    else
      let resp2? : Option Responders :=
        if inp.responseType = "pass" then some (setStatus resp inp.playerId .passed)
        else if inp.responseType = "challenge" then some (setStatus resp inp.playerId .challenged)
        else none
      match resp2? with
      | none => (g.touch, [])
      | some resp2 =>
        let g1 := { g with
          pendingAction := some (.foreignAid .awaitingChallengeBlock aid resp2 blockedBy) }
        match firstChallenger resp2 with
        | some challengerId =>
          match blockedBy with
          | some blockerId =>
            if g1.playerHasRole blockerId Role.Duke then
              let g2 := { g1 with log := g1.log ++
                [nameOf g1 challengerId ++ " challenges block — FAILED."] }
              let g3 := (g2.revealAndRedraw blockerId Role.Duke).2
              let g4 := g3.updatePlayer aid (fun p => { p with coins := p.coins - 2 })
              let g5 := { g4 with log := g4.log ++ ["Foreign Aid is blocked."] }
              ((beginLoseInfluence g5 challengerId "failed_challenge" .endTurn).touch, [])
            else
              let g2 := { g1 with log := g1.log ++
                [nameOf g1 challengerId ++ " challenges block — SUCCESS.", "Block fails. Foreign Aid succeeds."] }
              ((beginLoseInfluence g2 blockerId "lost_challenge" .endTurn).touch, [])
          | none =>
            -- unreachable: a challenge-block stage always records its blocker
            -- (the JS code would here operate on a null blocker id)
            (g1.touch, [])
        | none =>
          if everyonePassed resp2 then
            let g2 := g1.updatePlayer aid (fun p => { p with coins := p.coins - 2 })
            finishTurn { g2 with log := g2.log ++ ["Foreign Aid is blocked."] }
          else (g1.touch, [])
  | _ => (g.touch, [])

/-- Branch 4: assassinate (challenge → targeted block → challenge-the-block). -/
def assassinateResponse (g : Game) (stage : Stage) (aid tid : PId) (blockedBy : Option PId)
    (resp : Responders) (inp : ResponseInput) : Game × List PrivateMsg :=
  match stage with
  | .awaitingChallenge =>
    if ¬ hasResponder resp inp.playerId then (g.touch, [])
    else
      let resp2? : Option Responders :=
        if inp.responseType = "pass" then some (setStatus resp inp.playerId .passed)
        else if inp.responseType = "challenge" then some (setStatus resp inp.playerId .challenged)
        else none
      match resp2? with
      | none => (g.touch, [])
      | some resp2 =>
        let g1 := { g with
          pendingAction := some (.assassinate .awaitingChallenge aid tid blockedBy resp2) }
        match firstChallenger resp2 with
        | some challengerId =>
          if g1.playerHasRole aid Role.Assassin then
            let g2 := { g1 with log := g1.log ++ [nameOf g1 challengerId ++ " challenges — FAILED."] }
            let g3 := (g2.revealAndRedraw aid Role.Assassin).2
            ((beginLoseInfluence g3 challengerId "failed_challenge"
                (.assassinateOpenBlock aid tid)).touch, [])
          else
            let g2 := { g1 with log := g1.log ++
              [nameOf g1 challengerId ++ " challenges — SUCCESS.", "Assassination fails."] }
            ((beginLoseInfluence g2 aid "lost_challenge" .endTurn).touch, [])
        | none =>
          if everyonePassed resp2 then
            (({ g1 with
                pendingAction := some (.assassinate .awaitingBlock aid tid none [(tid, .pending)]) }).touch, [])
          else (g1.touch, [])
  | .awaitingBlock =>
    if inp.playerId ≠ tid then (g.touch, [])
    else if inp.responseType = "pass" then
      ((beginLoseInfluence g tid "assassinated" (.endTurnAfterAssassination tid)).touch, [])
    else if inp.responseType = "block" ∧ inp.payload.role = some Role.Contessa then
      let g1 := { g with log := g.log ++ [nameOf g tid ++ " blocks the assassination with Contessa."] }
      (({ g1 with
          pendingAction := some (.assassinate .awaitingChallengeBlock aid tid (some tid)
            (initResponders g1 tid)) }).touch, [])
    else (g.touch, [])
  | .awaitingChallengeBlock =>
    if ¬ hasResponder resp inp.playerId then (g.touch, [])
    else
      let resp2? : Option Responders :=
        if inp.responseType = "pass" then some (setStatus resp inp.playerId .passed)
        else if inp.responseType = "challenge" then some (setStatus resp inp.playerId .challenged)
        else none
      match resp2? with
      | none => (g.touch, [])
      | some resp2 =>
        let g1 := { g with
          pendingAction := some (.assassinate .awaitingChallengeBlock aid tid blockedBy resp2) }
        match firstChallenger resp2 with
        | some challengerId =>
          match blockedBy with
          | some blockerId =>
            if g1.playerHasRole blockerId Role.Contessa then
              let g2 := { g1 with log := g1.log ++
                [nameOf g1 challengerId ++ " challenges block — FAILED."] }
              let g3 := (g2.revealAndRedraw blockerId Role.Contessa).2
              ((beginLoseInfluence g3 challengerId "failed_challenge"
                  .assassinateBlockStands).touch, [])
            else
              let g2 := { g1 with log := g1.log ++
                [nameOf g1 challengerId ++ " challenges block — SUCCESS."] }
              ((beginLoseInfluence g2 blockerId "lost_challenge"
                  (.assassinateForceTargetLoss aid tid)).touch, [])
          | none =>
            -- unreachable: a challenge-block stage always records its blocker
            (g1.touch, [])
        | none =>
          if everyonePassed resp2 then
            finishTurn { g1 with log := g1.log ++ ["Assassination is blocked."] }
          else (g1.touch, [])
  | _ => (g.touch, [])

/-- Branch 5: steal (challenge → targeted block with Captain or Ambassador →
challenge-the-block, remembering the claimed block role). -/
def stealResponse (g : Game) (stage : Stage) (aid tid : PId) (blockedBy : Option PId)
    (blockRole : Option Role) (resp : Responders) (inp : ResponseInput) : Game × List PrivateMsg :=
  match stage with
  | .awaitingChallenge =>
    if ¬ hasResponder resp inp.playerId then (g.touch, [])
    else
      let resp2? : Option Responders :=
        if inp.responseType = "pass" then some (setStatus resp inp.playerId .passed)
        else if inp.responseType = "challenge" then some (setStatus resp inp.playerId .challenged)
        else none
      match resp2? with
      | none => (g.touch, [])
      | some resp2 =>
        let g1 := { g with
          pendingAction := some (.steal .awaitingChallenge aid tid blockedBy blockRole resp2) }
        match firstChallenger resp2 with
        | some challengerId =>
          if g1.playerHasRole aid Role.Captain then
            let g2 := { g1 with log := g1.log ++ [nameOf g1 challengerId ++ " challenges — FAILED."] }
            let g3 := (g2.revealAndRedraw aid Role.Captain).2
            ((beginLoseInfluence g3 challengerId "failed_challenge"
                (.stealOpenBlock aid tid)).touch, [])
          else
            let g2 := { g1 with log := g1.log ++
              [nameOf g1 challengerId ++ " challenges — SUCCESS.", "Steal fails."] }
            ((beginLoseInfluence g2 aid "lost_challenge" .endTurn).touch, [])
        | none =>
          if everyonePassed resp2 then
            (({ g1 with
                pendingAction := some (.steal .awaitingBlock aid tid none none [(tid, .pending)]) }).touch, [])
          else (g1.touch, [])
  | .awaitingBlock =>
    if inp.playerId ≠ tid then (g.touch, [])
    else if inp.responseType = "pass" then
      let g1 := { g with pendingAction := none }
      finishTurn (applySteal g1 aid tid)
    else if inp.responseType = "block" ∧
        (inp.payload.role = some Role.Captain ∨ inp.payload.role = some Role.Ambassador) then
      match inp.payload.role with
      | some role =>
        let g1 := { g with log := g.log ++
          [nameOf g tid ++ " blocks the steal with " ++ role.str ++ "."] }
        (({ g1 with
            pendingAction := some (.steal .awaitingChallengeBlock aid tid (some tid) (some role)
              (initResponders g1 tid)) }).touch, [])
      | none => (g.touch, [])
    else (g.touch, [])
  | .awaitingChallengeBlock =>
    if ¬ hasResponder resp inp.playerId then (g.touch, [])
    else
      let resp2? : Option Responders :=
        if inp.responseType = "pass" then some (setStatus resp inp.playerId .passed)
        else if inp.responseType = "challenge" then some (setStatus resp inp.playerId .challenged)
        else none
      match resp2? with
      | none => (g.touch, [])
      | some resp2 =>
        let g1 := { g with
          pendingAction := some (.steal .awaitingChallengeBlock aid tid blockedBy blockRole resp2) }
        match firstChallenger resp2 with
        | some challengerId =>
          match blockedBy with
          | some blockerId =>
            let blockerHas :=
              match blockRole with
              | some role => g1.playerHasRole blockerId role
              | none => false   -- `playerHasRole(id, undefined)` is false in JS
            if blockerHas = true then
              match blockRole with
              | some role =>
                let g2 := { g1 with log := g1.log ++
                  [nameOf g1 challengerId ++ " challenges block — FAILED."] }
                let g3 := (g2.revealAndRedraw blockerId role).2
                ((beginLoseInfluence g3 challengerId "failed_challenge"
                    .stealBlockStands).touch, [])
              | none => (g1.touch, [])  -- impossible: blockerHas is false when blockRole is none
            else
              let g2 := { g1 with log := g1.log ++
                [nameOf g1 challengerId ++ " challenges block — SUCCESS."] }
              ((beginLoseInfluence g2 blockerId "lost_challenge"
                  (.stealApplyAfterBlockFail aid tid)).touch, [])
          | none =>
            -- unreachable: a challenge-block stage always records its blocker
            (g1.touch, [])
        | none =>
          if everyonePassed resp2 then
            finishTurn { g1 with log := g1.log ++ ["Steal is blocked."] }
          else (g1.touch, [])
  | _ => (g.touch, [])

/-- Branch 6a: exchange, `awaitingChallenge` on the Ambassador claim. -/
def exchangeChallengeResponse (g : Game) (aid : PId) (resp : Responders)
    (inp : ResponseInput) : Game × List PrivateMsg :=
  if ¬ hasResponder resp inp.playerId then (g.touch, [])
  else
    let resp2? : Option Responders :=
      if inp.responseType = "pass" then some (setStatus resp inp.playerId .passed)
      else if inp.responseType = "challenge" then some (setStatus resp inp.playerId .challenged)
      else none
    match resp2? with
    | none => (g.touch, [])
    | some resp2 =>
      let g1 := { g with pendingAction := some (.exchange aid resp2) }
      match firstChallenger resp2 with
      | some challengerId =>
        if g1.playerHasRole aid Role.Ambassador then
          let g2 := { g1 with log := g1.log ++ [nameOf g1 challengerId ++ " challenges — FAILED."] }
          let g3 := (g2.revealAndRedraw aid Role.Ambassador).2
          ((beginLoseInfluence g3 challengerId "failed_challenge"
              (.exchangeStartChoice aid)).touch, [])
        else
          let g2 := { g1 with log := g1.log ++
            [nameOf g1 challengerId ++ " challenges — SUCCESS.", "Exchange fails."] }
          ((beginLoseInfluence g2 aid "lost_challenge" .endTurn).touch, [])
      | none =>
        if everyonePassed resp2 then startExchangeChoice g1 aid
        else (g1.touch, [])

/-- The replacement loop of the exchange choice:
`for k: actor.influence[handSlots[k]] = { role: chosen[k].role, revealed: false }`. -/
def applyChosen (influence : List Card) (slots : List Nat) (roles : List Role) : List Card :=
  (slots.zip roles).foldl (fun inf q => inf.set q.1 { role := q.2, revealed := false }) influence

/-- Branch 6b: exchange, `awaitingChoice` (the actor picks which ids to keep). -/
def exchangeChoiceResponse (g : Game) (aid : PId) (inp : ResponseInput) : Game × List PrivateMsg :=
  if inp.playerId ≠ aid then (g.touch, [])
  else if inp.responseType ≠ "exchangeChoice" then (g.touch, [])
  else
    match getEntry g.exchangeSecrets inp.playerId with
    | none => (g.touch, [])
    | some secret =>
      let keepList := inp.payload.keep.getD []
      let uniq := jsSetDedup keepList
      if uniq.length ≠ secret.keepCount then (g.touch, [])
      else
        let chosen := secret.options.filter (fun o => uniq.contains o.id)
        if chosen.length ≠ secret.keepCount then (g.touch, [])
        else
          match g.getPlayer inp.playerId with
          | none => (g.touch, [])
          | some actor =>
            let handSlots := unrevSlots actor.influence
            if handSlots.length ≠ secret.keepCount then (g.touch, [])
            else
              let unchosenRoles := (secret.options.filter (fun o => !uniq.contains o.id)).map
                (fun o => o.role)
              let chosenRoles := chosen.map (fun o => o.role)
              let g1 := g.updatePlayer inp.playerId (fun pl =>
                { pl with influence := applyChosen pl.influence handSlots chosenRoles })
              let g2 := g1.returnToDeck unchosenRoles
              let g3 := { g2 with exchangeSecrets := delEntry g2.exchangeSecrets inp.playerId }
              let g4 := { g3 with log := g3.log ++ [actor.name ++ " completes Exchange."] }
              finishTurn g4

/-- `handleResponse(game, {playerId, responseType, payload})` — the Response
Resolver.  Dispatch on the pending action; no pending action, or a pending
action none of whose branch guards fire, is a no-op returning
`getPublicState()`. -/
def handleResponse (g : Game) (inp : ResponseInput) : Game × List PrivateMsg :=
  match g.pendingAction with
  | none => (g.touch, [])
  | some (.loseInfluence pid _reason cont) => loseInfluenceResponse g pid cont inp
  | some (.tax aid resp) => taxResponse g aid resp inp
  | some (.foreignAid st aid resp blk) => foreignAidResponse g st aid resp blk inp
  | some (.assassinate st aid tid blk resp) => assassinateResponse g st aid tid blk resp inp
  | some (.steal st aid tid blk brole resp) => stealResponse g st aid tid blk brole resp inp
  | some (.exchange aid resp) => exchangeChallengeResponse g aid resp inp
  | some (.exchangeChoice aid _k) => exchangeChoiceResponse g aid inp

/-! ## Server-level reachability (server.js)

The transport layer owns the call discipline: an `action` message runs
`currentPlayer()` on the game (which itself nudges `turnIndex`), requires the
sender to be that player and no pending action to exist, and only then calls
`resolveAction`; a `response` message calls `handleResponse` directly; both
are refused once `gameOver` is set; and every broadcast projects the state via
`getStateFor` (another `touch`).  `Reachable` closes a fresh game under
exactly these operations. -/
inductive Reachable : Game → Prop
  | init (ps : List (PId × String)) (tape : Nat → Nat) :
      Reachable (newGame ps tape)
  | act (g : Game) (inp : ActionInput) (p : Player) :
      Reachable g →
      g.gameOver = false →
      g.currentPlayerCalc.1 = some p →
      p.id = inp.actorId →
      g.pendingAction = none →
      Reachable (resolveAction g.touch inp).1
  | resp (g : Game) (inp : ResponseInput) :
      Reachable g →
      g.gameOver = false →
      Reachable (handleResponse g inp).1
  | view (g : Game) :
      Reachable g →
      Reachable g.touch

/-! ## Specification-side accounting

The conservation statements speak about the multiset of roles in the deck, in
players' hands (revealed or not) and — for the sharpened invariant — the two
face-down cards drawn for an in-flight exchange, which live only in the
private secret store. -/

/-- The full 15-card bag: three of each role. -/
def fullBag : Multiset Role := (makeDeckRaw : Multiset Role)

/-- All roles in a player's two influence slots (revealed and unrevealed). -/
def Player.roleBag (p : Player) : Multiset Role :=
  ((p.influence.map Card.role : List Role) : Multiset Role)

def handBagL (players : List Player) : Multiset Role :=
  (players.map Player.roleBag).sum

/-- The roles of the drawn (not hand-copied) options of an exchange secret. -/
def ExchangeSecret.drawnBag (sec : ExchangeSecret) : Multiset Role :=
  (((sec.options.filter (fun o => o.source == OptSource.drawn)).map ExchangeOption.role :
    List Role) : Multiset Role)

def secretBagL (secrets : List (PId × ExchangeSecret)) : Multiset Role :=
  (secrets.map (fun e => e.2.drawnBag)).sum

/-- Deck plus hands — the quantity claimed conserved by the spec. -/
def Game.cardBag (g : Game) : Multiset Role :=
  (g.deck : Multiset Role) + handBagL g.players

/-- Deck plus hands plus in-flight exchange draws. -/
def Game.fullCardBag (g : Game) : Multiset Role :=
  g.cardBag + secretBagL g.exchangeSecrets

/-! ## The inductive invariant -/

/-- The `responders` record of a pending action (empty when it has none). -/
def Pending.respOf : Pending → Responders
  | .loseInfluence .. => []
  | .tax _ r => r
  | .foreignAid _ _ r _ => r
  | .assassinate _ _ _ _ r => r
  | .steal _ _ _ _ _ r => r
  | .exchange _ r => r
  | .exchangeChoice .. => []

/-- No responder entry is marked `"challenged"`. -/
def noChalOpt : Option Pending → Prop
  | none => True
  | some p => ∀ e ∈ p.respOf, e.2 ≠ RStatus.challenged

/-- A challenge-the-block stage always records its blocker. -/
def blockedOKP : Pending → Prop
  | .foreignAid .awaitingChallengeBlock _ _ bb => bb ≠ none
  | .assassinate .awaitingChallengeBlock _ _ bb _ => bb ≠ none
  | .steal .awaitingChallengeBlock _ _ bb _ _ => bb ≠ none
  | _ => True

def blockedOKOpt : Option Pending → Prop
  | none => True
  | some p => blockedOKP p

/-- The private exchange store is empty except exactly while an
`awaitingChoice` exchange is pending, in which case it stores the single
entry for that actor and its `"hand"` options list the actor's current
unrevealed roles in order. -/
def secretsOn (pending : Option Pending) (secrets : List (PId × ExchangeSecret))
    (players : List Player) : Prop :=
  match pending with
  | some (.exchangeChoice aid _) =>
      ∃ sec actor, secrets = [(aid, sec)] ∧ findPlayer players aid = some actor ∧
        (sec.options.filter (fun o => o.source == OptSource.hand)).map ExchangeOption.role
          = (actor.influence.filter (fun c => !c.revealed)).map Card.role
  | _ => secrets = []

structure InvOn (players : List Player) (deck : List Role)
    (pending : Option Pending) (store : List (PId × ExchangeSecret)) : Prop where
  twoCards : ∀ p ∈ players, p.influence.length = 2
  noChal : noChalOpt pending
  blocked : blockedOKOpt pending
  secOK : secretsOn pending store players
  bag : players.length ≤ 6 →
    (deck : Multiset Role) + handBagL players + secretBagL store = fullBag

/-- The inductive invariant of the engine, over the fields the resolver's
data statements depend on (log, turn index, win flags and the random tape do
not enter). -/
def Inv (g : Game) : Prop := InvOn g.players g.deck g.pendingAction g.exchangeSecrets
/-- The coin count of the player fetched by id, as seen from outside. -/
def Game.coinsOf (g : Game) (pid : PId) : Option Int :=
  (g.getPlayer pid).map Player.coins

/-- Position-wise persistence of revealed cards: every revealed card of `g`
sits unchanged at the same player position and hand slot in `g2`. -/
def InflMono (g g2 : Game) : Prop :=
  ∀ i j (c : Card),
    (g.players.get? i).bind (fun p => p.influence.get? j) = some c →
    c.revealed = true →
    (g2.players.get? i).bind (fun p => p.influence.get? j) = some c


/-! ## Generic list lemmas -/

theorem modifyAt_length (l : List α) (i : Nat) (h : α → α) :
    (modifyAt l i h).length = l.length := by
  induction l generalizing i with
  | nil => rfl
  | cons a as ih =>
    cases i with
    | zero => simp [modifyAt]
    | succ n => simp [modifyAt, ih]

theorem map_modifyAt_eq (l : List α) (i : Nat) (h : α → α) (f : α → β)
    (hf : ∀ a, f (h a) = f a) : (modifyAt l i h).map f = l.map f := by
  induction l generalizing i with
  | nil => rfl
  | cons a as ih =>
    cases i with
    | zero => simp [modifyAt, hf]
    | succ n => simp [modifyAt, ih]

theorem modifyAt_get? (l : List α) (i j : Nat) (h : α → α) :
    (modifyAt l i h).get? j = if i = j then (l.get? j).map h else l.get? j := by
  induction l generalizing i j with
  | nil => simp [modifyAt]
  | cons a as ih =>
    cases i with
    | zero =>
      cases j with
      | zero => simp [modifyAt]
      | succ m => simp [modifyAt, Nat.zero_ne_add_one]
    | succ n =>
      cases j with
      | zero => simp [modifyAt]
      | succ m =>
        simp only [modifyAt, List.get?_cons_succ, ih]
        by_cases hnm : n = m <;> simp [hnm]

theorem get?_set_self (l : List α) (i : Nat) (a : α) (h : i < l.length) :
    (l.set i a).get? i = some a := by
  induction l generalizing i with
  | nil => simp at h
  | cons b bs ih =>
    cases i with
    | zero => rfl
    | succ n => exact ih n (Nat.lt_of_succ_lt_succ h)

theorem get?_set_ne (l : List α) (i j : Nat) (a : α) (h : i ≠ j) :
    (l.set i a).get? j = l.get? j := by
  induction l generalizing i j with
  | nil => rfl
  | cons b bs ih =>
    cases i with
    | zero =>
      cases j with
      | zero => exact absurd rfl h
      | succ m => rfl
    | succ n =>
      cases j with
      | zero => rfl
      | succ m => exact ih n m (fun hx => h (by rw [hx]))

theorem get?_lt_length (l : List α) (i : Nat) (a : α) (h : l.get? i = some a) :
    i < l.length := by
  induction l generalizing i with
  | nil => simp at h
  | cons b bs ih =>
    cases i with
    | zero => simp
    | succ n =>
      simp only [List.get?_cons_succ] at h
      exact Nat.succ_lt_succ (ih n h)

theorem coe_set_cons (l : List α) (i : Nat) (a b : α) (h : l.get? i = some b) :
    b ::ₘ (((l.set i a : List α)) : Multiset α) = a ::ₘ (l : Multiset α) := by
  induction l generalizing i with
  | nil => simp at h
  | cons c cs ih =>
    cases i with
    | zero =>
      simp only [List.get?_cons_zero, Option.some.injEq] at h
      subst h
      simp only [List.set]
      rw [← Multiset.cons_coe, ← Multiset.cons_coe, Multiset.cons_swap]
    | succ n =>
      simp only [List.get?_cons_succ] at h
      simp only [List.set]
      rw [← Multiset.cons_coe, ← Multiset.cons_coe, Multiset.cons_swap, ih n h,
        Multiset.cons_swap]

theorem set_get?_self (l : List α) (i : Nat) (a : α) (h : l.get? i = some a) :
    l.set i a = l := by
  induction l generalizing i with
  | nil => rfl
  | cons c cs ih =>
    cases i with
    | zero =>
      simp only [List.get?_cons_zero, Option.some.injEq] at h
      subst h
      rfl
    | succ n =>
      simp only [List.get?_cons_succ] at h
      simp [List.set, ih n h]

theorem listSwap_coe (l : List α) (i j : Nat) :
    ((listSwap l i j : List α) : Multiset α) = (l : Multiset α) := by
  unfold listSwap
  cases hi : l.get? i with
  | none => rfl
  | some a =>
    cases hj : l.get? j with
    | none => rfl
    | some b =>
      have h1 : (l.set i b).get? j = some b := by
        by_cases hij : i = j
        · subst hij
          exact get?_set_self l i b (get?_lt_length l i a hi)
        · rw [get?_set_ne l i j b hij]
          exact hj
      have e1 := coe_set_cons (l.set i b) j a b h1
      have e2 := coe_set_cons l i b a hi
      have : b ::ₘ (((l.set i b).set j a : List α) : Multiset α) = b ::ₘ (l : Multiset α) := by
        rw [e1, e2]
      exact (Multiset.cons_inj_right b).mp this

theorem fyGo_coe (tape : Nat → Nat) (idx : Nat) (arr : List α) (n : Nat) :
    (((fyGo tape idx arr n).1 : List α) : Multiset α) = (arr : Multiset α) := by
  induction n generalizing arr idx with
  | zero => rfl
  | succ m ih =>
    simp only [fyGo]
    rw [ih, listSwap_coe]

theorem shuffleT_coe (tape : Nat → Nat) (idx : Nat) (arr : List α) :
    (((shuffleT tape idx arr).1 : List α) : Multiset α) = (arr : Multiset α) :=
  fyGo_coe tape idx arr (arr.length - 1)

theorem shuffleT_length (tape : Nat → Nat) (idx : Nat) (arr : List α) :
    (shuffleT tape idx arr).1.length = arr.length := by
  have h := congrArg Multiset.card (shuffleT_coe tape idx arr)
  simpa using h

theorem shuffleT_perm (tape : Nat → Nat) (idx : Nat) (arr : List α) :
    (shuffleT tape idx arr).1.Perm arr :=
  Multiset.coe_eq_coe.mp (shuffleT_coe tape idx arr)

/-! ## Association-list lemmas -/

theorem setEntry_mem [DecidableEq κ] (m : List (κ × β)) (k : κ) (v : β) :
    ∀ e ∈ setEntry m k v, e = (k, v) ∨ e ∈ m := by
  induction m with
  | nil =>
    intro e he
    simp only [setEntry, List.mem_singleton] at he
    exact Or.inl he
  | cons x xs ih =>
    intro e he
    simp only [setEntry] at he
    by_cases hx : x.1 = k
    · simp only [hx, if_true, List.mem_cons] at he
      rcases he with h | h
      · exact Or.inl h
      · exact Or.inr (List.mem_cons_of_mem _ h)
    · simp only [hx, if_false, List.mem_cons] at he
      rcases he with rfl | h
      · exact Or.inr (List.mem_cons_self _ _)
      · rcases ih e h with h2 | h2
        · exact Or.inl h2
        · exact Or.inr (List.mem_cons_of_mem _ h2)

theorem getEntry_setEntry_self [DecidableEq κ] (m : List (κ × β)) (k : κ) (v : β) :
    getEntry (setEntry m k v) k = some v := by
  induction m with
  | nil => simp [setEntry, getEntry]
  | cons x xs ih =>
    by_cases hx : x.1 = k
    · simp [setEntry, getEntry, hx]
    · simp [setEntry, getEntry, hx, ih]

theorem delEntry_singleton_self [DecidableEq κ] (k : κ) (v : β) :
    delEntry [(k, v)] k = [] := by
  simp [delEntry]

theorem setEntry_nil [DecidableEq κ] (k : κ) (v : β) :
    setEntry ([] : List (κ × β)) k v = [(k, v)] := rfl

/-! ## Responders lemmas -/

theorem everyonePassed_iff (resp : Responders) :
    everyonePassed resp = true ↔ ∀ e ∈ resp, e.2 = RStatus.passed := by
  unfold everyonePassed
  rw [List.all_eq_true]
  constructor
  · intro h e he
    have := h e he
    simpa using this
  · intro h e he
    simpa using h e he

theorem firstChallenger_eq_none_iff (resp : Responders) :
    firstChallenger resp = none ↔ ∀ e ∈ resp, e.2 ≠ RStatus.challenged := by
  unfold firstChallenger
  rw [Option.map_eq_none']
  rw [List.find?_eq_none]
  constructor
  · intro h e he hc
    exact h e he (by simpa using hc)
  · intro h e he hc
    exact h e he (by simpa using hc)

theorem setStatus_noChal (resp : Responders) (pid : PId)
    (h : ∀ e ∈ resp, e.2 ≠ RStatus.challenged) :
    ∀ e ∈ setStatus resp pid RStatus.passed, e.2 ≠ RStatus.challenged := by
  intro e he
  rcases setEntry_mem resp pid RStatus.passed e he with h1 | h1
  · subst h1
    simp
  · exact h e h1

theorem hasResponder_iff (resp : Responders) (pid : PId) :
    hasResponder resp pid = true ↔ ∃ v, (pid, v) ∈ resp := by
  unfold hasResponder
  rw [List.any_eq_true]
  constructor
  · rintro ⟨⟨k, v⟩, he, hv⟩
    have hk : k = pid := by simpa using hv
    subst hk
    exact ⟨v, he⟩
  · rintro ⟨v, hv⟩
    exact ⟨(pid, v), hv, by simp⟩

theorem firstChallenger_setStatus_challenged (resp : Responders) (pid : PId)
    (hk : hasResponder resp pid = true)
    (hnc : ∀ e ∈ resp, e.2 ≠ RStatus.challenged) :
    firstChallenger (setStatus resp pid RStatus.challenged) = some pid := by
  induction resp with
  | nil => simp [hasResponder] at hk
  | cons x xs ih =>
    by_cases hx : x.1 = pid
    · unfold setStatus setEntry
      simp only [hx, if_true]
      unfold firstChallenger
      rw [List.find?_cons_of_pos _ (by simp)]
      rfl
    · have hk2 : hasResponder xs pid = true := by
        unfold hasResponder at hk ⊢
        simp only [List.any_cons, Bool.or_eq_true] at hk
        rcases hk with h | h
        · exact absurd (by simpa using h) hx
        · exact h
      have hnc2 : ∀ e ∈ xs, e.2 ≠ RStatus.challenged := fun e he =>
        hnc e (List.mem_cons_of_mem _ he)
      have hxnc : x.2 ≠ RStatus.challenged := hnc x (List.mem_cons_self _ _)
      unfold setStatus setEntry
      simp only [hx, if_false]
      unfold firstChallenger at ih ⊢
      rw [List.find?_cons_of_neg _ (by simpa using hxnc)]
      exact ih hk2 hnc2

/-- `initResponders` marks every entry `"pending"`. -/
theorem initResponders_all_pending (g : Game) (ex : PId) :
    ∀ e ∈ initResponders g ex, e.2 = RStatus.pending := by
  unfold initResponders
  suffices h : ∀ ps : List Player, ∀ acc : Responders,
      (∀ e ∈ acc, e.2 = RStatus.pending) →
      ∀ e ∈ ps.foldl
        (fun acc p =>
          if p.id = ex then acc
          else if g.isAlive p.id then setEntry acc p.id RStatus.pending
          else acc) acc, e.2 = RStatus.pending by
    exact h g.players [] (by simp)
  intro ps
  induction ps with
  | nil => intro acc hacc e he; exact hacc e he
  | cons p ps ih =>
    intro acc hacc e he
    simp only [List.foldl_cons] at he
    by_cases h1 : p.id = ex
    · simp only [h1, if_true] at he
      exact ih acc hacc e he
    · simp only [h1, if_false] at he
      by_cases h2 : g.isAlive p.id
      · simp only [h2, if_true] at he
        refine ih _ ?_ e he
        intro e2 he2
        rcases setEntry_mem acc p.id RStatus.pending e2 he2 with h3 | h3
        · subst h3; rfl
        · exact hacc e2 h3
      · simp only [h2, if_false] at he
        exact ih acc hacc e he

/-! ## Dedup lemmas -/

theorem jsSetDedup_mem (l : List String) (x : String) :
    x ∈ jsSetDedup l ↔ x ∈ l := by
  induction l using jsSetDedup.induct with
  | case1 => simp [jsSetDedup]
  | case2 y ys ih =>
    rw [jsSetDedup]
    simp only [List.mem_cons, ih, List.mem_filter]
    constructor
    · rintro (rfl | ⟨h1, _⟩)
      · exact Or.inl rfl
      · exact Or.inr h1
    · rintro (rfl | h1)
      · exact Or.inl rfl
      · by_cases hxy : x = y
        · exact Or.inl hxy
        · exact Or.inr ⟨h1, by simpa using hxy⟩

theorem jsSetDedup_nodup (l : List String) : (jsSetDedup l).Nodup := by
  induction l using jsSetDedup.induct with
  | case1 => simp [jsSetDedup]
  | case2 y ys ih =>
    rw [jsSetDedup]
    refine List.nodup_cons.mpr ⟨?_, ih⟩
    intro hmem
    rw [jsSetDedup_mem] at hmem
    rcases List.mem_filter.mp hmem with ⟨_, h2⟩
    simp at h2

/-! ## Enumeration lemmas (`unrevSlots`) -/

theorem enumFrom_filter_map_succ (k : Nat) (cs : List Card) :
    ((enumFrom (k + 1) cs).filter (fun q => !q.2.revealed)).map (fun q => q.1)
      = (((enumFrom k cs).filter (fun q => !q.2.revealed)).map (fun q => q.1)).map (· + 1) := by
  induction cs generalizing k with
  | nil => rfl
  | cons c cs ih =>
    simp only [enumFrom, List.filter_cons]
    by_cases h : c.revealed
    · simp [h, ih (k + 1)]
    · simp [h, ih (k + 1)]

theorem unrevSlots_nil : unrevSlots [] = [] := rfl

theorem unrevSlots_cons (c : Card) (cs : List Card) :
    unrevSlots (c :: cs) =
      if c.revealed then (unrevSlots cs).map (· + 1)
      else 0 :: (unrevSlots cs).map (· + 1) := by
  unfold unrevSlots
  simp only [enumFrom, List.filter_cons]
  by_cases h : c.revealed
  · simp [h, enumFrom_filter_map_succ 0 cs]
  · simp [h, enumFrom_filter_map_succ 0 cs]

theorem unrevSlots_spec (cs : List Card) (i : Nat) (h : i ∈ unrevSlots cs) :
    ∃ c, cs.get? i = some c ∧ c.revealed = false := by
  induction cs generalizing i with
  | nil => simp [unrevSlots_nil] at h
  | cons c cs ih =>
    rw [unrevSlots_cons] at h
    by_cases hc : c.revealed
    · rw [if_pos hc] at h
      rcases List.mem_map.mp h with ⟨j, hj, rfl⟩
      rcases ih j hj with ⟨c2, h1, h2⟩
      exact ⟨c2, h1, h2⟩
    · rw [if_neg hc] at h
      rcases List.mem_cons.mp h with rfl | h
      · exact ⟨c, rfl, by simpa using hc⟩
      · rcases List.mem_map.mp h with ⟨j, hj, rfl⟩
        rcases ih j hj with ⟨c2, h1, h2⟩
        exact ⟨c2, h1, h2⟩

theorem unrevSlots_length (cs : List Card) :
    (unrevSlots cs).length = (cs.filter (fun c => !c.revealed)).length := by
  induction cs with
  | nil => rfl
  | cons c cs ih =>
    rw [unrevSlots_cons, List.filter_cons]
    by_cases h : c.revealed
    · simp [h, ih]
    · simp [h, ih]

/-- The roles read off at the unrevealed slot indices are the unrevealed
roles, in order. -/
theorem unrevSlots_roles (cs : List Card) (d : Card) :
    (unrevSlots cs).map (fun i => ((cs.get? i).getD d).role)
      = (cs.filter (fun c => !c.revealed)).map Card.role := by
  induction cs with
  | nil => rfl
  | cons c cs ih =>
    rw [unrevSlots_cons, List.filter_cons]
    have hmap : ∀ l : List Nat,
        (l.map (· + 1)).map (fun i => (((c :: cs).get? i).getD d).role)
          = l.map (fun i => ((cs.get? i).getD d).role) := by
      intro l
      rw [List.map_map]
      rfl
    by_cases h : c.revealed
    · rw [if_pos h]
      simp only [h]
      simp only [hmap, ih]
      simp
    · rw [if_neg h]
      simp only [h]
      simp only [List.map_cons, List.get?_cons_zero, Option.getD_some, hmap, ih]
      simp

/-! ## `applyChosen` lemmas -/

theorem zip_map_succ (idxs : List Nat) (rs : List Role) :
    (idxs.map (· + 1)).zip rs = (idxs.zip rs).map (fun q => (q.1 + 1, q.2)) := by
  induction idxs generalizing rs with
  | nil => rfl
  | cons i is ih =>
    cases rs with
    | nil => rfl
    | cons r rs => simp [List.zip_cons_cons, ih]

theorem foldl_set_shift (pairs : List (Nat × Role)) (c : Card) (l : List Card) :
    (pairs.map (fun q => (q.1 + 1, q.2))).foldl
        (fun inf q => inf.set q.1 { role := q.2, revealed := false }) (c :: l)
      = c :: pairs.foldl (fun inf q => inf.set q.1 { role := q.2, revealed := false }) l := by
  induction pairs generalizing l with
  | nil => rfl
  | cons q qs ih =>
    simp only [List.map_cons, List.foldl_cons, List.set_cons_succ]
    exact ih (l.set q.1 { role := q.2, revealed := false })

/-- The core exchange-replacement specification: replacing the unrevealed
slots (in order) with the given roles makes those roles exactly the new
unrevealed roles, leaves revealed cards untouched, and preserves length. -/
theorem applyChosen_spec (cs : List Card) (rs : List Role)
    (h : rs.length = (unrevSlots cs).length) :
    ((applyChosen cs (unrevSlots cs) rs).filter (fun c => !c.revealed)).map Card.role = rs
    ∧ (applyChosen cs (unrevSlots cs) rs).filter (fun c => c.revealed)
        = cs.filter (fun c => c.revealed)
    ∧ (applyChosen cs (unrevSlots cs) rs).length = cs.length := by
  induction cs generalizing rs with
  | nil =>
    rw [unrevSlots_nil] at h ⊢
    have hrs : rs = [] := List.length_eq_zero.mp h
    subst hrs
    exact ⟨rfl, rfl, rfl⟩
  | cons c cs ih =>
    by_cases hc : c.revealed
    · rw [unrevSlots_cons] at h ⊢
      rw [if_pos hc] at h ⊢
      unfold applyChosen
      rw [zip_map_succ, foldl_set_shift]
      have hlen : rs.length = (unrevSlots cs).length := by simpa using h
      rcases ih rs hlen with ⟨h1, h2, h3⟩
      unfold applyChosen at h1 h2 h3
      refine ⟨?_, ?_, ?_⟩
      · rw [List.filter_cons]
        simp [hc, h1]
      · rw [List.filter_cons, List.filter_cons]
        simp [hc, h2]
      · simpa using h3
    · rw [unrevSlots_cons] at h ⊢
      rw [if_neg hc] at h ⊢
      cases rs with
      | nil => simp at h
      | cons r rs =>
        unfold applyChosen
        simp only [List.zip_cons_cons, List.foldl_cons, List.set_cons_zero]
        rw [zip_map_succ, foldl_set_shift]
        have hlen : rs.length = (unrevSlots cs).length := by simpa using h
        rcases ih rs hlen with ⟨h1, h2, h3⟩
        unfold applyChosen at h1 h2 h3
        refine ⟨?_, ?_, ?_⟩
        · rw [List.filter_cons]
          simp [h1]
        · rw [List.filter_cons, List.filter_cons]
          simp [hc, h2]
        · simpa using h3

theorem foldl_set_get?_not_mem (pairs : List (Nat × Role)) (l : List Card) (j : Nat)
    (h : ∀ q ∈ pairs, q.1 ≠ j) :
    (pairs.foldl (fun inf q => inf.set q.1 { role := q.2, revealed := false }) l).get? j
      = l.get? j := by
  induction pairs generalizing l with
  | nil => rfl
  | cons q qs ih =>
    simp only [List.foldl_cons]
    rw [ih _ (fun q2 hq2 => h q2 (List.mem_cons_of_mem _ hq2))]
    exact get?_set_ne l q.1 j _ (h q (List.mem_cons_self _ _))

/-- `applyChosen` never touches a revealed slot. -/
theorem applyChosen_get?_revealed (cs : List Card) (rs : List Role) (j : Nat) (c : Card)
    (hj : cs.get? j = some c) (hc : c.revealed = true) :
    (applyChosen cs (unrevSlots cs) rs).get? j = some c := by
  unfold applyChosen
  rw [foldl_set_get?_not_mem]
  · exact hj
  · intro q hq hq1
    rcases List.of_mem_zip hq with ⟨hmem, _⟩
    rcases unrevSlots_spec cs q.1 hmem with ⟨c2, h1, h2⟩
    rw [hq1, hj] at h1
    cases h1
    rw [hc] at h2
    cases h2

/-! ## `findIdx?` lemmas (this core version threads a start index) -/

theorem findIdx?_start (p : α → Bool) (l : List α) (i : Nat) :
    List.findIdx? p l i = (List.findIdx? p l 0).map (· + i) := by
  induction l generalizing i with
  | nil => rfl
  | cons a as ih =>
    rw [List.findIdx?_cons, List.findIdx?_cons]
    by_cases h : p a
    · simp [h]
    · rw [if_neg h, if_neg h, ih (i + 1), ih 1, Option.map_map]
      congr 1
      funext j
      simp only [Function.comp]
      omega

theorem findIdx?_spec (p : α → Bool) (l : List α) (i : Nat)
    (h : List.findIdx? p l = some i) :
    ∃ a, l.get? i = some a ∧ p a = true := by
  induction l generalizing i with
  | nil => simp [List.findIdx?] at h
  | cons a as ih =>
    rw [List.findIdx?_cons] at h
    by_cases hp : p a
    · rw [if_pos hp] at h
      cases h
      exact ⟨a, rfl, hp⟩
    · rw [if_neg hp] at h
      rw [findIdx?_start p as 1] at h
      rcases Option.map_eq_some'.mp h with ⟨j, hj, rfl⟩
      rcases ih j hj with ⟨b, h1, h2⟩
      exact ⟨b, by simpa using h1, h2⟩

theorem any_eq_findIdx?_isSome (p : α → Bool) (l : List α) :
    l.any p = (List.findIdx? p l).isSome := by
  induction l with
  | nil => rfl
  | cons a as ih =>
    rw [List.any_cons, List.findIdx?_cons]
    by_cases h : p a
    · simp [h]
    · simp only [h, if_false, Bool.false_or]
      rw [findIdx?_start p as 1, ih]
      simp

/-! ## Field-effect lemmas for the engine operations -/

theorem touch_players (g : Game) : g.touch.players = g.players := rfl
theorem touch_deck (g : Game) : g.touch.deck = g.deck := rfl
theorem touch_pending (g : Game) : g.touch.pendingAction = g.pendingAction := rfl
theorem touch_secrets (g : Game) : g.touch.exchangeSecrets = g.exchangeSecrets := rfl

theorem checkWin_fields (g : Game) :
    g.checkWin.players = g.players ∧ g.checkWin.deck = g.deck ∧
    g.checkWin.exchangeSecrets = g.exchangeSecrets ∧
    g.checkWin.pendingAction = g.pendingAction := by
  unfold Game.checkWin
  split
  · exact ⟨rfl, rfl, rfl, rfl⟩
  · split <;> exact ⟨rfl, rfl, rfl, rfl⟩

theorem nextTurn_fields (g : Game) :
    g.nextTurn.players = g.players ∧ g.nextTurn.deck = g.deck ∧
    g.nextTurn.exchangeSecrets = g.exchangeSecrets ∧
    g.nextTurn.pendingAction = g.pendingAction := by
  rcases checkWin_fields g with ⟨h1, h2, h3, h4⟩
  simp only [Game.nextTurn]
  split
  · exact ⟨h1, h2, h3, h4⟩
  · split <;> exact ⟨h1, h2, h3, h4⟩

theorem finishTurn_fields (g : Game) :
    (finishTurn g).1.players = g.players ∧ (finishTurn g).1.deck = g.deck ∧
    (finishTurn g).1.exchangeSecrets = g.exchangeSecrets ∧
    (finishTurn g).1.pendingAction = none := by
  rcases nextTurn_fields { g with pendingAction := none } with ⟨h1, h2, h3, h4⟩
  simp only [finishTurn]
  exact ⟨h1, h2, h3, h4⟩

theorem draw_fields (g : Game) :
    g.draw.2.players = g.players ∧ g.draw.2.pendingAction = g.pendingAction ∧
    g.draw.2.exchangeSecrets = g.exchangeSecrets ∧ g.draw.2.gameOver = g.gameOver := by
  simp only [Game.draw]
  split <;> split <;> exact ⟨rfl, rfl, rfl, rfl⟩

theorem draw_bag (g : Game) (h : g.deck ≠ []) :
    (g.draw.2.deck : Multiset Role) + {g.draw.1} = (g.deck : Multiset Role) := by
  simp only [Game.draw]
  rw [if_neg (by simpa using h)]
  rw [List.getLast?_eq_getLast g.deck h]
  have hd := List.dropLast_append_getLast h
  calc ((g.deck.dropLast : List Role) : Multiset Role) + {g.deck.getLast h}
      = ((g.deck.dropLast ++ [g.deck.getLast h] : List Role) : Multiset Role) := by
        rw [← Multiset.coe_add, Multiset.coe_singleton]
    _ = (g.deck : Multiset Role) := by rw [hd]

theorem draw_len (g : Game) (h : g.deck ≠ []) :
    g.draw.2.deck.length + 1 = g.deck.length := by
  have := congrArg Multiset.card (draw_bag g h)
  simpa using this

theorem returnToDeck_fields (g : Game) (roles : List Role) :
    (g.returnToDeck roles).players = g.players ∧
    (g.returnToDeck roles).pendingAction = g.pendingAction ∧
    (g.returnToDeck roles).exchangeSecrets = g.exchangeSecrets ∧
    (g.returnToDeck roles).gameOver = g.gameOver := by
  unfold Game.returnToDeck
  exact ⟨rfl, rfl, rfl, rfl⟩

theorem returnToDeck_bag (g : Game) (roles : List Role) :
    ((g.returnToDeck roles).deck : Multiset Role)
      = (roles : Multiset Role) + (g.deck : Multiset Role) := by
  unfold Game.returnToDeck
  show (((shuffleT g.rng g.rngIdx (roles.reverse ++ g.deck)).1 : List Role) : Multiset Role) = _
  rw [shuffleT_coe]
  rw [← Multiset.coe_add, Multiset.coe_reverse]

/-! ## `findPlayer`/`modPlayer` lemmas -/

theorem findPlayer_modPlayer_self (ps : List Player) (pid : PId) (f : Player → Player)
    (hf : ∀ p, (f p).id = p.id) :
    findPlayer (modPlayer ps pid f) pid = (findPlayer ps pid).map f := by
  induction ps with
  | nil => rfl
  | cons p ps ih =>
    by_cases h : p.id = pid
    · simp [modPlayer, findPlayer, h, hf p]
    · simp [modPlayer, findPlayer, h, ih]

theorem findPlayer_modPlayer_ne (ps : List Player) (pid qid : PId) (f : Player → Player)
    (hf : ∀ p, (f p).id = p.id) (h : qid ≠ pid) :
    findPlayer (modPlayer ps pid f) qid = findPlayer ps qid := by
  induction ps with
  | nil => rfl
  | cons p ps ih =>
    by_cases hp : p.id = pid
    · have h1 : ¬ (f p).id = qid := by
        rw [hf p, hp]
        exact fun hx => h hx.symm
      have h2 : ¬ p.id = qid := by
        rw [hp]
        exact fun hx => h hx.symm
      have h3 : ¬ pid = qid := fun hx => h hx.symm
      simp [modPlayer, findPlayer, hp, h1, h2, h3]
    · simp [modPlayer, findPlayer, hp, ih]

theorem modPlayer_not_found (ps : List Player) (pid : PId) (f : Player → Player)
    (h : findPlayer ps pid = none) : modPlayer ps pid f = ps := by
  induction ps with
  | nil => rfl
  | cons p ps ih =>
    unfold findPlayer at h
    by_cases hp : p.id = pid
    · rw [if_pos hp] at h; cases h
    · rw [if_neg hp] at h
      simp [modPlayer, hp, ih h]

theorem modPlayer_forall {P : Player → Prop} (ps : List Player) (pid : PId)
    (f : Player → Player) (h : ∀ p ∈ ps, P p) (hf : ∀ p, P p → P (f p)) :
    ∀ p ∈ modPlayer ps pid f, P p := by
  induction ps with
  | nil => intro p hp; cases hp
  | cons q qs ih =>
    intro p hp
    by_cases hq : q.id = pid
    · simp only [modPlayer, hq, if_true, List.mem_cons] at hp
      rcases hp with rfl | hp
      · exact hf q (h q (List.mem_cons_self _ _))
      · exact h p (List.mem_cons_of_mem _ hp)
    · simp only [modPlayer, hq, if_false, List.mem_cons] at hp
      rcases hp with rfl | hp
      · exact h p (List.mem_cons_self _ _)
      · exact ih (fun r hr => h r (List.mem_cons_of_mem _ hr)) p hp

theorem handBagL_cons (p : Player) (ps : List Player) :
    handBagL (p :: ps) = p.roleBag + handBagL ps := by
  simp [handBagL]

theorem handBagL_modPlayer (ps : List Player) (pid : PId) (f : Player → Player)
    (p : Player) (h : findPlayer ps pid = some p) :
    handBagL (modPlayer ps pid f) + p.roleBag = handBagL ps + (f p).roleBag := by
  induction ps with
  | nil => cases h
  | cons q qs ih =>
    unfold findPlayer at h
    by_cases hq : q.id = pid
    · rw [if_pos hq] at h
      cases h
      simp only [modPlayer, hq, if_true, handBagL_cons]
      abel
    · rw [if_neg hq] at h
      simp only [modPlayer, hq, if_false, handBagL_cons]
      rw [add_assoc, ih h, ← add_assoc]

theorem handBagL_modPlayer_same (ps : List Player) (pid : PId) (f : Player → Player)
    (hf : ∀ p, (f p).roleBag = p.roleBag) :
    handBagL (modPlayer ps pid f) = handBagL ps := by
  cases h : findPlayer ps pid with
  | none => rw [modPlayer_not_found ps pid f h]
  | some p =>
    have := handBagL_modPlayer ps pid f p h
    rw [hf p] at this
    exact add_right_cancel this

theorem updatePlayer_fields (g : Game) (pid : PId) (f : Player → Player) :
    (g.updatePlayer pid f).deck = g.deck ∧
    (g.updatePlayer pid f).pendingAction = g.pendingAction ∧
    (g.updatePlayer pid f).exchangeSecrets = g.exchangeSecrets ∧
    (g.updatePlayer pid f).gameOver = g.gameOver :=
  ⟨rfl, rfl, rfl, rfl⟩

/-- Coin-only updates keep every role bag and hand length. -/
theorem coinUpdate_roleBag (d : Int) (p : Player) :
    ({ p with coins := p.coins + d } : Player).roleBag = p.roleBag := rfl

theorem modPlayer_length (ps : List Player) (pid : PId) (f : Player → Player) :
    (modPlayer ps pid f).length = ps.length := by
  induction ps with
  | nil => rfl
  | cons p ps ih =>
    by_cases h : p.id = pid
    · simp [modPlayer, h]
    · simp [modPlayer, h, ih]



theorem modifyAt_set_same (l : List α) (i : Nat) (f : α → α) (a : α) :
    (modifyAt l i f).set i a = l.set i a := by
  induction l generalizing i with
  | nil => rfl
  | cons b bs ih =>
    cases i with
    | zero => rfl
    | succ n => simp [modifyAt, List.set, ih]

theorem rrMid_players (g : Game) (pid : PId) (role : Role) (pname : String) (idx : Nat) :
    (g.rrMid pid role pname idx).players
      = modPlayer g.players pid (fun q =>
          { q with influence := modifyAt q.influence idx (fun c => { c with revealed := true }) }) := rfl

theorem rrMid_fields (g : Game) (pid : PId) (role : Role) (pname : String) (idx : Nat) :
    (g.rrMid pid role pname idx).pendingAction = g.pendingAction ∧
    (g.rrMid pid role pname idx).exchangeSecrets = g.exchangeSecrets ∧
    (g.rrMid pid role pname idx).gameOver = g.gameOver :=
  ⟨rfl, rfl, rfl⟩

theorem rrMid_deck (g : Game) (pid : PId) (role : Role) (pname : String) (idx : Nat) :
    ((g.rrMid pid role pname idx).deck : Multiset Role) = {role} + (g.deck : Multiset Role) := by
  unfold Game.rrMid
  rw [returnToDeck_bag, Multiset.coe_singleton]
  rfl

theorem rrMid_ne (g : Game) (pid : PId) (role : Role) (pname : String) (idx : Nat) :
    (g.rrMid pid role pname idx).deck ≠ [] := by
  intro hnil
  have := congrArg Multiset.card (rrMid_deck g pid role pname idx)
  rw [hnil] at this
  simp at this

theorem rrGo_players (g : Game) (pid : PId) (role : Role) (pname : String) (idx : Nat) :
    (g.revealAndRedrawGo pid role pname idx).players
      = modPlayer
          (modPlayer g.players pid (fun q =>
            { q with influence := modifyAt q.influence idx (fun c => { c with revealed := true }) }))
          pid
          (fun q => { q with influence := q.influence.set idx { role := (g.rrMid pid role pname idx).draw.1, revealed := false } }) := by
  show modPlayer ((g.rrMid pid role pname idx).draw.2.players) pid _ = _
  rw [(draw_fields _).1, rrMid_players]

theorem rrGo_fields (g : Game) (pid : PId) (role : Role) (pname : String) (idx : Nat) :
    (g.revealAndRedrawGo pid role pname idx).pendingAction = g.pendingAction ∧
    (g.revealAndRedrawGo pid role pname idx).exchangeSecrets = g.exchangeSecrets ∧
    (g.revealAndRedrawGo pid role pname idx).gameOver = g.gameOver := by
  refine ⟨?_, ?_, ?_⟩
  · show (g.rrMid pid role pname idx).draw.2.pendingAction = _
    rw [(draw_fields _).2.1, (rrMid_fields g pid role pname idx).1]
  · show (g.rrMid pid role pname idx).draw.2.exchangeSecrets = _
    rw [(draw_fields _).2.2.1, (rrMid_fields g pid role pname idx).2.1]
  · show (g.rrMid pid role pname idx).draw.2.gameOver = _
    rw [(draw_fields _).2.2.2, (rrMid_fields g pid role pname idx).2.2]

theorem rrGo_deck (g : Game) (pid : PId) (role : Role) (pname : String) (idx : Nat) :
    ((g.revealAndRedrawGo pid role pname idx).deck : Multiset Role)
        + {(g.rrMid pid role pname idx).draw.1}
      = {role} + (g.deck : Multiset Role) := by
  show ((g.rrMid pid role pname idx).draw.2.deck : Multiset Role) + _ = _
  rw [draw_bag _ (rrMid_ne g pid role pname idx), rrMid_deck]


/-- What a successful challenge-proof does to the player and the bag. -/
theorem revealAndRedraw_succ (g : Game) (pid : PId) (role : Role) (p : Player) (idx : Nat)
    (hp : g.getPlayer pid = some p)
    (hidx : p.influence.findIdx? (fun c => !c.revealed && c.role == role) = some idx) :
    (g.revealAndRedraw pid role).1 = true ∧
    (g.revealAndRedraw pid role).2.getPlayer pid
      = some { p with influence := p.influence.set idx { role := (g.rrMid pid role p.name idx).draw.1, revealed := false } } := by
  have hred : g.revealAndRedraw pid role = (true, g.revealAndRedrawGo pid role p.name idx) := by
    simp only [Game.revealAndRedraw, hp, hidx]
  refine ⟨by rw [hred], ?_⟩
  rw [hred]
  show findPlayer (g.revealAndRedrawGo pid role p.name idx).players pid = _
  rw [rrGo_players]
  rw [findPlayer_modPlayer_self _ pid
    (fun q => { q with influence := q.influence.set idx { role := (g.rrMid pid role p.name idx).draw.1, revealed := false } })
    (fun q => rfl)]
  rw [findPlayer_modPlayer_self _ pid
    (fun q => { q with influence := modifyAt q.influence idx (fun c => { c with revealed := true }) })
    (fun q => rfl)]
  unfold Game.getPlayer at hp
  rw [hp]
  simp only [Option.map_some']
  rw [modifyAt_set_same]

/-- `revealAndRedraw` preserves the pending action, the secret store, hand
sizes and player count, and conserves deck + hands. -/
theorem revealAndRedraw_inv (g : Game) (pid : PId) (role : Role)
    (h2 : ∀ p ∈ g.players, p.influence.length = 2) :
    (g.revealAndRedraw pid role).2.pendingAction = g.pendingAction ∧
    (g.revealAndRedraw pid role).2.exchangeSecrets = g.exchangeSecrets ∧
    (∀ p ∈ (g.revealAndRedraw pid role).2.players, p.influence.length = 2) ∧
    (g.revealAndRedraw pid role).2.players.length = g.players.length ∧
    ((g.revealAndRedraw pid role).2.deck : Multiset Role)
        + handBagL (g.revealAndRedraw pid role).2.players
      = (g.deck : Multiset Role) + handBagL g.players := by
  cases hp : g.getPlayer pid with
  | none =>
    simp only [Game.revealAndRedraw, hp]
    exact ⟨trivial, trivial, h2, trivial, trivial⟩
  | some p =>
    cases hidx : p.influence.findIdx? (fun c => !c.revealed && c.role == role) with
    | none =>
      simp only [Game.revealAndRedraw, hp, hidx]
      exact ⟨trivial, trivial, h2, trivial, trivial⟩
    | some idx =>
      simp only [Game.revealAndRedraw, hp, hidx]
      rcases findIdx?_spec _ _ _ hidx with ⟨c, hc, hcp⟩
      have hcrole : c.role = role := by
        rw [Bool.and_eq_true] at hcp
        simpa using hcp.2
      have hfind1 : findPlayer g.players pid = some p := hp
      have hGoP := rrGo_players g pid role p.name idx
      have hGoF := rrGo_fields g pid role p.name idx
      have hGoD := rrGo_deck g pid role p.name idx
      set r2 : Role := (g.rrMid pid role p.name idx).draw.1 with hr2
      set f1 : Player → Player := fun q =>
        { q with influence := modifyAt q.influence idx (fun c => { c with revealed := true }) }
        with hf1def
      set f2 : Player → Player := fun q =>
        { q with influence := q.influence.set idx { role := r2, revealed := false } }
        with hf2def
      have hf1bag : ∀ q, (f1 q).roleBag = q.roleBag := by
        intro q
        unfold Player.roleBag
        rw [hf1def]
        simp only
        rw [map_modifyAt_eq]
        intro a
        rfl
      have hhand1 : handBagL (modPlayer g.players pid f1) = handBagL g.players :=
        handBagL_modPlayer_same _ _ _ hf1bag
      have hfind2 : findPlayer (modPlayer g.players pid f1) pid = some (f1 p) := by
        rw [findPlayer_modPlayer_self g.players pid f1 (fun q => rfl), hfind1]
        rfl
      have hB := handBagL_modPlayer (modPlayer g.players pid f1) pid f2 (f1 p) hfind2
      have hD : ({role} : Multiset Role) + (f2 (f1 p)).roleBag = {r2} + (f1 p).roleBag := by
        have hmap1 : (f1 p).influence.map Card.role = p.influence.map Card.role := by
          rw [hf1def]
          simp only
          rw [map_modifyAt_eq]
          intro a
          rfl
        have hget : ((f1 p).influence.map Card.role).get? idx = some role := by
          rw [hmap1, List.get?_map, hc]
          simp [hcrole]
        have hcs := coe_set_cons ((f1 p).influence.map Card.role) idx r2 role hget
        unfold Player.roleBag
        rw [hf2def]
        simp only
        rw [List.map_set]
        rw [← Multiset.singleton_add role, ← Multiset.singleton_add r2] at hcs
        exact hcs
      refine ⟨hGoF.1, hGoF.2.1, ?_, ?_, ?_⟩
      · rw [hGoP]
        refine modPlayer_forall _ _ _ ?_ ?_
        · refine modPlayer_forall _ _ _ h2 ?_
          intro q hq
          rw [hf1def]
          simpa [modifyAt_length] using hq
        · intro q hq
          rw [hf2def]
          simpa [List.length_set] using hq
      · rw [hGoP, modPlayer_length, modPlayer_length]
      · have key : (((g.revealAndRedrawGo pid role p.name idx).deck : Multiset Role)
              + handBagL (g.revealAndRedrawGo pid role p.name idx).players)
              + ({r2} + (f1 p).roleBag)
            = ((g.deck : Multiset Role) + handBagL g.players) + ({r2} + (f1 p).roleBag) := by
          calc ((g.revealAndRedrawGo pid role p.name idx).deck : Multiset Role)
                  + handBagL (g.revealAndRedrawGo pid role p.name idx).players
                  + ({r2} + (f1 p).roleBag)
              = (((g.revealAndRedrawGo pid role p.name idx).deck : Multiset Role) + {r2})
                + (handBagL (g.revealAndRedrawGo pid role p.name idx).players + (f1 p).roleBag) := by
                  abel
            _ = ({role} + (g.deck : Multiset Role))
                + (handBagL (modPlayer (modPlayer g.players pid f1) pid f2) + (f1 p).roleBag) := by
                  rw [hGoD, hGoP]
            _ = ({role} + (g.deck : Multiset Role))
                + (handBagL (modPlayer g.players pid f1) + (f2 (f1 p)).roleBag) := by rw [hB]
            _ = ((g.deck : Multiset Role) + handBagL (modPlayer g.players pid f1))
                + ({role} + (f2 (f1 p)).roleBag) := by abel
            _ = ((g.deck : Multiset Role) + handBagL (modPlayer g.players pid f1))
                + ({r2} + (f1 p).roleBag) := by rw [hD]
            _ = ((g.deck : Multiset Role) + handBagL g.players) + ({r2} + (f1 p).roleBag) := by
                  rw [hhand1]
        exact add_right_cancel key

/-! ## `loseInfluence` lemmas -/

theorem enumFind_aux (cs : List Card) (k : Nat) (c : Card) (j : Nat)
    (hk : cs.get? k = some c) (hc : c.revealed = false) :
    ((enumFrom j cs).filter (fun q => !q.2.revealed)).find? (fun q => q.1 == j + k)
      = some (j + k, c) := by
  induction cs generalizing k j with
  | nil => simp at hk
  | cons a as ih =>
    cases k with
    | zero =>
      simp only [List.get?_cons_zero, Option.some.injEq] at hk
      subst hk
      simp only [enumFrom, List.filter_cons]
      rw [if_pos (by simpa using hc)]
      rw [List.find?_cons_of_pos _ (by simp)]
      simp
    | succ n =>
      simp only [List.get?_cons_succ] at hk
      simp only [enumFrom, List.filter_cons]
      have harith : j + (n + 1) = (j + 1) + n := by omega
      by_cases ha : a.revealed
      · rw [if_neg (by simpa using ha)]
        rw [harith]
        exact ih n (j + 1) hk
      · rw [if_pos (by simpa using ha)]
        rw [List.find?_cons_of_neg _ (by simp)]
        rw [harith]
        exact ih n (j + 1) hk

theorem enumFind (cs : List Card) (k : Nat) (c : Card)
    (hk : cs.get? k = some c) (hc : c.revealed = false) :
    ((enumFrom 0 cs).filter (fun q => !q.2.revealed)).find? (fun q => q.1 == k)
      = some (k, c) := by
  have := enumFind_aux cs k c 0 hk hc
  simpa using this

theorem loseInfluence_inv (g : Game) (pid : PId) (ci : Option Nat) :
    (g.loseInfluence pid ci).2.pendingAction = g.pendingAction ∧
    (g.loseInfluence pid ci).2.exchangeSecrets = g.exchangeSecrets ∧
    (g.loseInfluence pid ci).2.deck = g.deck ∧
    ((∀ p ∈ g.players, p.influence.length = 2) →
      ∀ p ∈ (g.loseInfluence pid ci).2.players, p.influence.length = 2) ∧
    (g.loseInfluence pid ci).2.players.length = g.players.length ∧
    handBagL (g.loseInfluence pid ci).2.players = handBagL g.players := by
  cases hp : g.getPlayer pid with
  | none =>
    simp only [Game.loseInfluence, hp]
    exact ⟨trivial, trivial, trivial, fun h => h, trivial, trivial⟩
  | some p =>
    cases ci with
    | none =>
      simp only [Game.loseInfluence, hp]
      exact ⟨trivial, trivial, trivial, fun h => h, trivial, trivial⟩
    | some n =>
      cases hfind : ((enumFrom 0 p.influence).filter (fun q => !q.2.revealed)).find?
          (fun q => q.1 == n) with
      | none =>
        simp only [Game.loseInfluence, hp, hfind]
        exact ⟨trivial, trivial, trivial, fun h => h, trivial, trivial⟩
      | some q =>
        simp only [Game.loseInfluence, hp, hfind]
        rcases checkWin_fields { g.updatePlayer pid (fun pl =>
            { pl with influence := modifyAt pl.influence q.1 (fun c => { c with revealed := true }) }) with
          log := (g.updatePlayer pid (fun pl =>
            { pl with influence := modifyAt pl.influence q.1 (fun c => { c with revealed := true }) })).log
            ++ [p.name ++ " loses influence (" ++ q.2.role.str ++ " revealed)."] } with ⟨hw1, hw2, hw3, hw4⟩
        refine ⟨?_, ?_, ?_, ?_, ?_, ?_⟩
        · rw [hw4]; rfl
        · rw [hw3]; rfl
        · rw [hw2]; rfl
        · intro h2
          rw [hw1]
          show ∀ r ∈ modPlayer g.players pid (fun pl =>
            { pl with influence := modifyAt pl.influence q.1 (fun c => { c with revealed := true }) }),
            r.influence.length = 2
          refine modPlayer_forall _ _ _ h2 ?_
          intro r hr
          simpa [modifyAt_length] using hr
        · rw [hw1]
          show (modPlayer g.players pid (fun pl =>
            { pl with influence := modifyAt pl.influence q.1 (fun c => { c with revealed := true }) })).length
            = g.players.length
          rw [modPlayer_length]
        · rw [hw1]
          show handBagL (modPlayer g.players pid (fun pl =>
            { pl with influence := modifyAt pl.influence q.1 (fun c => { c with revealed := true }) }))
            = handBagL g.players
          refine handBagL_modPlayer_same _ _ _ ?_
          intro r
          unfold Player.roleBag
          simp only
          rw [map_modifyAt_eq]
          intro a
          rfl

/-- A valid choice (an unrevealed slot index) always succeeds. -/
theorem loseInfluence_succ (g : Game) (pid : PId) (k : Nat) (p : Player) (c : Card)
    (hp : g.getPlayer pid = some p) (hk : p.influence.get? k = some c)
    (hc : c.revealed = false) :
    (g.loseInfluence pid (some k)).1 = true := by
  simp only [Game.loseInfluence, hp, enumFind p.influence k c hk hc]

/-- An invalid choice (missing index, revealed or out-of-range slot) fails
and leaves the state untouched. -/
theorem loseInfluence_fail (g : Game) (pid : PId) (ci : Option Nat)
    (h : (g.loseInfluence pid ci).1 = false) :
    (g.loseInfluence pid ci).2 = g := by
  cases hp : g.getPlayer pid with
  | none => simp only [Game.loseInfluence, hp]
  | some p =>
    cases ci with
    | none => simp only [Game.loseInfluence, hp]
    | some n =>
      cases hfind : ((enumFrom 0 p.influence).filter (fun q => !q.2.revealed)).find?
          (fun q => q.1 == n) with
      | none => simp only [Game.loseInfluence, hp, hfind]
      | some q =>
        simp only [Game.loseInfluence, hp, hfind] at h
        cases h

/-! ## `coinsOf` transport lemmas -/

theorem coinsOf_updatePlayer_inflOnly (g : Game) (pid : PId) (f : Player → Player)
    (hfid : ∀ p, (f p).id = p.id) (hfc : ∀ p, (f p).coins = p.coins) (qid : PId) :
    (g.updatePlayer pid f).coinsOf qid = g.coinsOf qid := by
  unfold Game.coinsOf Game.getPlayer Game.updatePlayer
  by_cases h : qid = pid
  · subst h
    rw [findPlayer_modPlayer_self _ _ _ hfid]
    cases hfp : findPlayer g.players qid with
    | none => rfl
    | some p => simp [hfc p]
  · rw [findPlayer_modPlayer_ne _ _ _ _ hfid h]

theorem coinsOf_checkWin (g : Game) (qid : PId) : g.checkWin.coinsOf qid = g.coinsOf qid := by
  unfold Game.coinsOf Game.getPlayer
  rw [(checkWin_fields g).1]

theorem coinsOf_finishTurn (g : Game) (qid : PId) :
    (finishTurn g).1.coinsOf qid = g.coinsOf qid := by
  unfold Game.coinsOf Game.getPlayer
  rw [(finishTurn_fields g).1]

theorem coinsOf_loseInfluence (g : Game) (pid : PId) (ci : Option Nat) (qid : PId) :
    (g.loseInfluence pid ci).2.coinsOf qid = g.coinsOf qid := by
  cases hp : g.getPlayer pid with
  | none => simp only [Game.loseInfluence, hp]
  | some p =>
    cases ci with
    | none => simp only [Game.loseInfluence, hp]
    | some n =>
      cases hfind : ((enumFrom 0 p.influence).filter (fun q => !q.2.revealed)).find?
          (fun q => q.1 == n) with
      | none => simp only [Game.loseInfluence, hp, hfind]
      | some q =>
        simp only [Game.loseInfluence, hp, hfind]
        rw [coinsOf_checkWin]
        exact coinsOf_updatePlayer_inflOnly g pid
          (fun pl => { pl with influence := modifyAt pl.influence q.1 (fun c => { c with revealed := true }) })
          (fun p => rfl) (fun p => rfl) qid

/-! ## `applySteal` lemmas -/

theorem applySteal_coins (g : Game) (aid tid : PId) (actor target : Player)
    (ha : g.getPlayer aid = some actor) (ht : g.getPlayer tid = some target)
    (hne : aid ≠ tid) :
    (applySteal g aid tid).coinsOf tid = some (target.coins - min 2 target.coins) ∧
    (applySteal g aid tid).coinsOf aid = some (actor.coins + min 2 target.coins) := by
  unfold applySteal
  rw [ha, ht]
  constructor
  · unfold Game.coinsOf Game.getPlayer Game.updatePlayer
    rw [findPlayer_modPlayer_ne _ aid tid
      (fun p => { p with coins := p.coins + min 2 target.coins }) (fun p => rfl)
      (fun hx => hne hx.symm)]
    rw [findPlayer_modPlayer_self _ tid
      (fun p => { p with coins := p.coins - min 2 target.coins }) (fun p => rfl)]
    unfold Game.getPlayer at ht
    rw [ht]
    rfl
  · unfold Game.coinsOf Game.getPlayer Game.updatePlayer
    rw [findPlayer_modPlayer_self _ aid
      (fun p => { p with coins := p.coins + min 2 target.coins }) (fun p => rfl)]
    rw [findPlayer_modPlayer_ne _ tid aid
      (fun p => { p with coins := p.coins - min 2 target.coins }) (fun p => rfl) hne]
    unfold Game.getPlayer at ha
    rw [ha]
    rfl

theorem applySteal_inv (g : Game) (aid tid : PId) :
    (applySteal g aid tid).pendingAction = g.pendingAction ∧
    (applySteal g aid tid).exchangeSecrets = g.exchangeSecrets ∧
    (applySteal g aid tid).deck = g.deck ∧
    ((∀ p ∈ g.players, p.influence.length = 2) →
      ∀ p ∈ (applySteal g aid tid).players, p.influence.length = 2) ∧
    (applySteal g aid tid).players.length = g.players.length ∧
    handBagL (applySteal g aid tid).players = handBagL g.players := by
  unfold applySteal
  cases ha : g.getPlayer aid with
  | none => exact ⟨rfl, rfl, rfl, fun h => h, rfl, rfl⟩
  | some actor =>
    cases ht : g.getPlayer tid with
    | none => exact ⟨rfl, rfl, rfl, fun h => h, rfl, rfl⟩
    | some target =>
      refine ⟨rfl, rfl, rfl, ?_, ?_, ?_⟩
      · intro h2
        show ∀ p ∈ modPlayer (modPlayer g.players tid _) aid _, p.influence.length = 2
        refine modPlayer_forall _ _ _ (modPlayer_forall _ _ _ h2 ?_) ?_
        · intro q hq; simpa using hq
        · intro q hq; simpa using hq
      · show (modPlayer (modPlayer g.players tid _) aid _).length = g.players.length
        rw [modPlayer_length, modPlayer_length]
      · show handBagL (modPlayer (modPlayer g.players tid _) aid _) = handBagL g.players
        rw [handBagL_modPlayer_same _ aid
          (fun p => { p with coins := p.coins + min 2 target.coins }) (fun p => rfl)]
        rw [handBagL_modPlayer_same _ tid
          (fun p => { p with coins := p.coins - min 2 target.coins }) (fun p => rfl)]

/-! ## Invariant helpers -/

theorem finishTurn_inv (g : Game)
    (h2 : ∀ p ∈ g.players, p.influence.length = 2)
    (hsec : g.exchangeSecrets = [])
    (hbag : g.players.length ≤ 6 →
      (g.deck : Multiset Role) + handBagL g.players + secretBagL g.exchangeSecrets = fullBag) :
    Inv (finishTurn g).1 := by
  rcases finishTurn_fields g with ⟨hp, hd, hs, hpend⟩
  unfold Inv
  rw [hp, hd, hs, hpend]
  exact ⟨h2, trivial, trivial, hsec, hbag⟩

theorem Inv_withPending (g : Game) (hInv : Inv g) (p : Pending)
    (hnc : ∀ e ∈ p.respOf, e.2 ≠ RStatus.challenged)
    (hbo : blockedOKP p)
    (hso : secretsOn (some p) g.exchangeSecrets g.players) :
    InvOn g.players g.deck (some p) g.exchangeSecrets :=
  ⟨hInv.twoCards, hnc, hbo, hso, hInv.bag⟩

theorem Inv_touch (g : Game) (h : Inv g) : Inv g.touch := h


/-! ## `startExchangeChoice` lemmas -/

theorem enumFrom_map_snd (k : Nat) (l : List α) (f : α → β) :
    (enumFrom k l).map (fun q => f q.2) = l.map f := by
  induction l generalizing k with
  | nil => rfl
  | cons a as ih => simp [enumFrom, ih]

theorem handBagL_card (ps : List Player) (h2 : ∀ p ∈ ps, p.influence.length = 2) :
    (handBagL ps).card = 2 * ps.length := by
  induction ps with
  | nil => rfl
  | cons p ps ih =>
    rw [handBagL_cons, Multiset.card_add]
    have hp := h2 p (List.mem_cons_self _ _)
    have hcard2 : (p.roleBag).card = 2 := by
      unfold Player.roleBag
      rw [Multiset.coe_card, List.length_map, hp]
    rw [hcard2, ih (fun q hq => h2 q (List.mem_cons_of_mem _ hq))]
    simp [List.length_cons]
    ring

theorem fullBag_card : fullBag.card = 15 := rfl

theorem startExchangeChoice_inv (g : Game) (aid : PId)
    (hInv : Inv g) (hsec : g.exchangeSecrets = []) :
    Inv (startExchangeChoice g aid).1 := by
  cases hp : g.getPlayer aid with
  | none =>
    simp only [startExchangeChoice, hp]
    exact hInv
  | some actor =>
    by_cases hk : (unrevSlots actor.influence).length = 0
    · simp only [startExchangeChoice, hp]
      rw [if_pos hk]
      exact finishTurn_inv g hInv.twoCards hsec hInv.bag
    · simp only [startExchangeChoice, hp]
      rw [if_neg hk]
      have hd1f := draw_fields g
      have hd2f := draw_fields g.draw.2
      have hps : g.draw.2.draw.2.players = g.players := by rw [hd2f.1, hd1f.1]
      have hsec2 : g.draw.2.draw.2.exchangeSecrets = [] := by
        rw [hd2f.2.2.1, hd1f.2.2.1, hsec]
      have main : InvOn g.draw.2.draw.2.players g.draw.2.draw.2.deck
          (some (Pending.exchangeChoice aid (unrevSlots actor.influence).length))
          (setEntry g.draw.2.draw.2.exchangeSecrets aid
            (ExchangeSecret.mk (unrevSlots actor.influence).length
              (((enumFrom 0 (unrevSlots actor.influence)).map (fun q =>
                ExchangeOption.mk ("h" ++ toString q.1)
                  ((actor.influence.get? q.2).getD (Card.mk Role.Duke false)).role
                  OptSource.hand (some q.2))) ++
                [ExchangeOption.mk ("d" ++ toString (unrevSlots actor.influence).length)
                   g.draw.1 OptSource.drawn none,
                 ExchangeOption.mk ("d" ++ toString ((unrevSlots actor.influence).length + 1))
                   g.draw.2.draw.1 OptSource.drawn none]))) := by
        rw [hps, hsec2, setEntry_nil]
        constructor
        · exact hInv.twoCards
        · intro e he
          simp [Pending.respOf] at he
        · trivial
        · refine ⟨_, actor, rfl, hp, ?_⟩
          simp only
          rw [List.filter_append]
          have hhand : ((enumFrom 0 (unrevSlots actor.influence)).map (fun q =>
              ExchangeOption.mk ("h" ++ toString q.1)
                ((actor.influence.get? q.2).getD (Card.mk Role.Duke false)).role
                OptSource.hand (some q.2))).filter (fun o => o.source == OptSource.hand)
              = (enumFrom 0 (unrevSlots actor.influence)).map (fun q =>
              ExchangeOption.mk ("h" ++ toString q.1)
                ((actor.influence.get? q.2).getD (Card.mk Role.Duke false)).role
                OptSource.hand (some q.2)) := by
            rw [List.filter_eq_self]
            intro o ho
            rcases List.mem_map.mp ho with ⟨q, _, rfl⟩
            rfl
          rw [hhand]
          have hdrop : (([ExchangeOption.mk ("d" ++ toString (unrevSlots actor.influence).length)
                g.draw.1 OptSource.drawn none,
              ExchangeOption.mk ("d" ++ toString ((unrevSlots actor.influence).length + 1))
                g.draw.2.draw.1 OptSource.drawn none] :
                List ExchangeOption).filter (fun o => o.source == OptSource.hand)) = [] := rfl
          rw [hdrop, List.append_nil, List.map_map]
          have hroles := unrevSlots_roles actor.influence (Card.mk Role.Duke false)
          rw [← hroles, ← enumFrom_map_snd 0 (unrevSlots actor.influence)
            (fun i => ((actor.influence.get? i).getD (Card.mk Role.Duke false)).role)]
          rfl
        · intro hlen
          have hbag := hInv.bag hlen
          rw [hsec] at hbag
          have hbag2 : (g.deck : Multiset Role) + handBagL g.players = fullBag := by
            simpa [secretBagL] using hbag
          have hcard := congrArg Multiset.card hbag2
          rw [Multiset.card_add, Multiset.coe_card, fullBag_card,
            handBagL_card g.players hInv.twoCards] at hcard
          have hdlen : g.deck.length = 15 - 2 * g.players.length := by omega
          have hne1 : g.deck ≠ [] := by
            intro h0
            rw [h0] at hdlen
            simp at hdlen
            omega
          have hb1 := draw_bag g hne1
          have hl1 := draw_len g hne1
          have hne2 : g.draw.2.deck ≠ [] := by
            intro h0
            rw [h0] at hl1
            simp at hl1
            omega
          have hb2 := draw_bag g.draw.2 hne2
          have hsecbag : secretBagL [(aid,
              ExchangeSecret.mk (unrevSlots actor.influence).length
                (((enumFrom 0 (unrevSlots actor.influence)).map (fun q =>
                  ExchangeOption.mk ("h" ++ toString q.1)
                    ((actor.influence.get? q.2).getD (Card.mk Role.Duke false)).role
                    OptSource.hand (some q.2))) ++
                  [ExchangeOption.mk ("d" ++ toString (unrevSlots actor.influence).length)
                     g.draw.1 OptSource.drawn none,
                   ExchangeOption.mk ("d" ++ toString ((unrevSlots actor.influence).length + 1))
                     g.draw.2.draw.1 OptSource.drawn none]))]
              = {g.draw.1} + {g.draw.2.draw.1} := by
            unfold secretBagL ExchangeSecret.drawnBag
            simp only [List.map_cons, List.map_nil, List.sum_cons, List.sum_nil, add_zero]
            rw [List.filter_append]
            have hh : ((enumFrom 0 (unrevSlots actor.influence)).map (fun q =>
                ExchangeOption.mk ("h" ++ toString q.1)
                  ((actor.influence.get? q.2).getD (Card.mk Role.Duke false)).role
                  OptSource.hand (some q.2))).filter (fun o => o.source == OptSource.drawn)
                = [] := by
              rw [List.filter_eq_nil]
              intro o ho
              rcases List.mem_map.mp ho with ⟨q, _, rfl⟩
              simp
            rw [hh, List.nil_append]
            rfl
          rw [hsecbag]
          have hdeckeq : ((g.draw.2.draw.2.deck : Multiset Role) + {g.draw.2.draw.1}) + {g.draw.1}
              = (g.deck : Multiset Role) := by
            rw [hb2, hb1]
          calc (g.draw.2.draw.2.deck : Multiset Role) + handBagL g.players
                + ({g.draw.1} + {g.draw.2.draw.1})
              = (((g.draw.2.draw.2.deck : Multiset Role) + {g.draw.2.draw.1}) + {g.draw.1})
                + handBagL g.players := by abel
            _ = (g.deck : Multiset Role) + handBagL g.players := by rw [hdeckeq]
            _ = fullBag := hbag2
      exact main

/-! ## Invariant transport helpers -/

theorem Inv_of_fields (g g2 : Game) (hInv : Inv g)
    (htc : (∀ p ∈ g.players, p.influence.length = 2) →
      ∀ p ∈ g2.players, p.influence.length = 2)
    (hlen : g2.players.length = g.players.length)
    (hhb : handBagL g2.players = handBagL g.players)
    (hdeck : (g2.deck : Multiset Role) = (g.deck : Multiset Role))
    (hpend : g2.pendingAction = g.pendingAction)
    (hsec : g2.exchangeSecrets = g.exchangeSecrets)
    (hsecOn : secretsOn g2.pendingAction g2.exchangeSecrets g2.players) :
    Inv g2 := by
  refine ⟨htc hInv.twoCards, ?_, ?_, hsecOn, ?_⟩
  · rw [hpend]
    exact hInv.noChal
  · show blockedOKOpt g2.pendingAction
    rw [hpend]
    exact hInv.blocked
  · intro hl
    rw [hlen] at hl
    rw [hdeck, hhb, hsec]
    exact hInv.bag hl

theorem Inv_beginLoseInfluence (g : Game)
    (h2 : ∀ p ∈ g.players, p.influence.length = 2)
    (hsec : g.exchangeSecrets = [])
    (hbag : g.players.length ≤ 6 →
      (g.deck : Multiset Role) + handBagL g.players + secretBagL g.exchangeSecrets = fullBag)
    (pid : PId) (reason : String) (cont : Continuation) :
    Inv (beginLoseInfluence g pid reason cont) := by
  refine ⟨h2, ?_, trivial, hsec, hbag⟩
  intro e he
  simp [Pending.respOf] at he

theorem coinsUpd_pieces (g : Game) (pid : PId) (f : Player → Player)
    (hf : ∀ p, (f p).influence = p.influence) :
    ((∀ p ∈ g.players, p.influence.length = 2) →
      ∀ p ∈ (g.updatePlayer pid f).players, p.influence.length = 2)
    ∧ (g.updatePlayer pid f).players.length = g.players.length
    ∧ handBagL (g.updatePlayer pid f).players = handBagL g.players := by
  refine ⟨?_, ?_, ?_⟩
  · intro h2
    refine modPlayer_forall _ _ _ h2 ?_
    intro p hp
    rw [hf p]
    exact hp
  · exact modPlayer_length _ _ _
  · refine handBagL_modPlayer_same _ _ _ ?_
    intro p
    unfold Player.roleBag
    rw [hf p]

/-! ## `continueAfterLoseInfluence` preserves the invariant -/

theorem continueAfterLoseInfluence_inv (g : Game) (cont : Continuation)
    (hInv : Inv g) (hsec : g.exchangeSecrets = []) :
    Inv (continueAfterLoseInfluence g cont).1 := by
  cases cont with
  | endTurn =>
    exact finishTurn_inv g hInv.twoCards hsec hInv.bag
  | assassinateOpenBlock aid tid =>
    refine ⟨hInv.twoCards, ?_, trivial, hsec, hInv.bag⟩
    intro e he
    simp only [Pending.respOf, List.mem_singleton] at he
    subst he
    simp
  | assassinateBlockStands =>
    exact finishTurn_inv _ hInv.twoCards hsec hInv.bag
  | assassinateForceTargetLoss aid tid =>
    exact Inv_beginLoseInfluence g hInv.twoCards hsec hInv.bag _ _ _
  | endTurnAfterAssassination tid =>
    cases ht : g.getPlayer tid with
    | some t =>
      simp only [continueAfterLoseInfluence, ht]
      exact finishTurn_inv _ hInv.twoCards hsec hInv.bag
    | none =>
      simp only [continueAfterLoseInfluence, ht]
      exact finishTurn_inv _ hInv.twoCards hsec hInv.bag
  | stealOpenBlock aid tid =>
    refine ⟨hInv.twoCards, ?_, trivial, hsec, hInv.bag⟩
    intro e he
    simp only [Pending.respOf, List.mem_singleton] at he
    subst he
    simp
  | stealApply aid tid =>
    rcases applySteal_inv g aid tid with ⟨hp, hs, hd, htc, hl, hhb⟩
    refine finishTurn_inv _ (htc hInv.twoCards) (by rw [hs, hsec]) ?_
    intro hlen
    rw [hl] at hlen
    rw [hd, hhb, hs]
    exact hInv.bag hlen
  | stealBlockStands =>
    exact finishTurn_inv _ hInv.twoCards hsec hInv.bag
  | stealApplyAfterBlockFail aid tid =>
    rcases applySteal_inv g aid tid with ⟨hp, hs, hd, htc, hl, hhb⟩
    refine finishTurn_inv _ (htc hInv.twoCards) (by rw [hs, hsec]) ?_
    intro hlen
    rw [hl] at hlen
    rw [hd, hhb, hs]
    exact hInv.bag hlen
  | exchangeStartChoice aid =>
    exact startExchangeChoice_inv g aid hInv hsec


theorem Inv_coinsFinish {g : Game} (aid : PId) (f : Player → Player)
    (hf : ∀ p, (f p).influence = p.influence)
    (h2 : ∀ p ∈ g.players, p.influence.length = 2)
    (hsec : g.exchangeSecrets = [])
    (hbag : g.players.length ≤ 6 →
      (g.deck : Multiset Role) + handBagL g.players + secretBagL g.exchangeSecrets = fullBag)
    {lg : List String} :
    Inv (finishTurn { g.updatePlayer aid f with log := lg }).1 := by
  rcases coinsUpd_pieces g aid f hf with ⟨htc, hl, hb⟩
  refine finishTurn_inv _ (htc h2) hsec ?_
  intro hlen
  have hlen2 : (g.updatePlayer aid f).players.length ≤ 6 := hlen
  rw [hl] at hlen2
  show (g.deck : Multiset Role) + handBagL (g.updatePlayer aid f).players
    + secretBagL g.exchangeSecrets = fullBag
  rw [hb]
  exact hbag hlen2

theorem Inv_challengeFail {g : Game} (tid aid : PId) (role : Role) (f : Player → Player)
    (hf : ∀ p, (f p).influence = p.influence)
    (h2 : ∀ p ∈ g.players, p.influence.length = 2)
    (hsec : g.exchangeSecrets = [])
    (hbag : g.players.length ≤ 6 →
      (g.deck : Multiset Role) + handBagL g.players + secretBagL g.exchangeSecrets = fullBag)
    {lg : List String} (cid : PId) (reason : String) (cont : Continuation) :
    Inv (beginLoseInfluence
      { (g.revealAndRedraw tid role).2.updatePlayer aid f with log := lg } cid reason cont) := by
  rcases revealAndRedraw_inv g tid role h2 with ⟨hrp, hrs, hrtc, hrl, hrb⟩
  rcases coinsUpd_pieces (g.revealAndRedraw tid role).2 aid f hf with ⟨htc, hl, hb⟩
  refine Inv_beginLoseInfluence _ (htc hrtc) ?_ ?_ cid reason cont
  · show (g.revealAndRedraw tid role).2.exchangeSecrets = []
    rw [hrs]
    exact hsec
  · intro hlen
    have hlen2 : ((g.revealAndRedraw tid role).2.updatePlayer aid f).players.length ≤ 6 := hlen
    rw [hl, hrl] at hlen2
    show ((g.revealAndRedraw tid role).2.deck : Multiset Role)
      + handBagL ((g.revealAndRedraw tid role).2.updatePlayer aid f).players
      + secretBagL (g.revealAndRedraw tid role).2.exchangeSecrets = fullBag
    rw [hb, hrs, hsec, hrb]
    have hbg := hbag hlen2
    rw [hsec] at hbg
    exact hbg

theorem loseInfluenceResponse_inv (g : Game) (pid : PId) (reason : String)
    (cont : Continuation) (inp : ResponseInput) (hInv : Inv g)
    (hpend : g.pendingAction = some (.loseInfluence pid reason cont)) :
    Inv (loseInfluenceResponse g pid cont inp).1 := by
  have hsec : g.exchangeSecrets = [] := by
    have h := hInv.secOK
    rw [hpend] at h
    exact h
  simp only [loseInfluenceResponse]
  by_cases h1 : inp.playerId ≠ pid
  · rw [if_pos h1]
    exact hInv
  · rw [if_neg h1]
    by_cases h2 : inp.responseType ≠ "loseInfluence"
    · rw [if_pos h2]
      exact hInv
    · rw [if_neg h2]
      rcases loseInfluence_inv g inp.playerId inp.payload.cardIndex with
        ⟨hlp, hls, hld, hltc, hll, hlb⟩
      by_cases h3 : (g.loseInfluence inp.playerId inp.payload.cardIndex).1 = false
      · rw [if_pos h3]
        show Inv (g.loseInfluence inp.playerId inp.payload.cardIndex).2
        refine Inv_of_fields g _ hInv hltc hll hlb (by rw [hld]) hlp hls ?_
        rw [hlp, hpend, hls]
        exact hsec
      · rw [if_neg h3]
        refine continueAfterLoseInfluence_inv _ cont ?_
          (by show (g.loseInfluence _ _).2.exchangeSecrets = []; rw [hls, hsec])
        refine ⟨hltc hInv.twoCards, trivial, trivial, ?_, ?_⟩
        · show secretsOn none (g.loseInfluence _ _).2.exchangeSecrets _
          show (g.loseInfluence inp.playerId inp.payload.cardIndex).2.exchangeSecrets = []
          rw [hls, hsec]
        · intro hl
          show ((g.loseInfluence _ _).2.deck : Multiset Role)
            + handBagL (g.loseInfluence _ _).2.players
            + secretBagL (g.loseInfluence _ _).2.exchangeSecrets = fullBag
          rw [hll] at hl
          rw [hld, hlb, hls]
          exact hInv.bag hl

theorem taxResponse_inv (g : Game) (aid : PId) (resp : Responders) (inp : ResponseInput)
    (hInv : Inv g) (hpend : g.pendingAction = some (.tax aid resp)) :
    Inv (taxResponse g aid resp inp).1 := by
  have hsec : g.exchangeSecrets = [] := by
    have h := hInv.secOK
    rw [hpend] at h
    exact h
  simp only [taxResponse]
  by_cases h1 : ¬ hasResponder resp inp.playerId = true
  · rw [if_pos h1]
    exact hInv
  · rw [if_neg h1]
    cases hr2 : (if inp.responseType = "pass" then some (setStatus resp inp.playerId RStatus.passed)
        else if inp.responseType = "challenge" then some (setStatus resp inp.playerId RStatus.challenged)
        else none) with
    | none => exact hInv
    | some resp2 =>
      dsimp only
      cases hfc : firstChallenger resp2 with
      | some cid =>
        dsimp only
        by_cases hhas : ({ g with pendingAction := some (.tax aid resp2) } : Game).playerHasRole
            aid Role.Duke = true
        · rw [if_pos hhas]
          refine Inv_touch _ ?_
          refine Inv_challengeFail aid aid Role.Duke
            (fun p => { p with coins := p.coins + 3 }) (fun p => rfl)
            ?_ ?_ ?_ cid "failed_challenge" .endTurn
          · exact hInv.twoCards
          · exact hsec
          · exact hInv.bag
        · rw [if_neg hhas]
          exact Inv_beginLoseInfluence _ hInv.twoCards hsec hInv.bag _ _ _
      | none =>
        dsimp only
        by_cases hep : everyonePassed resp2 = true
        · rw [if_pos hep]
          refine Inv_coinsFinish aid
            (fun p => { p with coins := p.coins + 3 })
            (fun p => rfl) ?_ ?_ ?_
          · exact hInv.twoCards
          · exact hsec
          · exact hInv.bag
        · rw [if_neg hep]
          exact Inv_withPending g hInv (.tax aid resp2)
            ((firstChallenger_eq_none_iff resp2).mp hfc) trivial hsec

theorem Inv_challengeFailNoCoins {g : Game} (tid : PId) (role : Role)
    (h2 : ∀ p ∈ g.players, p.influence.length = 2)
    (hsec : g.exchangeSecrets = [])
    (hbag : g.players.length ≤ 6 →
      (g.deck : Multiset Role) + handBagL g.players + secretBagL g.exchangeSecrets = fullBag)
    (cid : PId) (reason : String) (cont : Continuation) :
    Inv (beginLoseInfluence (g.revealAndRedraw tid role).2 cid reason cont) := by
  rcases revealAndRedraw_inv g tid role h2 with ⟨hrp, hrs, hrtc, hrl, hrb⟩
  refine Inv_beginLoseInfluence _ hrtc ?_ ?_ cid reason cont
  · rw [hrs]
    exact hsec
  · intro hlen
    rw [hrl] at hlen
    rw [hrs, hsec, hrb]
    have hbg := hbag hlen
    rw [hsec] at hbg
    exact hbg

theorem Inv_stealFinish {g : Game} (aid tid : PId)
    (h2 : ∀ p ∈ g.players, p.influence.length = 2)
    (hsec : g.exchangeSecrets = [])
    (hbag : g.players.length ≤ 6 →
      (g.deck : Multiset Role) + handBagL g.players + secretBagL g.exchangeSecrets = fullBag) :
    Inv (finishTurn (applySteal g aid tid)).1 := by
  rcases applySteal_inv g aid tid with ⟨hsp, hss, hsd, hstc, hsl, hsb⟩
  refine finishTurn_inv _ (hstc h2) ?_ ?_
  · rw [hss]
    exact hsec
  · intro hlen
    rw [hsl] at hlen
    rw [hsd, hsb, hss]
    exact hbag hlen

theorem foreignAidResponse_inv (g : Game) (st : Stage) (aid : PId) (resp : Responders)
    (blockedBy : Option PId) (inp : ResponseInput) (hInv : Inv g)
    (hpend : g.pendingAction = some (.foreignAid st aid resp blockedBy)) :
    Inv (foreignAidResponse g st aid resp blockedBy inp).1 := by
  have hsec : g.exchangeSecrets = [] := by
    have h := hInv.secOK
    rw [hpend] at h
    exact h
  have hnc : ∀ e ∈ resp, e.2 ≠ RStatus.challenged := by
    have h := hInv.noChal
    rw [hpend] at h
    exact h
  cases st with
  | awaitingBlock =>
    simp only [foreignAidResponse]
    by_cases h1 : ¬ hasResponder resp inp.playerId = true
    · rw [if_pos h1]
      exact hInv
    · rw [if_neg h1]
      by_cases h2 : inp.responseType = "pass"
      · rw [if_pos h2]
        by_cases hep : everyonePassed (setStatus resp inp.playerId RStatus.passed) = true
        · rw [if_pos hep]
          refine finishTurn_inv _ ?_ ?_ ?_
          · exact hInv.twoCards
          · exact hsec
          · exact hInv.bag
        · rw [if_neg hep]
          exact Inv_withPending g hInv
            (.foreignAid .awaitingBlock aid (setStatus resp inp.playerId RStatus.passed) blockedBy)
            (setStatus_noChal resp inp.playerId hnc) trivial hsec
      · rw [if_neg h2]
        by_cases h3 : inp.responseType = "block" ∧ inp.payload.role = some Role.Duke
        · rw [if_pos h3]
          refine Inv_withPending g hInv
            (.foreignAid .awaitingChallengeBlock aid (initResponders g inp.playerId)
              (some inp.playerId)) ?_ ?_ hsec
          · intro e he
            have hep := initResponders_all_pending g inp.playerId e he
            rw [hep]
            exact fun h => RStatus.noConfusion h
          · exact fun h => Option.noConfusion h
        · rw [if_neg h3]
          exact hInv
  | awaitingChallengeBlock =>
    have hbb : blockedBy ≠ none := by
      have h := hInv.blocked
      rw [hpend] at h
      exact h
    simp only [foreignAidResponse]
    by_cases h1 : ¬ hasResponder resp inp.playerId = true
    · rw [if_pos h1]
      exact hInv
    · rw [if_neg h1]
      cases hr2 : (if inp.responseType = "pass" then some (setStatus resp inp.playerId RStatus.passed)
          else if inp.responseType = "challenge" then some (setStatus resp inp.playerId RStatus.challenged)
          else none) with
      | none => exact hInv
      | some resp2 =>
        dsimp only
        cases hfc : firstChallenger resp2 with
        | some cid =>
          dsimp only
          cases blockedBy with
          | none => exact absurd rfl hbb
          | some blockerId =>
            dsimp only
            by_cases hhas : ({ g with pendingAction := some (.foreignAid .awaitingChallengeBlock
                aid resp2 (some blockerId)) } : Game).playerHasRole blockerId Role.Duke = true
            · rw [if_pos hhas]
              refine Inv_touch _ ?_
              refine Inv_challengeFail blockerId aid Role.Duke
                (fun p => { p with coins := p.coins - 2 }) (fun p => rfl)
                ?_ ?_ ?_ cid "failed_challenge" .endTurn
              · exact hInv.twoCards
              · exact hsec
              · exact hInv.bag
            · rw [if_neg hhas]
              exact Inv_beginLoseInfluence _ hInv.twoCards hsec hInv.bag _ _ _
        | none =>
          dsimp only
          by_cases hep : everyonePassed resp2 = true
          · rw [if_pos hep]
            refine Inv_coinsFinish aid (fun p => { p with coins := p.coins - 2 })
              (fun p => rfl) ?_ ?_ ?_
            · exact hInv.twoCards
            · exact hsec
            · exact hInv.bag
          · rw [if_neg hep]
            exact Inv_withPending g hInv
              (.foreignAid .awaitingChallengeBlock aid resp2 blockedBy)
              ((firstChallenger_eq_none_iff resp2).mp hfc) hbb hsec
  | awaitingChallenge => exact hInv
  | awaitingChoice => exact hInv

theorem assassinateResponse_inv (g : Game) (st : Stage) (aid tid : PId)
    (blockedBy : Option PId) (resp : Responders) (inp : ResponseInput) (hInv : Inv g)
    (hpend : g.pendingAction = some (.assassinate st aid tid blockedBy resp)) :
    Inv (assassinateResponse g st aid tid blockedBy resp inp).1 := by
  have hsec : g.exchangeSecrets = [] := by
    have h := hInv.secOK
    rw [hpend] at h
    exact h
  cases st with
  | awaitingChallenge =>
    simp only [assassinateResponse]
    by_cases h1 : ¬ hasResponder resp inp.playerId = true
    · rw [if_pos h1]
      exact hInv
    · rw [if_neg h1]
      cases hr2 : (if inp.responseType = "pass" then some (setStatus resp inp.playerId RStatus.passed)
          else if inp.responseType = "challenge" then some (setStatus resp inp.playerId RStatus.challenged)
          else none) with
      | none => exact hInv
      | some resp2 =>
        dsimp only
        cases hfc : firstChallenger resp2 with
        | some cid =>
          dsimp only
          by_cases hhas : ({ g with pendingAction := some (.assassinate .awaitingChallenge
              aid tid blockedBy resp2) } : Game).playerHasRole aid Role.Assassin = true
          · rw [if_pos hhas]
            refine Inv_touch _ ?_
            refine Inv_challengeFailNoCoins aid Role.Assassin ?_ ?_ ?_
              cid "failed_challenge" (.assassinateOpenBlock aid tid)
            · exact hInv.twoCards
            · exact hsec
            · exact hInv.bag
          · rw [if_neg hhas]
            exact Inv_beginLoseInfluence _ hInv.twoCards hsec hInv.bag _ _ _
        | none =>
          dsimp only
          by_cases hep : everyonePassed resp2 = true
          · rw [if_pos hep]
            refine Inv_withPending g hInv
              (.assassinate .awaitingBlock aid tid none [(tid, .pending)]) ?_ trivial hsec
            intro e he
            have h3 : e ∈ [(tid, RStatus.pending)] := he
            have he2 : e = (tid, RStatus.pending) := List.mem_singleton.mp h3
            rw [he2]
            exact fun h => RStatus.noConfusion h
          · rw [if_neg hep]
            exact Inv_withPending g hInv
              (.assassinate .awaitingChallenge aid tid blockedBy resp2)
              ((firstChallenger_eq_none_iff resp2).mp hfc) trivial hsec
  | awaitingBlock =>
    simp only [assassinateResponse]
    by_cases h1 : inp.playerId ≠ tid
    · rw [if_pos h1]
      exact hInv
    · rw [if_neg h1]
      by_cases h2 : inp.responseType = "pass"
      · rw [if_pos h2]
        exact Inv_beginLoseInfluence _ hInv.twoCards hsec hInv.bag _ _ _
      · rw [if_neg h2]
        by_cases h3 : inp.responseType = "block" ∧ inp.payload.role = some Role.Contessa
        · rw [if_pos h3]
          refine Inv_withPending g hInv
            (.assassinate .awaitingChallengeBlock aid tid (some tid)
              (initResponders { g with
                log := g.log ++ [nameOf g tid ++ " blocks the assassination with Contessa."] }
                tid)) ?_ ?_ hsec
          · intro e he
            have hep := initResponders_all_pending _ tid e he
            rw [hep]
            exact fun h => RStatus.noConfusion h
          · exact fun h => Option.noConfusion h
        · rw [if_neg h3]
          exact hInv
  | awaitingChallengeBlock =>
    have hbb : blockedBy ≠ none := by
      have h := hInv.blocked
      rw [hpend] at h
      exact h
    simp only [assassinateResponse]
    by_cases h1 : ¬ hasResponder resp inp.playerId = true
    · rw [if_pos h1]
      exact hInv
    · rw [if_neg h1]
      cases hr2 : (if inp.responseType = "pass" then some (setStatus resp inp.playerId RStatus.passed)
          else if inp.responseType = "challenge" then some (setStatus resp inp.playerId RStatus.challenged)
          else none) with
      | none => exact hInv
      | some resp2 =>
        dsimp only
        cases hfc : firstChallenger resp2 with
        | some cid =>
          dsimp only
          cases blockedBy with
          | none => exact absurd rfl hbb
          | some blockerId =>
            dsimp only
            by_cases hhas : ({ g with pendingAction := some (.assassinate .awaitingChallengeBlock
                aid tid (some blockerId) resp2) } : Game).playerHasRole blockerId Role.Contessa = true
            · rw [if_pos hhas]
              refine Inv_touch _ ?_
              refine Inv_challengeFailNoCoins blockerId Role.Contessa ?_ ?_ ?_
                cid "failed_challenge" .assassinateBlockStands
              · exact hInv.twoCards
              · exact hsec
              · exact hInv.bag
            · rw [if_neg hhas]
              exact Inv_beginLoseInfluence _ hInv.twoCards hsec hInv.bag _ _ _
        | none =>
          dsimp only
          by_cases hep : everyonePassed resp2 = true
          · rw [if_pos hep]
            refine finishTurn_inv _ ?_ ?_ ?_
            · exact hInv.twoCards
            · exact hsec
            · exact hInv.bag
          · rw [if_neg hep]
            exact Inv_withPending g hInv
              (.assassinate .awaitingChallengeBlock aid tid blockedBy resp2)
              ((firstChallenger_eq_none_iff resp2).mp hfc) hbb hsec
  | awaitingChoice => exact hInv

theorem stealResponse_inv (g : Game) (st : Stage) (aid tid : PId)
    (blockedBy : Option PId) (blockRole : Option Role) (resp : Responders)
    (inp : ResponseInput) (hInv : Inv g)
    (hpend : g.pendingAction = some (.steal st aid tid blockedBy blockRole resp)) :
    Inv (stealResponse g st aid tid blockedBy blockRole resp inp).1 := by
  have hsec : g.exchangeSecrets = [] := by
    have h := hInv.secOK
    rw [hpend] at h
    exact h
  cases st with
  | awaitingChallenge =>
    simp only [stealResponse]
    by_cases h1 : ¬ hasResponder resp inp.playerId = true
    · rw [if_pos h1]
      exact hInv
    · rw [if_neg h1]
      cases hr2 : (if inp.responseType = "pass" then some (setStatus resp inp.playerId RStatus.passed)
          else if inp.responseType = "challenge" then some (setStatus resp inp.playerId RStatus.challenged)
          else none) with
      | none => exact hInv
      | some resp2 =>
        dsimp only
        cases hfc : firstChallenger resp2 with
        | some cid =>
          dsimp only
          by_cases hhas : ({ g with pendingAction := some (.steal .awaitingChallenge
              aid tid blockedBy blockRole resp2) } : Game).playerHasRole aid Role.Captain = true
          · rw [if_pos hhas]
            refine Inv_touch _ ?_
            refine Inv_challengeFailNoCoins aid Role.Captain ?_ ?_ ?_
              cid "failed_challenge" (.stealOpenBlock aid tid)
            · exact hInv.twoCards
            · exact hsec
            · exact hInv.bag
          · rw [if_neg hhas]
            exact Inv_beginLoseInfluence _ hInv.twoCards hsec hInv.bag _ _ _
        | none =>
          dsimp only
          by_cases hep : everyonePassed resp2 = true
          · rw [if_pos hep]
            refine Inv_withPending g hInv
              (.steal .awaitingBlock aid tid none none [(tid, .pending)]) ?_ trivial hsec
            intro e he
            have h3 : e ∈ [(tid, RStatus.pending)] := he
            have he2 : e = (tid, RStatus.pending) := List.mem_singleton.mp h3
            rw [he2]
            exact fun h => RStatus.noConfusion h
          · rw [if_neg hep]
            exact Inv_withPending g hInv
              (.steal .awaitingChallenge aid tid blockedBy blockRole resp2)
              ((firstChallenger_eq_none_iff resp2).mp hfc) trivial hsec
  | awaitingBlock =>
    simp only [stealResponse]
    by_cases h1 : inp.playerId ≠ tid
    · rw [if_pos h1]
      exact hInv
    · rw [if_neg h1]
      by_cases h2 : inp.responseType = "pass"
      · rw [if_pos h2]
        refine Inv_stealFinish aid tid ?_ ?_ ?_
        · exact hInv.twoCards
        · exact hsec
        · exact hInv.bag
      · rw [if_neg h2]
        by_cases h3 : inp.responseType = "block" ∧
            (inp.payload.role = some Role.Captain ∨ inp.payload.role = some Role.Ambassador)
        · rw [if_pos h3]
          cases hrole : inp.payload.role with
          | none => exact hInv
          | some role =>
            dsimp only
            refine Inv_withPending g hInv
              (.steal .awaitingChallengeBlock aid tid (some tid) (some role)
                (initResponders { g with
                  log := g.log ++ [nameOf g tid ++ " blocks the steal with " ++ role.str ++ "."] }
                  tid)) ?_ ?_ hsec
            · intro e he
              have hep := initResponders_all_pending _ tid e he
              rw [hep]
              exact fun h => RStatus.noConfusion h
            · exact fun h => Option.noConfusion h
        · rw [if_neg h3]
          exact hInv
  | awaitingChallengeBlock =>
    have hbb : blockedBy ≠ none := by
      have h := hInv.blocked
      rw [hpend] at h
      exact h
    simp only [stealResponse]
    by_cases h1 : ¬ hasResponder resp inp.playerId = true
    · rw [if_pos h1]
      exact hInv
    · rw [if_neg h1]
      cases hr2 : (if inp.responseType = "pass" then some (setStatus resp inp.playerId RStatus.passed)
          else if inp.responseType = "challenge" then some (setStatus resp inp.playerId RStatus.challenged)
          else none) with
      | none => exact hInv
      | some resp2 =>
        dsimp only
        cases hfc : firstChallenger resp2 with
        | some cid =>
          dsimp only
          cases blockedBy with
          | none => exact absurd rfl hbb
          | some blockerId =>
            dsimp only
            cases blockRole with
            | none =>
              dsimp only
              rw [if_neg (by decide)]
              exact Inv_beginLoseInfluence _ hInv.twoCards hsec hInv.bag _ _ _
            | some role =>
              dsimp only
              by_cases hhas : ({ g with pendingAction := some (.steal .awaitingChallengeBlock
                  aid tid (some blockerId) (some role) resp2) } : Game).playerHasRole
                  blockerId role = true
              · rw [if_pos hhas]
                dsimp only
                refine Inv_touch _ ?_
                refine Inv_challengeFailNoCoins blockerId role ?_ ?_ ?_
                  cid "failed_challenge" .stealBlockStands
                · exact hInv.twoCards
                · exact hsec
                · exact hInv.bag
              · rw [if_neg hhas]
                exact Inv_beginLoseInfluence _ hInv.twoCards hsec hInv.bag _ _ _
        | none =>
          dsimp only
          by_cases hep : everyonePassed resp2 = true
          · rw [if_pos hep]
            refine finishTurn_inv _ ?_ ?_ ?_
            · exact hInv.twoCards
            · exact hsec
            · exact hInv.bag
          · rw [if_neg hep]
            exact Inv_withPending g hInv
              (.steal .awaitingChallengeBlock aid tid blockedBy blockRole resp2)
              ((firstChallenger_eq_none_iff resp2).mp hfc) hbb hsec
  | awaitingChoice => exact hInv

theorem exchangeChallengeResponse_inv (g : Game) (aid : PId) (resp : Responders)
    (inp : ResponseInput) (hInv : Inv g)
    (hpend : g.pendingAction = some (.exchange aid resp)) :
    Inv (exchangeChallengeResponse g aid resp inp).1 := by
  have hsec : g.exchangeSecrets = [] := by
    have h := hInv.secOK
    rw [hpend] at h
    exact h
  simp only [exchangeChallengeResponse]
  by_cases h1 : ¬ hasResponder resp inp.playerId = true
  · rw [if_pos h1]
    exact hInv
  · rw [if_neg h1]
    cases hr2 : (if inp.responseType = "pass" then some (setStatus resp inp.playerId RStatus.passed)
        else if inp.responseType = "challenge" then some (setStatus resp inp.playerId RStatus.challenged)
        else none) with
    | none => exact hInv
    | some resp2 =>
      dsimp only
      cases hfc : firstChallenger resp2 with
      | some cid =>
        dsimp only
        by_cases hhas : ({ g with pendingAction := some (.exchange aid resp2) } : Game).playerHasRole
            aid Role.Ambassador = true
        · rw [if_pos hhas]
          refine Inv_touch _ ?_
          refine Inv_challengeFailNoCoins aid Role.Ambassador ?_ ?_ ?_
            cid "failed_challenge" (.exchangeStartChoice aid)
          · exact hInv.twoCards
          · exact hsec
          · exact hInv.bag
        · rw [if_neg hhas]
          exact Inv_beginLoseInfluence _ hInv.twoCards hsec hInv.bag _ _ _
      | none =>
        dsimp only
        by_cases hep : everyonePassed resp2 = true
        · rw [if_pos hep]
          refine startExchangeChoice_inv _ aid ?_ ?_
          · exact Inv_withPending g hInv (.exchange aid resp2)
              ((firstChallenger_eq_none_iff resp2).mp hfc) trivial hsec
          · exact hsec
        · rw [if_neg hep]
          exact Inv_withPending g hInv (.exchange aid resp2)
            ((firstChallenger_eq_none_iff resp2).mp hfc) trivial hsec

theorem applyChosen_length (cs : List Card) (slots : List Nat) (rs : List Role) :
    (applyChosen cs slots rs).length = cs.length := by
  unfold applyChosen
  generalize slots.zip rs = l
  induction l generalizing cs with
  | nil => rfl
  | cons q l ih =>
    rw [List.foldl_cons, ih]
    simp

theorem cardRoles_split (cs : List Card) :
    ((cs.map Card.role : List Role) : Multiset Role)
      = (((cs.filter (fun c => c.revealed)).map Card.role : List Role) : Multiset Role)
        + (((cs.filter (fun c => !c.revealed)).map Card.role : List Role) : Multiset Role) := by
  have hp2 := (List.filter_append_perm (fun c : Card => c.revealed) cs).map Card.role
  rw [List.map_append] at hp2
  exact ((Multiset.coe_eq_coe.mpr hp2).symm).trans (Multiset.coe_add _ _)

theorem optionRoles_chosen_split (os : List ExchangeOption) (uniq : List String) :
    ((os.map (fun o => o.role) : List Role) : Multiset Role)
      = (((os.filter (fun o => uniq.contains o.id)).map (fun o => o.role) : List Role) : Multiset Role)
        + (((os.filter (fun o => !uniq.contains o.id)).map (fun o => o.role) : List Role) : Multiset Role) := by
  have hp2 := (List.filter_append_perm (fun o : ExchangeOption => uniq.contains o.id) os).map
    (fun o : ExchangeOption => o.role)
  rw [List.map_append] at hp2
  exact ((Multiset.coe_eq_coe.mpr hp2).symm).trans (Multiset.coe_add _ _)

theorem optionRoles_source_split (os : List ExchangeOption) :
    ((os.map (fun o => o.role) : List Role) : Multiset Role)
      = (((os.filter (fun o => o.source == OptSource.hand)).map ExchangeOption.role : List Role) : Multiset Role)
        + (((os.filter (fun o => o.source == OptSource.drawn)).map ExchangeOption.role : List Role) : Multiset Role) := by
  have hfe : os.filter (fun o => o.source == OptSource.drawn)
      = os.filter (fun o => !(o.source == OptSource.hand)) := by
    refine List.filter_congr ?_
    intro o ho
    cases h : o.source <;> rfl
  rw [hfe]
  have hp2 := (List.filter_append_perm (fun o : ExchangeOption => o.source == OptSource.hand) os).map
    (fun o : ExchangeOption => o.role)
  rw [List.map_append] at hp2
  exact ((Multiset.coe_eq_coe.mpr hp2).symm).trans (Multiset.coe_add _ _)

theorem exchangeAccept_bag (D H Rv Hu C U Dr M : Multiset Role)
    (hmb : M + (Rv + Hu) = H + (Rv + C))
    (hpart : C + U = Hu + Dr)
    (hbg : D + H + Dr = fullBag) :
    U + D + M + 0 = fullBag := by
  have key : U + D + M + 0 + (Rv + Hu) = fullBag + (Rv + Hu) := by
    calc U + D + M + 0 + (Rv + Hu)
        = U + D + (M + (Rv + Hu)) := by abel
      _ = U + D + (H + (Rv + C)) := by rw [hmb]
      _ = D + H + (C + U) + Rv := by abel
      _ = D + H + (Hu + Dr) + Rv := by rw [hpart]
      _ = D + H + Dr + (Rv + Hu) := by abel
      _ = fullBag + (Rv + Hu) := by rw [hbg]
  exact add_right_cancel key

theorem Inv_exchangeAccept (g : Game) (pid : PId) (sec : ExchangeSecret) (actor : Player)
    (uniq : List String) {lg : List String}
    (hfind : findPlayer g.players pid = some actor)
    (hsecs : g.exchangeSecrets = [(pid, sec)])
    (hhand : (sec.options.filter (fun o => o.source == OptSource.hand)).map ExchangeOption.role
      = (actor.influence.filter (fun c => !c.revealed)).map Card.role)
    (h2 : ∀ p ∈ g.players, p.influence.length = 2)
    (hbag : g.players.length ≤ 6 →
      (g.deck : Multiset Role) + handBagL g.players + secretBagL g.exchangeSecrets = fullBag)
    (hchlen : ((sec.options.filter (fun o => uniq.contains o.id)).map (fun o => o.role)).length
      = (unrevSlots actor.influence).length) :
    Inv (finishTurn { { (g.updatePlayer pid (fun pl =>
      { pl with influence := (applyChosen pl.influence (unrevSlots actor.influence)
          ((sec.options.filter (fun o => uniq.contains o.id)).map (fun o => o.role))) })).returnToDeck
        ((sec.options.filter (fun o => !uniq.contains o.id)).map (fun o => o.role)) with
      exchangeSecrets := (delEntry g.exchangeSecrets pid) } with
    log := lg }).1 := by
  rcases applyChosen_spec actor.influence
    ((sec.options.filter (fun o => uniq.contains o.id)).map (fun o => o.role)) hchlen with
    ⟨hA1, hA2, hA3⟩
  refine finishTurn_inv _ ?_ ?_ ?_
  · show ∀ p ∈ modPlayer g.players pid (fun pl =>
        { pl with influence := (applyChosen pl.influence (unrevSlots actor.influence)
            ((sec.options.filter (fun o => uniq.contains o.id)).map (fun o => o.role))) }),
      p.influence.length = 2
    refine modPlayer_forall _ _ _ h2 ?_
    intro p hp
    show (applyChosen p.influence (unrevSlots actor.influence)
        ((sec.options.filter (fun o => uniq.contains o.id)).map (fun o => o.role))).length = 2
    rw [applyChosen_length]
    exact hp
  · show delEntry g.exchangeSecrets pid = []
    rw [hsecs]
    exact delEntry_singleton_self pid sec
  · intro hlen
    have hlen2 : g.players.length ≤ 6 := by
      have h3 : (modPlayer g.players pid (fun pl =>
          { pl with influence := (applyChosen pl.influence (unrevSlots actor.influence)
              ((sec.options.filter (fun o => uniq.contains o.id)).map (fun o => o.role))) })).length
          ≤ 6 := hlen
      rw [modPlayer_length] at h3
      exact h3
    show (((g.updatePlayer pid (fun pl =>
        { pl with influence := (applyChosen pl.influence (unrevSlots actor.influence)
            ((sec.options.filter (fun o => uniq.contains o.id)).map (fun o => o.role))) })).returnToDeck
          ((sec.options.filter (fun o => !uniq.contains o.id)).map (fun o => o.role))).deck
        : Multiset Role)
      + handBagL (modPlayer g.players pid (fun pl =>
          { pl with influence := (applyChosen pl.influence (unrevSlots actor.influence)
              ((sec.options.filter (fun o => uniq.contains o.id)).map (fun o => o.role))) }))
      + secretBagL (delEntry g.exchangeSecrets pid) = fullBag
    rw [returnToDeck_bag]
    rw [(updatePlayer_fields g pid (fun pl =>
        { pl with influence := (applyChosen pl.influence (unrevSlots actor.influence)
            ((sec.options.filter (fun o => uniq.contains o.id)).map (fun o => o.role))) })).1]
    rw [hsecs, delEntry_singleton_self]
    show (((sec.options.filter (fun o => !uniq.contains o.id)).map (fun o => o.role)
        : List Role) : Multiset Role)
      + (g.deck : Multiset Role)
      + handBagL (modPlayer g.players pid (fun pl =>
          { pl with influence := (applyChosen pl.influence (unrevSlots actor.influence)
              ((sec.options.filter (fun o => uniq.contains o.id)).map (fun o => o.role))) }))
      + 0 = fullBag
    refine exchangeAccept_bag (g.deck : Multiset Role) (handBagL g.players)
      (((actor.influence.filter (fun c => c.revealed)).map Card.role : List Role) : Multiset Role)
      (((actor.influence.filter (fun c => !c.revealed)).map Card.role : List Role) : Multiset Role)
      (((sec.options.filter (fun o => uniq.contains o.id)).map (fun o => o.role)
        : List Role) : Multiset Role)
      (((sec.options.filter (fun o => !uniq.contains o.id)).map (fun o => o.role)
        : List Role) : Multiset Role)
      (((sec.options.filter (fun o => o.source == OptSource.drawn)).map ExchangeOption.role
        : List Role) : Multiset Role)
      (handBagL (modPlayer g.players pid (fun pl =>
          { pl with influence := (applyChosen pl.influence (unrevSlots actor.influence)
              ((sec.options.filter (fun o => uniq.contains o.id)).map (fun o => o.role))) })))
      ?_ ?_ ?_
    · have hmb := handBagL_modPlayer g.players pid (fun pl =>
        { pl with influence := (applyChosen pl.influence (unrevSlots actor.influence)
            ((sec.options.filter (fun o => uniq.contains o.id)).map (fun o => o.role))) }) actor hfind
      have hRold : actor.roleBag
          = (((actor.influence.filter (fun c => c.revealed)).map Card.role : List Role) : Multiset Role)
            + (((actor.influence.filter (fun c => !c.revealed)).map Card.role : List Role)
              : Multiset Role) :=
        cardRoles_split actor.influence
      have hmb2 : handBagL (modPlayer g.players pid (fun pl =>
          { pl with influence := (applyChosen pl.influence (unrevSlots actor.influence)
              ((sec.options.filter (fun o => uniq.contains o.id)).map (fun o => o.role))) }))
            + actor.roleBag
          = handBagL g.players + ({ actor with influence := (applyChosen actor.influence
              (unrevSlots actor.influence)
              ((sec.options.filter (fun o => uniq.contains o.id)).map (fun o => o.role))) }
              : Player).roleBag := hmb
      have hRnew : ({ actor with influence := (applyChosen actor.influence
            (unrevSlots actor.influence)
            ((sec.options.filter (fun o => uniq.contains o.id)).map (fun o => o.role))) }
            : Player).roleBag
          = (((actor.influence.filter (fun c => c.revealed)).map Card.role : List Role) : Multiset Role)
            + (((sec.options.filter (fun o => uniq.contains o.id)).map (fun o => o.role)
              : List Role) : Multiset Role) := by
        show (((applyChosen actor.influence (unrevSlots actor.influence)
            ((sec.options.filter (fun o => uniq.contains o.id)).map (fun o => o.role))).map Card.role
            : List Role) : Multiset Role) = _
        rw [cardRoles_split (applyChosen actor.influence (unrevSlots actor.influence)
          ((sec.options.filter (fun o => uniq.contains o.id)).map (fun o => o.role)))]
        rw [hA2, hA1]
      rw [hRold, hRnew] at hmb2
      exact hmb2
    · have hCU := (optionRoles_chosen_split sec.options uniq).symm
      have hHD := optionRoles_source_split sec.options
      rw [hhand] at hHD
      exact hCU.trans hHD
    · have hbg0 := hbag hlen2
      rw [hsecs] at hbg0
      have h0 : secretBagL [(pid, sec)]
          = (((sec.options.filter (fun o => o.source == OptSource.drawn)).map ExchangeOption.role
            : List Role) : Multiset Role) := by
        show sec.drawnBag + 0 = _
        rw [add_zero]
        rfl
      rw [h0] at hbg0
      exact hbg0

theorem exchangeChoiceResponse_inv (g : Game) (aid : PId) (k : Nat) (inp : ResponseInput)
    (hInv : Inv g) (hpend : g.pendingAction = some (.exchangeChoice aid k)) :
    Inv (exchangeChoiceResponse g aid inp).1 := by
  have hsecOK := hInv.secOK
  rw [hpend] at hsecOK
  rcases hsecOK with ⟨sec, actor, hsecs, hfind, hhand⟩
  simp only [exchangeChoiceResponse]
  by_cases h1 : inp.playerId ≠ aid
  · rw [if_pos h1]
    exact hInv
  · rw [if_neg h1]
    have h1e : inp.playerId = aid := not_ne_iff.mp h1
    by_cases h2 : inp.responseType ≠ "exchangeChoice"
    · rw [if_pos h2]
      exact hInv
    · rw [if_neg h2]
      cases hget : getEntry g.exchangeSecrets inp.playerId with
      | none => exact hInv
      | some secret =>
        have hsecret : sec = secret := by
          rw [hsecs, h1e] at hget
          have hsingle : getEntry [(aid, sec)] aid = some sec := by
            simp [getEntry]
          rw [hsingle] at hget
          exact Option.some_inj.mp hget
        subst hsecret
        dsimp only
        by_cases h3 : (jsSetDedup (inp.payload.keep.getD [])).length ≠ sec.keepCount
        · rw [if_pos h3]
          exact hInv
        · rw [if_neg h3]
          by_cases h4 : (sec.options.filter (fun o =>
              (jsSetDedup (inp.payload.keep.getD [])).contains o.id)).length ≠ sec.keepCount
          · rw [if_pos h4]
            exact hInv
          · rw [if_neg h4]
            cases hgp : g.getPlayer inp.playerId with
            | none => exact hInv
            | some actor2 =>
              have hactor : actor = actor2 := by
                rw [h1e] at hgp
                have hg2 : findPlayer g.players aid = some actor2 := hgp
                rw [hfind] at hg2
                exact Option.some_inj.mp hg2
              subst hactor
              dsimp only
              by_cases h5 : (unrevSlots actor.influence).length ≠ sec.keepCount
              · rw [if_pos h5]
                exact hInv
              · rw [if_neg h5]
                have hchlen : ((sec.options.filter (fun o =>
                    (jsSetDedup (inp.payload.keep.getD [])).contains o.id)).map
                      (fun o => o.role)).length
                    = (unrevSlots actor.influence).length := by
                  rw [List.length_map, not_ne_iff.mp h4, not_ne_iff.mp h5]
                rw [← h1e] at hfind hsecs
                exact Inv_exchangeAccept g inp.playerId sec actor
                  (jsSetDedup (inp.payload.keep.getD [])) hfind hsecs hhand
                  hInv.twoCards hInv.bag hchlen

theorem Inv_coinsBeginLose {g : Game} (aid : PId) (f : Player → Player)
    (hf : ∀ p, (f p).influence = p.influence)
    (h2 : ∀ p ∈ g.players, p.influence.length = 2)
    (hsec : g.exchangeSecrets = [])
    (hbag : g.players.length ≤ 6 →
      (g.deck : Multiset Role) + handBagL g.players + secretBagL g.exchangeSecrets = fullBag)
    {lg : List String} (pid : PId) (reason : String) (cont : Continuation) :
    Inv (beginLoseInfluence { g.updatePlayer aid f with log := lg } pid reason cont) := by
  rcases coinsUpd_pieces g aid f hf with ⟨htc, hl, hb⟩
  refine Inv_beginLoseInfluence _ (htc h2) ?_ ?_ pid reason cont
  · exact hsec
  · intro hlen
    have hlen2 : (g.updatePlayer aid f).players.length ≤ 6 := hlen
    rw [hl] at hlen2
    show (g.deck : Multiset Role) + handBagL (g.updatePlayer aid f).players
      + secretBagL g.exchangeSecrets = fullBag
    rw [hb]
    exact hbag hlen2

theorem Inv_coinsWithPending {g : Game} (aid : PId) (f : Player → Player)
    (hf : ∀ p, (f p).influence = p.influence)
    (h2 : ∀ p ∈ g.players, p.influence.length = 2)
    (hsec : g.exchangeSecrets = [])
    (hbag : g.players.length ≤ 6 →
      (g.deck : Multiset Role) + handBagL g.players + secretBagL g.exchangeSecrets = fullBag)
    {lg : List String} {P : Pending}
    (hnc : ∀ e ∈ P.respOf, e.2 ≠ RStatus.challenged)
    (hbo : blockedOKP P)
    (hso : secretsOn (some P) g.exchangeSecrets (modPlayer g.players aid f)) :
    Inv { { g.updatePlayer aid f with log := lg } with pendingAction := some P } := by
  rcases coinsUpd_pieces g aid f hf with ⟨htc, hl, hb⟩
  refine ⟨htc h2, hnc, hbo, hso, ?_⟩
  intro hlen
  have hlen2 : (g.updatePlayer aid f).players.length ≤ 6 := hlen
  rw [hl] at hlen2
  show (g.deck : Multiset Role) + handBagL (g.updatePlayer aid f).players
    + secretBagL g.exchangeSecrets = fullBag
  rw [hb]
  exact hbag hlen2

theorem resolveAction_inv (g : Game) (inp : ActionInput) (hInv : Inv g)
    (hpend : g.pendingAction = none) :
    Inv (resolveAction g inp).1 := by
  have hsec : g.exchangeSecrets = [] := by
    have h := hInv.secOK
    rw [hpend] at h
    exact h
  simp only [resolveAction]
  cases hga : g.getPlayer inp.actorId with
  | none => exact hInv
  | some actor =>
    dsimp only
    by_cases h0 : inp.actionType ≠ "coup" ∧ actor.coins ≥ 10
    · rw [if_pos h0]
      exact hInv
    · rw [if_neg h0]
      by_cases h1 : inp.actionType = "income"
      · rw [if_pos h1]
        refine Inv_coinsFinish inp.actorId (fun p => { p with coins := p.coins + 1 })
          (fun p => rfl) ?_ ?_ ?_
        · exact hInv.twoCards
        · exact hsec
        · exact hInv.bag
      · rw [if_neg h1]
        by_cases h2 : inp.actionType = "coup"
        · rw [if_pos h2]
          cases hgt : g.getPlayerOpt inp.targetId with
          | none => exact hInv
          | some target =>
            dsimp only
            by_cases h3 : ¬ g.isAlive target.id = true
            · rw [if_pos h3]
              exact hInv
            · rw [if_neg h3]
              by_cases h4 : actor.coins < 7
              · rw [if_pos h4]
                exact hInv
              · rw [if_neg h4]
                refine Inv_touch _ ?_
                refine Inv_coinsBeginLose inp.actorId
                  (fun p => { p with coins := p.coins - 7 })
                  (fun p => rfl) ?_ ?_ ?_ target.id "coup" .endTurn
                · exact hInv.twoCards
                · exact hsec
                · exact hInv.bag
        · rw [if_neg h2]
          by_cases h5 : inp.actionType = "foreign_aid"
          · rw [if_pos h5]
            refine Inv_touch _ ?_
            refine Inv_coinsWithPending inp.actorId
              (fun p => { p with coins := p.coins + 2 })
              (fun p => rfl) ?_ ?_ ?_ ?_ ?_ ?_
            · exact hInv.twoCards
            · exact hsec
            · exact hInv.bag
            · intro e he
              have hp := initResponders_all_pending _ inp.actorId e he
              rw [hp]
              exact fun hc => RStatus.noConfusion hc
            · trivial
            · exact hsec
          · rw [if_neg h5]
            by_cases h6 : inp.actionType = "tax"
            · rw [if_pos h6]
              refine Inv_withPending g hInv _ ?_ trivial ?_
              · intro e he
                have hp := initResponders_all_pending _ inp.actorId e he
                rw [hp]
                exact fun hc => RStatus.noConfusion hc
              · exact hsec
            · rw [if_neg h6]
              by_cases h7 : inp.actionType = "assassinate"
              · rw [if_pos h7]
                cases hgt : g.getPlayerOpt inp.targetId with
                | none => exact hInv
                | some target =>
                  dsimp only
                  by_cases h8 : ¬ g.isAlive target.id = true ∨ target.id = inp.actorId
                  · rw [if_pos h8]
                    exact hInv
                  · rw [if_neg h8]
                    by_cases h9 : actor.coins < 3
                    · rw [if_pos h9]
                      exact hInv
                    · rw [if_neg h9]
                      refine Inv_touch _ ?_
                      refine Inv_coinsWithPending inp.actorId
                        (fun p => { p with coins := p.coins - 3 })
                        (fun p => rfl) ?_ ?_ ?_ ?_ ?_ ?_
                      · exact hInv.twoCards
                      · exact hsec
                      · exact hInv.bag
                      · intro e he
                        have hp := initResponders_all_pending _ inp.actorId e he
                        rw [hp]
                        exact fun hc => RStatus.noConfusion hc
                      · trivial
                      · exact hsec
              · rw [if_neg h7]
                by_cases h10 : inp.actionType = "steal"
                · rw [if_pos h10]
                  cases hgt : g.getPlayerOpt inp.targetId with
                  | none => exact hInv
                  | some target =>
                    dsimp only
                    by_cases h11 : ¬ g.isAlive target.id = true ∨ target.id = inp.actorId
                    · rw [if_pos h11]
                      exact hInv
                    · rw [if_neg h11]
                      refine Inv_withPending g hInv _ ?_ trivial ?_
                      · intro e he
                        have hp := initResponders_all_pending _ inp.actorId e he
                        rw [hp]
                        exact fun hc => RStatus.noConfusion hc
                      · exact hsec
                · rw [if_neg h10]
                  by_cases h12 : inp.actionType = "exchange"
                  · rw [if_pos h12]
                    refine Inv_withPending g hInv _ ?_ trivial ?_
                    · intro e he
                      have hp := initResponders_all_pending _ inp.actorId e he
                      rw [hp]
                      exact fun hc => RStatus.noConfusion hc
                    · exact hsec
                  · rw [if_neg h12]
                    exact hInv

theorem handleResponse_inv (g : Game) (inp : ResponseInput) (hInv : Inv g) :
    Inv (handleResponse g inp).1 := by
  cases hpend : g.pendingAction with
  | none =>
    simp only [handleResponse, hpend]
    exact hInv
  | some p =>
    cases p with
    | loseInfluence pid reason cont =>
      simp only [handleResponse, hpend]
      exact loseInfluenceResponse_inv g pid reason cont inp hInv hpend
    | tax aid resp =>
      simp only [handleResponse, hpend]
      exact taxResponse_inv g aid resp inp hInv hpend
    | foreignAid st aid resp blk =>
      simp only [handleResponse, hpend]
      exact foreignAidResponse_inv g st aid resp blk inp hInv hpend
    | assassinate st aid tid blk resp =>
      simp only [handleResponse, hpend]
      exact assassinateResponse_inv g st aid tid blk resp inp hInv hpend
    | steal st aid tid blk brole resp =>
      simp only [handleResponse, hpend]
      exact stealResponse_inv g st aid tid blk brole resp inp hInv hpend
    | exchange aid resp =>
      simp only [handleResponse, hpend]
      exact exchangeChallengeResponse_inv g aid resp inp hInv hpend
    | exchangeChoice aid k =>
      simp only [handleResponse, hpend]
      exact exchangeChoiceResponse_inv g aid k inp hInv hpend

theorem handBagL_nilInf (ps : List Player) (h : ∀ p ∈ ps, p.influence = []) :
    handBagL ps = 0 := by
  induction ps with
  | nil => rfl
  | cons p rest ih =>
    rw [handBagL_cons]
    have hp : p.influence = [] := h p (List.mem_cons_self _ _)
    have hpr : p.roleBag = 0 := by
      show ((p.influence.map Card.role : List Role) : Multiset Role) = 0
      rw [hp]
      rfl
    rw [hpr, ih (fun q hq => h q (List.mem_cons_of_mem _ hq))]
    simp

theorem dealSeq_fields (ps : List Player) (g : Game) :
    (dealSeq g ps).2.pendingAction = g.pendingAction
    ∧ (dealSeq g ps).2.exchangeSecrets = g.exchangeSecrets
    ∧ (dealSeq g ps).1.length = ps.length
    ∧ ((∀ p ∈ ps, p.influence = []) → ∀ q ∈ (dealSeq g ps).1, q.influence.length = 2) := by
  induction ps generalizing g with
  | nil =>
    refine ⟨rfl, rfl, rfl, ?_⟩
    intro _ q hq
    simp [dealSeq] at hq
  | cons p rest ih =>
    rcases draw_fields g with ⟨_, hp1, hs1, _⟩
    rcases draw_fields g.draw.2 with ⟨_, hp2, hs2, _⟩
    rcases ih g.draw.2.draw.2 with ⟨ip, is, iln, itc⟩
    simp only [dealSeq]
    refine ⟨?_, ?_, ?_, ?_⟩
    · rw [ip, hp2, hp1]
    · rw [is, hs2, hs1]
    · show (dealSeq g.draw.2.draw.2 rest).1.length + 1 = rest.length + 1
      rw [iln]
    · intro hinf q hq
      rcases List.mem_cons.mp hq with rfl | hq2
      · show (p.influence ++ [({ role := g.draw.1, revealed := false } : Card),
            ({ role := g.draw.2.draw.1, revealed := false } : Card)]).length = 2
        rw [hinf p (List.mem_cons_self _ _)]
        rfl
      · exact itc (fun r hr => hinf r (List.mem_cons_of_mem _ hr)) q hq2

theorem dealSeq_bag (ps : List Player) (g : Game) (h : 2 * ps.length ≤ g.deck.length) :
    ((dealSeq g ps).2.deck : Multiset Role) + handBagL (dealSeq g ps).1
      = (g.deck : Multiset Role) + handBagL ps
    ∧ (dealSeq g ps).2.deck.length + 2 * ps.length = g.deck.length := by
  induction ps generalizing g with
  | nil =>
    refine ⟨?_, ?_⟩
    · show (g.deck : Multiset Role) + handBagL [] = (g.deck : Multiset Role) + handBagL []
      rfl
    · show g.deck.length + 2 * 0 = g.deck.length
      omega
  | cons p rest ih =>
    have hlc : (p :: rest).length = rest.length + 1 := rfl
    rw [hlc] at h
    have hne1 : g.deck ≠ [] := by
      intro he
      rw [he] at h
      simp only [List.length_nil] at h
      omega
    have hd1 := draw_bag g hne1
    have hd1l := draw_len g hne1
    have hne2 : g.draw.2.deck ≠ [] := by
      intro he
      rw [he] at hd1l
      simp only [List.length_nil, Nat.zero_add] at hd1l
      omega
    have hd2 := draw_bag g.draw.2 hne2
    have hd2l := draw_len g.draw.2 hne2
    have hrec : 2 * rest.length ≤ g.draw.2.draw.2.deck.length := by omega
    rcases ih g.draw.2.draw.2 hrec with ⟨ib, il⟩
    simp only [dealSeq]
    refine ⟨?_, ?_⟩
    · show ((dealSeq g.draw.2.draw.2 rest).2.deck : Multiset Role)
        + handBagL ({ p with influence := p.influence ++ [{ role := g.draw.1, revealed := false },
            { role := g.draw.2.draw.1, revealed := false }] } :: (dealSeq g.draw.2.draw.2 rest).1)
        = (g.deck : Multiset Role) + handBagL (p :: rest)
      rw [handBagL_cons, handBagL_cons]
      have hp2 : ({ p with influence := p.influence ++ [{ role := g.draw.1, revealed := false },
          { role := g.draw.2.draw.1, revealed := false }] } : Player).roleBag
          = p.roleBag + ({g.draw.1} + {g.draw.2.draw.1}) := by
        show (((p.influence ++ [({ role := g.draw.1, revealed := false } : Card),
            ({ role := g.draw.2.draw.1, revealed := false } : Card)]).map Card.role : List Role)
            : Multiset Role) = _
        rw [List.map_append]
        rfl
      have key := congrArg
        (· + (p.roleBag + ({g.draw.1} + {g.draw.2.draw.1}))) ib
      simp only [] at key
      calc ((dealSeq g.draw.2.draw.2 rest).2.deck : Multiset Role)
          + (({ p with influence := p.influence ++ [{ role := g.draw.1, revealed := false },
              { role := g.draw.2.draw.1, revealed := false }] } : Player).roleBag
            + handBagL (dealSeq g.draw.2.draw.2 rest).1)
          = ((dealSeq g.draw.2.draw.2 rest).2.deck : Multiset Role)
              + handBagL (dealSeq g.draw.2.draw.2 rest).1
              + (p.roleBag + ({g.draw.1} + {g.draw.2.draw.1})) := by
            rw [hp2]
            abel
        _ = (g.draw.2.draw.2.deck : Multiset Role) + handBagL rest
              + (p.roleBag + ({g.draw.1} + {g.draw.2.draw.1})) := key
        _ = (g.deck : Multiset Role) + (p.roleBag + handBagL rest) := by
            rw [← hd1, ← hd2]
            abel
    · show (dealSeq g.draw.2.draw.2 rest).2.deck.length + 2 * (rest.length + 1) = g.deck.length
      omega

theorem Inv_dealtGame (g0 : Game)
    (hpend : g0.pendingAction = none)
    (hsec : g0.exchangeSecrets = [])
    (hinf : ∀ p ∈ g0.players, p.influence = [])
    (hdeck : (g0.deck : Multiset Role) = fullBag) :
    InvOn (dealSeq g0 g0.players).1 (dealSeq g0 g0.players).2.deck
      (dealSeq g0 g0.players).2.pendingAction (dealSeq g0 g0.players).2.exchangeSecrets := by
  rcases dealSeq_fields g0.players g0 with ⟨hp, hs, hl, htc⟩
  rw [hp, hs, hpend, hsec]
  refine ⟨htc hinf, trivial, trivial, rfl, ?_⟩
  intro hlen
  rw [hl] at hlen
  have hdl : g0.deck.length = 15 := by
    have hcard := congrArg Multiset.card hdeck
    rw [Multiset.coe_card, fullBag_card] at hcard
    exact hcard
  have h2 : 2 * g0.players.length ≤ g0.deck.length := by omega
  rcases dealSeq_bag g0.players g0 h2 with ⟨hb, _⟩
  show ((dealSeq g0 g0.players).2.deck : Multiset Role) + handBagL (dealSeq g0 g0.players).1
    + secretBagL [] = fullBag
  rw [hb, handBagL_nilInf g0.players hinf, hdeck]
  simp [secretBagL]


set_option maxHeartbeats 4000000 in
theorem newGame_inv (ps : List (PId × String)) (tape : Nat → Nat) :
    Inv (newGame ps tape) := by
  have hdeck : ((shuffleT tape 0 makeDeckRaw).1 : Multiset Role) = fullBag :=
    shuffleT_coe tape 0 makeDeckRaw
  have hcore := Inv_dealtGame
    { players := ps.map (fun q => { id := q.1, name := q.2, coins := 2, influence := [] })
      deck := (shuffleT tape 0 makeDeckRaw).1
      log := []
      turnIndex := 0
      pendingAction := none
      gameOver := false
      winnerId := none
      exchangeSecrets := []
      rng := tape
      rngIdx := (shuffleT tape 0 makeDeckRaw).2 }
    rfl rfl
    (by
      intro p hp
      rcases List.mem_map.mp hp with ⟨q, hq, rfl⟩
      rfl)
    hdeck
  simp only [newGame]
  split
  · exact hcore
  · exact hcore

theorem reachable_inv (g : Game) (h : Reachable g) : Inv g := by
  induction h with
  | init ps tape => exact newGame_inv ps tape
  | act g2 inp p hr hgo hcp hid hpend ih =>
    exact resolveAction_inv g2.touch inp (Inv_touch g2 ih) hpend
  | resp g2 inp hr hgo ih => exact handleResponse_inv g2 inp ih
  | view g2 hr ih => exact Inv_touch g2 ih

theorem InflMono_refl (g : Game) : InflMono g g := fun _ _ _ h _ => h

theorem InflMono_trans {g1 g2 g3 : Game} (h12 : InflMono g1 g2) (h23 : InflMono g2 g3) :
    InflMono g1 g3 := fun i j c h hr => h23 i j c (h12 i j c h hr) hr

theorem InflMono_of_players {g g2 : Game} (h : g2.players = g.players) : InflMono g g2 := by
  intro i j c hc hr
  show ((g2.players.get? i).bind (fun p => p.influence.get? j)) = some c
  rw [h]
  exact hc

theorem modPlayer_get?_cases (ps : List Player) (pid : PId) (f : Player → Player) (i : Nat) :
    (modPlayer ps pid f).get? i = ps.get? i
    ∨ ∃ p, findPlayer ps pid = some p ∧ ps.get? i = some p
        ∧ (modPlayer ps pid f).get? i = some (f p) := by
  induction ps generalizing i with
  | nil => left; rfl
  | cons q qs ih =>
    by_cases hq : q.id = pid
    · have hm : modPlayer (q :: qs) pid f = f q :: qs := by
        simp only [modPlayer]
        rw [if_pos hq]
      cases i with
      | zero =>
        right
        refine ⟨q, ?_, rfl, ?_⟩
        · unfold findPlayer
          rw [if_pos hq]
        · rw [hm]
          rfl
      | succ n =>
        left
        rw [hm]
        rfl
    · have hm : modPlayer (q :: qs) pid f = q :: modPlayer qs pid f := by
        simp only [modPlayer]
        rw [if_neg hq]
      cases i with
      | zero =>
        left
        rw [hm]
        rfl
      | succ n =>
        rw [hm]
        rcases ih n with h | ⟨p, hf2, hg2, hm2⟩
        · left
          show (modPlayer qs pid f).get? n = (q :: qs).get? (n + 1)
          rw [h]
          rfl
        · right
          refine ⟨p, ?_, ?_, ?_⟩
          · unfold findPlayer
            rw [if_neg hq]
            exact hf2
          · show (q :: qs).get? (n + 1) = some p
            rw [List.get?_cons_succ]
            exact hg2
          · show (q :: modPlayer qs pid f).get? (n + 1) = some (f p)
            rw [List.get?_cons_succ]
            exact hm2

theorem modPlayer_modPlayer_get?_cases (ps : List Player) (pid : PId)
    (f fg : Player → Player) (hid : ∀ p, (f p).id = p.id) (i : Nat) :
    (modPlayer (modPlayer ps pid f) pid fg).get? i = ps.get? i
    ∨ ∃ p, findPlayer ps pid = some p ∧ ps.get? i = some p
        ∧ (modPlayer (modPlayer ps pid f) pid fg).get? i = some (fg (f p)) := by
  induction ps generalizing i with
  | nil => left; rfl
  | cons q qs ih =>
    by_cases hq : q.id = pid
    · have hinner : modPlayer (q :: qs) pid f = f q :: qs := by
        simp only [modPlayer]
        rw [if_pos hq]
      have houter : modPlayer (f q :: qs) pid fg = fg (f q) :: qs := by
        simp only [modPlayer]
        rw [if_pos (by rw [hid q]; exact hq)]
      cases i with
      | zero =>
        right
        refine ⟨q, ?_, rfl, ?_⟩
        · unfold findPlayer
          rw [if_pos hq]
        · rw [hinner, houter]
          rfl
      | succ n =>
        left
        rw [hinner, houter]
        rfl
    · have hinner : modPlayer (q :: qs) pid f = q :: modPlayer qs pid f := by
        simp only [modPlayer]
        rw [if_neg hq]
      have houter : modPlayer (q :: modPlayer qs pid f) pid fg
          = q :: modPlayer (modPlayer qs pid f) pid fg := by
        simp only [modPlayer]
        rw [if_neg hq]
      cases i with
      | zero =>
        left
        rw [hinner, houter]
        rfl
      | succ n =>
        rw [hinner, houter]
        rcases ih n with h | ⟨p, hf2, hg2, hm2⟩
        · left
          show (modPlayer (modPlayer qs pid f) pid fg).get? n = (q :: qs).get? (n + 1)
          rw [h]
          rfl
        · right
          refine ⟨p, ?_, ?_, ?_⟩
          · unfold findPlayer
            rw [if_neg hq]
            exact hf2
          · show (q :: qs).get? (n + 1) = some p
            rw [List.get?_cons_succ]
            exact hg2
          · show (q :: modPlayer (modPlayer qs pid f) pid fg).get? (n + 1) = some (fg (f p))
            rw [List.get?_cons_succ]
            exact hm2

theorem InflMono_updatePlayer (g : Game) (pid : PId) (f : Player → Player)
    (hf : ∀ p, (f p).influence = p.influence) :
    InflMono g (g.updatePlayer pid f) := by
  intro i j c hc hr
  show ((modPlayer g.players pid f).get? i).bind (fun p => p.influence.get? j) = some c
  rcases modPlayer_get?_cases g.players pid f i with h | ⟨p, _, hg, hm⟩
  · rw [h]
    exact hc
  · rw [hm]
    show (f p).influence.get? j = some c
    rw [hf p]
    rw [hg] at hc
    exact hc

theorem InflMono_updatePlayer_found (g : Game) (pid : PId) (f : Player → Player) (p0 : Player)
    (hfind : findPlayer g.players pid = some p0)
    (hf : ∀ j c, p0.influence.get? j = some c → c.revealed = true →
      (f p0).influence.get? j = some c) :
    InflMono g (g.updatePlayer pid f) := by
  intro i j c hc hr
  show ((modPlayer g.players pid f).get? i).bind (fun p => p.influence.get? j) = some c
  rcases modPlayer_get?_cases g.players pid f i with h | ⟨p, hfp, hg, hm⟩
  · rw [h]
    exact hc
  · rw [hfind] at hfp
    have hp0 : p0 = p := Option.some_inj.mp hfp
    subst hp0
    rw [hm]
    show (f p0).influence.get? j = some c
    rw [hg] at hc
    exact hf j c hc hr

theorem enumFrom_mem_get? (cs : List Card) (k j : Nat) (c : Card)
    (h : (j, c) ∈ enumFrom k cs) : k ≤ j ∧ cs.get? (j - k) = some c := by
  induction cs generalizing k with
  | nil => cases h
  | cons a as ih =>
    rcases List.mem_cons.mp h with heq | hmem
    · have h1 : j = k := congrArg Prod.fst heq
      have h2 : c = a := congrArg Prod.snd heq
      subst h1
      subst h2
      refine ⟨Nat.le_refl _, ?_⟩
      rw [Nat.sub_self]
      rfl
    · rcases ih (k + 1) hmem with ⟨hle, hget⟩
      refine ⟨Nat.le_of_succ_le hle, ?_⟩
      have hjk : j - k = (j - (k + 1)) + 1 := by omega
      rw [hjk]
      rw [List.get?_cons_succ]
      exact hget

theorem loseInfluence_mono (g : Game) (pid : PId) (ci : Option Nat) :
    InflMono g (g.loseInfluence pid ci).2 := by
  cases hp : g.getPlayer pid with
  | none =>
    simp only [Game.loseInfluence, hp]
    exact InflMono_refl g
  | some p =>
    cases ci with
    | none =>
      simp only [Game.loseInfluence, hp]
      exact InflMono_refl g
    | some n =>
      cases hfind : ((enumFrom 0 p.influence).filter (fun q => !q.2.revealed)).find?
          (fun q => q.1 == n) with
      | none =>
        simp only [Game.loseInfluence, hp, hfind]
        exact InflMono_refl g
      | some q =>
        simp only [Game.loseInfluence, hp, hfind]
        have hqmem := List.mem_of_find?_eq_some hfind
        rw [List.mem_filter] at hqmem
        rcases hqmem with ⟨hqenum, hqunrev⟩
        have hqpair : ((q.1, q.2) : Nat × Card) ∈ enumFrom 0 p.influence := hqenum
        rcases enumFrom_mem_get? p.influence 0 q.1 q.2 hqpair with ⟨_, hqget⟩
        rw [Nat.sub_zero] at hqget
        have hstep : InflMono g (g.updatePlayer pid (fun pl =>
            { pl with influence := (modifyAt pl.influence q.1
                (fun c => { c with revealed := true })) })) := by
          refine InflMono_updatePlayer_found g pid _ p hp ?_
          intro j c hj hc
          show (modifyAt p.influence q.1 (fun c => { c with revealed := true })).get? j = some c
          rw [modifyAt_get?]
          by_cases hji : q.1 = j
          · subst hji
            rw [hqget] at hj
            have hcq : q.2 = c := Option.some_inj.mp hj
            rw [hcq] at hqunrev
            rw [hc] at hqunrev
            cases hqunrev
          · rw [if_neg hji]
            exact hj
        refine InflMono_trans hstep (InflMono_of_players ?_)
        rw [(checkWin_fields _).1]

theorem rrGo_mono (g : Game) (pid : PId) (role : Role) (pname : String) (idx : Nat)
    (p : Player) (c0 : Card)
    (hfind : findPlayer g.players pid = some p)
    (hidx : p.influence.get? idx = some c0) (hc0 : c0.revealed = false) :
    InflMono g (g.revealAndRedrawGo pid role pname idx) := by
  intro i j c hc hr
  show (((g.revealAndRedrawGo pid role pname idx).players.get? i).bind
    (fun q => q.influence.get? j)) = some c
  rw [rrGo_players]
  rcases modPlayer_modPlayer_get?_cases g.players pid
    (fun q => { q with influence := (modifyAt q.influence idx
      (fun c => { c with revealed := true })) })
    (fun q => { q with influence := (q.influence.set idx
      { role := (g.rrMid pid role pname idx).draw.1, revealed := false }) })
    (fun q => rfl) i with h | ⟨p2, hf2, hg2, hm2⟩
  · rw [h]
    exact hc
  · rw [hfind] at hf2
    have hp2 : p = p2 := Option.some_inj.mp hf2
    subst hp2
    rw [hm2]
    show ((modifyAt p.influence idx (fun c => { c with revealed := true })).set idx
      { role := (g.rrMid pid role pname idx).draw.1, revealed := false }).get? j = some c
    rw [hg2] at hc
    have hcj : p.influence.get? j = some c := hc
    by_cases hji : j = idx
    · subst hji
      rw [hidx] at hcj
      have hcc : c0 = c := Option.some_inj.mp hcj
      rw [hcc] at hc0
      rw [hr] at hc0
      cases hc0
    · rw [get?_set_ne _ idx j _ (fun hx => hji hx.symm)]
      rw [modifyAt_get?]
      rw [if_neg (fun hx => hji hx.symm)]
      exact hcj

theorem revealAndRedraw_mono (g : Game) (pid : PId) (role : Role) :
    InflMono g (g.revealAndRedraw pid role).2 := by
  cases hp : g.getPlayer pid with
  | none =>
    simp only [Game.revealAndRedraw, hp]
    exact InflMono_refl g
  | some p =>
    cases hidx : p.influence.findIdx? (fun c => !c.revealed && c.role == role) with
    | none =>
      simp only [Game.revealAndRedraw, hp, hidx]
      exact InflMono_refl g
    | some idx =>
      simp only [Game.revealAndRedraw, hp, hidx]
      rcases findIdx?_spec _ _ _ hidx with ⟨c0, hg, hpred⟩
      rw [Bool.and_eq_true] at hpred
      have hc0 : c0.revealed = false := by
        have h1 := hpred.1
        cases hcr : c0.revealed
        · rfl
        · rw [hcr] at h1
          cases h1
      exact rrGo_mono g pid role p.name idx p c0 hp hg hc0

theorem applySteal_mono (g : Game) (aid tid : PId) :
    InflMono g (applySteal g aid tid) := by
  unfold applySteal
  cases ha : g.getPlayer aid with
  | none => exact InflMono_refl g
  | some actor =>
    cases ht : g.getPlayer tid with
    | none => exact InflMono_refl g
    | some target =>
      refine InflMono_trans
        (InflMono_updatePlayer g tid (fun p => { p with coins := p.coins - min 2 target.coins })
          (fun p => rfl))
        (InflMono_trans
          (InflMono_updatePlayer _ aid (fun p => { p with coins := p.coins + min 2 target.coins })
            (fun p => rfl))
          (InflMono_of_players rfl))

theorem startExchangeChoice_players (g : Game) (aid : PId) :
    (startExchangeChoice g aid).1.players = g.players := by
  cases hp : g.getPlayer aid with
  | none =>
    simp only [startExchangeChoice, hp]
    rfl
  | some actor =>
    by_cases hk : (unrevSlots actor.influence).length = 0
    · simp only [startExchangeChoice, hp]
      rw [if_pos hk]
      rw [(finishTurn_fields _).1]
    · simp only [startExchangeChoice, hp]
      rw [if_neg hk]
      show g.draw.2.draw.2.players = g.players
      rw [(draw_fields _).1, (draw_fields _).1]

theorem startExchangeChoice_mono (g : Game) (aid : PId) :
    InflMono g (startExchangeChoice g aid).1 :=
  InflMono_of_players (startExchangeChoice_players g aid)

theorem finishTurn_mono (g : Game) : InflMono g (finishTurn g).1 :=
  InflMono_of_players (finishTurn_fields g).1

theorem continueAfterLoseInfluence_mono (g : Game) (cont : Continuation) :
    InflMono g (continueAfterLoseInfluence g cont).1 := by
  cases cont with
  | endTurn => exact finishTurn_mono g
  | assassinateOpenBlock aid tid => exact InflMono_of_players rfl
  | assassinateBlockStands => exact InflMono_of_players (finishTurn_fields _).1
  | assassinateForceTargetLoss aid tid => exact InflMono_of_players rfl
  | endTurnAfterAssassination tid =>
    cases ht : g.getPlayer tid with
    | some t =>
      simp only [continueAfterLoseInfluence, ht]
      exact InflMono_of_players (finishTurn_fields _).1
    | none =>
      simp only [continueAfterLoseInfluence, ht]
      exact finishTurn_mono g
  | stealOpenBlock aid tid => exact InflMono_of_players rfl
  | stealApply aid tid =>
    exact InflMono_trans (applySteal_mono g aid tid)
      (InflMono_of_players (finishTurn_fields _).1)
  | stealBlockStands => exact InflMono_of_players (finishTurn_fields _).1
  | stealApplyAfterBlockFail aid tid =>
    exact InflMono_trans (applySteal_mono g aid tid)
      (InflMono_of_players (finishTurn_fields _).1)
  | exchangeStartChoice aid => exact startExchangeChoice_mono g aid

theorem continueAfterLoseInfluence_monoG {g g0 : Game} (cont : Continuation)
    (hm : InflMono g g0) : InflMono g (continueAfterLoseInfluence g0 cont).1 :=
  InflMono_trans hm (continueAfterLoseInfluence_mono g0 cont)

theorem InflMono_challengeFail {g g0 : Game} (tid aid : PId) (role : Role) (f : Player → Player)
    (hf : ∀ p, (f p).influence = p.influence)
    (hpl : g0.players = g.players) {lg : List String}
    {cid : PId} {reason : String} {cont : Continuation} :
    InflMono g ((beginLoseInfluence { (g0.revealAndRedraw tid role).2.updatePlayer aid f with
      log := lg } cid reason cont).touch, ([] : List PrivateMsg)).1 := by
  have h1 : InflMono g0 ((g0.revealAndRedraw tid role).2.updatePlayer aid f) :=
    InflMono_trans (revealAndRedraw_mono g0 tid role) (InflMono_updatePlayer _ aid f hf)
  intro i j c hc hr
  have hc0 : (g0.players.get? i).bind (fun p => p.influence.get? j) = some c := by
    rw [hpl]
    exact hc
  exact h1 i j c hc0 hr

theorem InflMono_challengeFailNoF {g g0 : Game} (tid : PId) (role : Role)
    (hpl : g0.players = g.players)
    {cid : PId} {reason : String} {cont : Continuation} :
    InflMono g ((beginLoseInfluence (g0.revealAndRedraw tid role).2 cid reason cont).touch,
      ([] : List PrivateMsg)).1 := by
  intro i j c hc hr
  have hc0 : (g0.players.get? i).bind (fun p => p.influence.get? j) = some c := by
    rw [hpl]
    exact hc
  exact revealAndRedraw_mono g0 tid role i j c hc0 hr

theorem InflMono_coinsFinish {g g0 : Game} (aid : PId) (f : Player → Player)
    (hf : ∀ p, (f p).influence = p.influence) (hpl : g0.players = g.players)
    {lg : List String} :
    InflMono g (finishTurn { g0.updatePlayer aid f with log := lg }).1 := by
  intro i j c hc hr
  have hc0 : (g0.players.get? i).bind (fun p => p.influence.get? j) = some c := by
    rw [hpl]
    exact hc
  have h1 := InflMono_updatePlayer g0 aid f hf i j c hc0 hr
  show (((finishTurn { g0.updatePlayer aid f with log := lg }).1.players.get? i).bind
    (fun p => p.influence.get? j)) = some c
  rw [(finishTurn_fields _).1]
  exact h1

theorem InflMono_stealFinish {g g0 : Game} (aid tid : PId) (hpl : g0.players = g.players) :
    InflMono g (finishTurn (applySteal g0 aid tid)).1 := by
  intro i j c hc hr
  have hc0 : (g0.players.get? i).bind (fun p => p.influence.get? j) = some c := by
    rw [hpl]
    exact hc
  have h1 := applySteal_mono g0 aid tid i j c hc0 hr
  show (((finishTurn (applySteal g0 aid tid)).1.players.get? i).bind
    (fun p => p.influence.get? j)) = some c
  rw [(finishTurn_fields _).1]
  exact h1

theorem InflMono_finishAny {g g0 : Game} (hpl : g0.players = g.players) :
    InflMono g (finishTurn g0).1 := by
  intro i j c hc hr
  show (((finishTurn g0).1.players.get? i).bind (fun p => p.influence.get? j)) = some c
  rw [(finishTurn_fields _).1, hpl]
  exact hc

theorem InflMono_startExchange {g g0 : Game} (aid : PId) (hpl : g0.players = g.players) :
    InflMono g (startExchangeChoice g0 aid).1 := by
  intro i j c hc hr
  show (((startExchangeChoice g0 aid).1.players.get? i).bind
    (fun p => p.influence.get? j)) = some c
  rw [startExchangeChoice_players, hpl]
  exact hc

theorem InflMono_exchangeAccept {g : Game} (g0 : Game) (pid : PId) (actor : Player) (rs : List Role)
    (hfind : findPlayer g0.players pid = some actor)
    (hpl : g0.players = g.players)
    {U : List Role} {E : List (PId × ExchangeSecret)} {lg : List String} :
    InflMono g (finishTurn { { (g0.updatePlayer pid (fun pl =>
      { pl with influence := (applyChosen pl.influence (unrevSlots actor.influence) rs) })).returnToDeck
        U with exchangeSecrets := E } with log := lg }).1 := by
  have hstep := InflMono_updatePlayer_found g0 pid (fun pl =>
      { pl with influence := (applyChosen pl.influence (unrevSlots actor.influence) rs) }) actor
    hfind
    (fun j2 c2 hj2 hc2 => applyChosen_get?_revealed actor.influence rs j2 c2 hj2 hc2)
  intro i j c hc hr
  have hc0 : (g0.players.get? i).bind (fun p => p.influence.get? j) = some c := by
    rw [hpl]
    exact hc
  have h1 := hstep i j c hc0 hr
  show (((finishTurn _).1.players.get? i).bind (fun p => p.influence.get? j)) = some c
  rw [(finishTurn_fields _).1]
  exact h1

theorem loseInfluenceResponse_mono (g : Game) (pid : PId) (cont : Continuation)
    (inp : ResponseInput) :
    InflMono g (loseInfluenceResponse g pid cont inp).1 := by
  simp only [loseInfluenceResponse]
  by_cases h1 : inp.playerId ≠ pid
  · rw [if_pos h1]
    exact InflMono_of_players rfl
  · rw [if_neg h1]
    by_cases h2 : inp.responseType ≠ "loseInfluence"
    · rw [if_pos h2]
      exact InflMono_of_players rfl
    · rw [if_neg h2]
      by_cases h3 : (g.loseInfluence inp.playerId inp.payload.cardIndex).1 = false
      · rw [if_pos h3]
        intro i j c hc hr
        exact loseInfluence_mono g inp.playerId inp.payload.cardIndex i j c hc hr
      · rw [if_neg h3]
        exact continueAfterLoseInfluence_monoG cont
          (loseInfluence_mono g inp.playerId inp.payload.cardIndex)

theorem taxResponse_mono (g : Game) (aid : PId) (resp : Responders) (inp : ResponseInput) :
    InflMono g (taxResponse g aid resp inp).1 := by
  simp only [taxResponse]
  by_cases h1 : ¬ hasResponder resp inp.playerId = true
  · rw [if_pos h1]
    exact InflMono_of_players rfl
  · rw [if_neg h1]
    cases hr2 : (if inp.responseType = "pass" then some (setStatus resp inp.playerId RStatus.passed)
        else if inp.responseType = "challenge" then some (setStatus resp inp.playerId RStatus.challenged)
        else none) with
    | none => exact InflMono_of_players rfl
    | some resp2 =>
      dsimp only
      cases hfc : firstChallenger resp2 with
      | some cid =>
        dsimp only
        by_cases hhas : ({ g with pendingAction := some (.tax aid resp2) } : Game).playerHasRole
            aid Role.Duke = true
        · rw [if_pos hhas]
          exact InflMono_challengeFail aid aid Role.Duke
            (fun p => { p with coins := p.coins + 3 }) (fun p => rfl) (by rfl)
        · rw [if_neg hhas]
          exact InflMono_of_players rfl
      | none =>
        dsimp only
        by_cases hep : everyonePassed resp2 = true
        · rw [if_pos hep]
          exact InflMono_coinsFinish aid (fun p => { p with coins := p.coins + 3 })
            (fun p => rfl) (by rfl)
        · rw [if_neg hep]
          exact InflMono_of_players rfl

theorem foreignAidResponse_mono (g : Game) (st : Stage) (aid : PId) (resp : Responders)
    (blockedBy : Option PId) (inp : ResponseInput) :
    InflMono g (foreignAidResponse g st aid resp blockedBy inp).1 := by
  cases st with
  | awaitingBlock =>
    simp only [foreignAidResponse]
    by_cases h1 : ¬ hasResponder resp inp.playerId = true
    · rw [if_pos h1]
      exact InflMono_of_players rfl
    · rw [if_neg h1]
      by_cases h2 : inp.responseType = "pass"
      · rw [if_pos h2]
        by_cases hep : everyonePassed (setStatus resp inp.playerId RStatus.passed) = true
        · rw [if_pos hep]
          exact InflMono_finishAny (by rfl)
        · rw [if_neg hep]
          exact InflMono_of_players rfl
      · rw [if_neg h2]
        by_cases h3 : inp.responseType = "block" ∧ inp.payload.role = some Role.Duke
        · rw [if_pos h3]
          exact InflMono_of_players rfl
        · rw [if_neg h3]
          exact InflMono_of_players rfl
  | awaitingChallengeBlock =>
    simp only [foreignAidResponse]
    by_cases h1 : ¬ hasResponder resp inp.playerId = true
    · rw [if_pos h1]
      exact InflMono_of_players rfl
    · rw [if_neg h1]
      cases hr2 : (if inp.responseType = "pass" then some (setStatus resp inp.playerId RStatus.passed)
          else if inp.responseType = "challenge" then some (setStatus resp inp.playerId RStatus.challenged)
          else none) with
      | none => exact InflMono_of_players rfl
      | some resp2 =>
        dsimp only
        cases hfc : firstChallenger resp2 with
        | some cid =>
          dsimp only
          cases blockedBy with
          | none => exact InflMono_of_players rfl
          | some blockerId =>
            dsimp only
            by_cases hhas : ({ g with pendingAction := some (.foreignAid .awaitingChallengeBlock
                aid resp2 (some blockerId)) } : Game).playerHasRole blockerId Role.Duke = true
            · rw [if_pos hhas]
              exact InflMono_challengeFail blockerId aid Role.Duke
                (fun p => { p with coins := p.coins - 2 }) (fun p => rfl) (by rfl)
            · rw [if_neg hhas]
              exact InflMono_of_players rfl
        | none =>
          dsimp only
          by_cases hep : everyonePassed resp2 = true
          · rw [if_pos hep]
            exact InflMono_coinsFinish aid (fun p => { p with coins := p.coins - 2 })
              (fun p => rfl) (by rfl)
          · rw [if_neg hep]
            exact InflMono_of_players rfl
  | awaitingChallenge => exact InflMono_of_players rfl
  | awaitingChoice => exact InflMono_of_players rfl

theorem assassinateResponse_mono (g : Game) (st : Stage) (aid tid : PId)
    (blockedBy : Option PId) (resp : Responders) (inp : ResponseInput) :
    InflMono g (assassinateResponse g st aid tid blockedBy resp inp).1 := by
  cases st with
  | awaitingChallenge =>
    simp only [assassinateResponse]
    by_cases h1 : ¬ hasResponder resp inp.playerId = true
    · rw [if_pos h1]
      exact InflMono_of_players rfl
    · rw [if_neg h1]
      cases hr2 : (if inp.responseType = "pass" then some (setStatus resp inp.playerId RStatus.passed)
          else if inp.responseType = "challenge" then some (setStatus resp inp.playerId RStatus.challenged)
          else none) with
      | none => exact InflMono_of_players rfl
      | some resp2 =>
        dsimp only
        cases hfc : firstChallenger resp2 with
        | some cid =>
          dsimp only
          by_cases hhas : ({ g with pendingAction := some (.assassinate .awaitingChallenge
              aid tid blockedBy resp2) } : Game).playerHasRole aid Role.Assassin = true
          · rw [if_pos hhas]
            exact InflMono_challengeFailNoF aid Role.Assassin (by rfl)
          · rw [if_neg hhas]
            exact InflMono_of_players rfl
        | none =>
          dsimp only
          by_cases hep : everyonePassed resp2 = true
          · rw [if_pos hep]
            exact InflMono_of_players rfl
          · rw [if_neg hep]
            exact InflMono_of_players rfl
  | awaitingBlock =>
    simp only [assassinateResponse]
    by_cases h1 : inp.playerId ≠ tid
    · rw [if_pos h1]
      exact InflMono_of_players rfl
    · rw [if_neg h1]
      by_cases h2 : inp.responseType = "pass"
      · rw [if_pos h2]
        exact InflMono_of_players rfl
      · rw [if_neg h2]
        by_cases h3 : inp.responseType = "block" ∧ inp.payload.role = some Role.Contessa
        · rw [if_pos h3]
          exact InflMono_of_players rfl
        · rw [if_neg h3]
          exact InflMono_of_players rfl
  | awaitingChallengeBlock =>
    simp only [assassinateResponse]
    by_cases h1 : ¬ hasResponder resp inp.playerId = true
    · rw [if_pos h1]
      exact InflMono_of_players rfl
    · rw [if_neg h1]
      cases hr2 : (if inp.responseType = "pass" then some (setStatus resp inp.playerId RStatus.passed)
          else if inp.responseType = "challenge" then some (setStatus resp inp.playerId RStatus.challenged)
          else none) with
      | none => exact InflMono_of_players rfl
      | some resp2 =>
        dsimp only
        cases hfc : firstChallenger resp2 with
        | some cid =>
          dsimp only
          cases blockedBy with
          | none => exact InflMono_of_players rfl
          | some blockerId =>
            dsimp only
            by_cases hhas : ({ g with pendingAction := some (.assassinate .awaitingChallengeBlock
                aid tid (some blockerId) resp2) } : Game).playerHasRole blockerId Role.Contessa = true
            · rw [if_pos hhas]
              exact InflMono_challengeFailNoF blockerId Role.Contessa (by rfl)
            · rw [if_neg hhas]
              exact InflMono_of_players rfl
        | none =>
          dsimp only
          by_cases hep : everyonePassed resp2 = true
          · rw [if_pos hep]
            exact InflMono_finishAny (by rfl)
          · rw [if_neg hep]
            exact InflMono_of_players rfl
  | awaitingChoice => exact InflMono_of_players rfl

theorem stealResponse_mono (g : Game) (st : Stage) (aid tid : PId)
    (blockedBy : Option PId) (blockRole : Option Role) (resp : Responders)
    (inp : ResponseInput) :
    InflMono g (stealResponse g st aid tid blockedBy blockRole resp inp).1 := by
  cases st with
  | awaitingChallenge =>
    simp only [stealResponse]
    by_cases h1 : ¬ hasResponder resp inp.playerId = true
    · rw [if_pos h1]
      exact InflMono_of_players rfl
    · rw [if_neg h1]
      cases hr2 : (if inp.responseType = "pass" then some (setStatus resp inp.playerId RStatus.passed)
          else if inp.responseType = "challenge" then some (setStatus resp inp.playerId RStatus.challenged)
          else none) with
      | none => exact InflMono_of_players rfl
      | some resp2 =>
        dsimp only
        cases hfc : firstChallenger resp2 with
        | some cid =>
          dsimp only
          by_cases hhas : ({ g with pendingAction := some (.steal .awaitingChallenge
              aid tid blockedBy blockRole resp2) } : Game).playerHasRole aid Role.Captain = true
          · rw [if_pos hhas]
            exact InflMono_challengeFailNoF aid Role.Captain (by rfl)
          · rw [if_neg hhas]
            exact InflMono_of_players rfl
        | none =>
          dsimp only
          by_cases hep : everyonePassed resp2 = true
          · rw [if_pos hep]
            exact InflMono_of_players rfl
          · rw [if_neg hep]
            exact InflMono_of_players rfl
  | awaitingBlock =>
    simp only [stealResponse]
    by_cases h1 : inp.playerId ≠ tid
    · rw [if_pos h1]
      exact InflMono_of_players rfl
    · rw [if_neg h1]
      by_cases h2 : inp.responseType = "pass"
      · rw [if_pos h2]
        exact InflMono_stealFinish aid tid (by rfl)
      · rw [if_neg h2]
        by_cases h3 : inp.responseType = "block" ∧
            (inp.payload.role = some Role.Captain ∨ inp.payload.role = some Role.Ambassador)
        · rw [if_pos h3]
          cases hrole : inp.payload.role with
          | none => exact InflMono_of_players rfl
          | some role =>
            dsimp only
            exact InflMono_of_players rfl
        · rw [if_neg h3]
          exact InflMono_of_players rfl
  | awaitingChallengeBlock =>
    simp only [stealResponse]
    by_cases h1 : ¬ hasResponder resp inp.playerId = true
    · rw [if_pos h1]
      exact InflMono_of_players rfl
    · rw [if_neg h1]
      cases hr2 : (if inp.responseType = "pass" then some (setStatus resp inp.playerId RStatus.passed)
          else if inp.responseType = "challenge" then some (setStatus resp inp.playerId RStatus.challenged)
          else none) with
      | none => exact InflMono_of_players rfl
      | some resp2 =>
        dsimp only
        cases hfc : firstChallenger resp2 with
        | some cid =>
          dsimp only
          cases blockedBy with
          | none => exact InflMono_of_players rfl
          | some blockerId =>
            dsimp only
            cases blockRole with
            | none =>
              dsimp only
              rw [if_neg (by decide)]
              exact InflMono_of_players rfl
            | some role =>
              dsimp only
              by_cases hhas : ({ g with pendingAction := some (.steal .awaitingChallengeBlock
                  aid tid (some blockerId) (some role) resp2) } : Game).playerHasRole
                  blockerId role = true
              · rw [if_pos hhas]
                dsimp only
                exact InflMono_challengeFailNoF blockerId role (by rfl)
              · rw [if_neg hhas]
                exact InflMono_of_players rfl
        | none =>
          dsimp only
          by_cases hep : everyonePassed resp2 = true
          · rw [if_pos hep]
            exact InflMono_finishAny (by rfl)
          · rw [if_neg hep]
            exact InflMono_of_players rfl
  | awaitingChoice => exact InflMono_of_players rfl

theorem exchangeChallengeResponse_mono (g : Game) (aid : PId) (resp : Responders)
    (inp : ResponseInput) :
    InflMono g (exchangeChallengeResponse g aid resp inp).1 := by
  simp only [exchangeChallengeResponse]
  by_cases h1 : ¬ hasResponder resp inp.playerId = true
  · rw [if_pos h1]
    exact InflMono_of_players rfl
  · rw [if_neg h1]
    cases hr2 : (if inp.responseType = "pass" then some (setStatus resp inp.playerId RStatus.passed)
        else if inp.responseType = "challenge" then some (setStatus resp inp.playerId RStatus.challenged)
        else none) with
    | none => exact InflMono_of_players rfl
    | some resp2 =>
      dsimp only
      cases hfc : firstChallenger resp2 with
      | some cid =>
        dsimp only
        by_cases hhas : ({ g with pendingAction := some (.exchange aid resp2) } : Game).playerHasRole
            aid Role.Ambassador = true
        · rw [if_pos hhas]
          exact InflMono_challengeFailNoF aid Role.Ambassador (by rfl)
        · rw [if_neg hhas]
          exact InflMono_of_players rfl
      | none =>
        dsimp only
        by_cases hep : everyonePassed resp2 = true
        · rw [if_pos hep]
          exact InflMono_startExchange aid (by rfl)
        · rw [if_neg hep]
          exact InflMono_of_players rfl

theorem exchangeChoiceResponse_mono (g : Game) (aid : PId) (inp : ResponseInput) :
    InflMono g (exchangeChoiceResponse g aid inp).1 := by
  simp only [exchangeChoiceResponse]
  by_cases h1 : inp.playerId ≠ aid
  · rw [if_pos h1]
    exact InflMono_of_players rfl
  · rw [if_neg h1]
    by_cases h2 : inp.responseType ≠ "exchangeChoice"
    · rw [if_pos h2]
      exact InflMono_of_players rfl
    · rw [if_neg h2]
      cases hget : getEntry g.exchangeSecrets inp.playerId with
      | none => exact InflMono_of_players rfl
      | some secret =>
        dsimp only
        by_cases h3 : (jsSetDedup (inp.payload.keep.getD [])).length ≠ secret.keepCount
        · rw [if_pos h3]
          exact InflMono_of_players rfl
        · rw [if_neg h3]
          by_cases h4 : (secret.options.filter (fun o =>
              (jsSetDedup (inp.payload.keep.getD [])).contains o.id)).length ≠ secret.keepCount
          · rw [if_pos h4]
            exact InflMono_of_players rfl
          · rw [if_neg h4]
            cases hgp : g.getPlayer inp.playerId with
            | none => exact InflMono_of_players rfl
            | some actor2 =>
              dsimp only
              by_cases h5 : (unrevSlots actor2.influence).length ≠ secret.keepCount
              · rw [if_pos h5]
                exact InflMono_of_players rfl
              · rw [if_neg h5]
                intro i j c hc hr
                have h1 := InflMono_updatePlayer_found g inp.playerId (fun pl =>
                    { pl with influence := (applyChosen pl.influence (unrevSlots actor2.influence)
                      ((secret.options.filter (fun o =>
                        (jsSetDedup (inp.payload.keep.getD [])).contains o.id)).map
                        (fun o => o.role))) })
                  actor2 hgp
                  (fun j2 c2 hj2 hc2 => applyChosen_get?_revealed actor2.influence
                    ((secret.options.filter (fun o =>
                      (jsSetDedup (inp.payload.keep.getD [])).contains o.id)).map
                      (fun o => o.role)) j2 c2 hj2 hc2)
                  i j c hc hr
                rw [(finishTurn_fields _).1]
                exact h1

theorem handleResponse_mono (g : Game) (inp : ResponseInput) :
    InflMono g (handleResponse g inp).1 := by
  cases hpend : g.pendingAction with
  | none =>
    simp only [handleResponse, hpend]
    exact InflMono_of_players rfl
  | some p =>
    cases p with
    | loseInfluence pid reason cont =>
      simp only [handleResponse, hpend]
      exact loseInfluenceResponse_mono g pid cont inp
    | tax aid resp =>
      simp only [handleResponse, hpend]
      exact taxResponse_mono g aid resp inp
    | foreignAid st aid resp blk =>
      simp only [handleResponse, hpend]
      exact foreignAidResponse_mono g st aid resp blk inp
    | assassinate st aid tid blk resp =>
      simp only [handleResponse, hpend]
      exact assassinateResponse_mono g st aid tid blk resp inp
    | steal st aid tid blk brole resp =>
      simp only [handleResponse, hpend]
      exact stealResponse_mono g st aid tid blk brole resp inp
    | exchange aid resp =>
      simp only [handleResponse, hpend]
      exact exchangeChallengeResponse_mono g aid resp inp
    | exchangeChoice aid k =>
      simp only [handleResponse, hpend]
      exact exchangeChoiceResponse_mono g aid inp

theorem resolveAction_mono (g : Game) (inp : ActionInput) :
    InflMono g (resolveAction g inp).1 := by
  simp only [resolveAction]
  cases hga : g.getPlayer inp.actorId with
  | none => exact InflMono_of_players rfl
  | some actor =>
    dsimp only
    by_cases h0 : inp.actionType ≠ "coup" ∧ actor.coins ≥ 10
    · rw [if_pos h0]
      exact InflMono_of_players rfl
    · rw [if_neg h0]
      by_cases h1 : inp.actionType = "income"
      · rw [if_pos h1]
        exact InflMono_coinsFinish inp.actorId (fun p => { p with coins := p.coins + 1 })
          (fun p => rfl) (by rfl)
      · rw [if_neg h1]
        by_cases h2 : inp.actionType = "coup"
        · rw [if_pos h2]
          cases hgt : g.getPlayerOpt inp.targetId with
          | none => exact InflMono_of_players rfl
          | some target =>
            dsimp only
            by_cases h3 : ¬ g.isAlive target.id = true
            · rw [if_pos h3]
              exact InflMono_of_players rfl
            · rw [if_neg h3]
              by_cases h4 : actor.coins < 7
              · rw [if_pos h4]
                exact InflMono_of_players rfl
              · rw [if_neg h4]
                exact InflMono_updatePlayer g inp.actorId
                  (fun p => { p with coins := p.coins - 7 }) (fun p => rfl)
        · rw [if_neg h2]
          by_cases h5 : inp.actionType = "foreign_aid"
          · rw [if_pos h5]
            exact InflMono_updatePlayer g inp.actorId
              (fun p => { p with coins := p.coins + 2 }) (fun p => rfl)
          · rw [if_neg h5]
            by_cases h6 : inp.actionType = "tax"
            · rw [if_pos h6]
              exact InflMono_of_players rfl
            · rw [if_neg h6]
              by_cases h7 : inp.actionType = "assassinate"
              · rw [if_pos h7]
                cases hgt : g.getPlayerOpt inp.targetId with
                | none => exact InflMono_of_players rfl
                | some target =>
                  dsimp only
                  by_cases h8 : ¬ g.isAlive target.id = true ∨ target.id = inp.actorId
                  · rw [if_pos h8]
                    exact InflMono_of_players rfl
                  · rw [if_neg h8]
                    by_cases h9 : actor.coins < 3
                    · rw [if_pos h9]
                      exact InflMono_of_players rfl
                    · rw [if_neg h9]
                      exact InflMono_updatePlayer g inp.actorId
                        (fun p => { p with coins := p.coins - 3 }) (fun p => rfl)
              · rw [if_neg h7]
                by_cases h10 : inp.actionType = "steal"
                · rw [if_pos h10]
                  cases hgt : g.getPlayerOpt inp.targetId with
                  | none => exact InflMono_of_players rfl
                  | some target =>
                    dsimp only
                    by_cases h11 : ¬ g.isAlive target.id = true ∨ target.id = inp.actorId
                    · rw [if_pos h11]
                      exact InflMono_of_players rfl
                    · rw [if_neg h11]
                      exact InflMono_of_players rfl
                · rw [if_neg h10]
                  by_cases h12 : inp.actionType = "exchange"
                  · rw [if_pos h12]
                    exact InflMono_of_players rfl
                  · rw [if_neg h12]
                    exact InflMono_of_players rfl

theorem cpGo_log (g : Game) (lg : List String) : forall (fuel ti : Nat),
    cpGo ({ g with log := lg } : Game) ti fuel = cpGo g ti fuel := by
  intro fuel
  induction fuel with
  | zero => intro ti; rfl
  | succ n ih =>
    intro ti
    simp only [cpGo]
    cases hq : g.players.get? (ti % g.players.length) with
    | none => rfl
    | some p =>
      dsimp only
      have hia : ({ g with log := lg } : Game).isAlive p.id = g.isAlive p.id := rfl
      rw [hia]
      by_cases ha : g.isAlive p.id = true
      · rw [if_pos ha, if_pos ha]
      · rw [if_neg ha, if_neg ha]
        exact ih _

theorem currentPlayerCalc_log (g : Game) (lg : List String) :
    ({ g with log := lg } : Game).currentPlayerCalc = g.currentPlayerCalc := by
  unfold Game.currentPlayerCalc
  have halive : ({ g with log := lg } : Game).alivePlayers = g.alivePlayers := rfl
  rw [halive]
  rw [cpGo_log g lg]

theorem findPlayer_id (ps : List Player) (pid : PId) (p : Player)
    (h : findPlayer ps pid = some p) : p.id = pid := by
  induction ps with
  | nil => exact Option.noConfusion h
  | cons q rest ih =>
    simp only [findPlayer] at h
    by_cases hq : q.id = pid
    · rw [if_pos hq] at h
      have hqp := Option.some.inj h
      subst hqp
      exact hq
    · rw [if_neg hq] at h
      exact ih h

theorem coinsOf_updatePlayer_map (g : Game) (pid : PId) (f : Int → Int) :
    (g.updatePlayer pid (fun q => { q with coins := f q.coins })).coinsOf pid
      = (g.coinsOf pid).map f := by
  unfold Game.coinsOf Game.getPlayer Game.updatePlayer
  rw [findPlayer_modPlayer_self _ pid (fun q => { q with coins := f q.coins }) (fun q => rfl)]
  cases findPlayer g.players pid <;> rfl

theorem findPlayer_coins_modPlayer (ps : List Player) (pid qid : PId) (f : Player → Player)
    (hfid : ∀ p, (f p).id = p.id) (hfc : ∀ p, (f p).coins = p.coins) :
    (findPlayer (modPlayer ps pid f) qid).map Player.coins
      = (findPlayer ps qid).map Player.coins := by
  by_cases h : qid = pid
  · subst h
    rw [findPlayer_modPlayer_self _ _ _ hfid]
    cases findPlayer ps qid with
    | none => rfl
    | some p => simp [hfc p]
  · rw [findPlayer_modPlayer_ne _ _ _ _ hfid h]

theorem coinsOf_revealAndRedraw (g : Game) (pid : PId) (role : Role) (qid : PId) :
    (g.revealAndRedraw pid role).2.coinsOf qid = g.coinsOf qid := by
  unfold Game.revealAndRedraw
  cases hp : g.getPlayer pid with
  | none => rfl
  | some p =>
    dsimp only
    cases hidx : p.influence.findIdx? (fun c => !c.revealed && c.role == role) with
    | none => rfl
    | some idx =>
      dsimp only
      show (g.revealAndRedrawGo pid role p.name idx).coinsOf qid = g.coinsOf qid
      unfold Game.coinsOf Game.getPlayer
      rw [rrGo_players]
      rw [findPlayer_coins_modPlayer _ pid qid
        (fun q => { q with influence := (q.influence.set idx { role := (g.rrMid pid role p.name idx).draw.1, revealed := false }) })
        (fun q => rfl) (fun q => rfl)]
      rw [findPlayer_coins_modPlayer _ pid qid
        (fun q => { q with influence := (modifyAt q.influence idx (fun c => { c with revealed := true })) })
        (fun q => rfl) (fun q => rfl)]

/-- **C8**: every engine operation only ever turns `revealed` from `false` to
`true`, never back: a revealed card persists, at its exact slot, across
`resolveAction`, `handleResponse`, `revealAndRedraw` and `loseInfluence`. -/
theorem C8_revealed_monotone (g : Game) :
    (∀ inp : ActionInput, InflMono g (resolveAction g inp).1)
    ∧ (∀ inp : ResponseInput, InflMono g (handleResponse g inp).1)
    ∧ (∀ (pid : PId) (role : Role), InflMono g (g.revealAndRedraw pid role).2)
    ∧ (∀ (pid : PId) (ci : Option Nat), InflMono g (g.loseInfluence pid ci).2) :=
  ⟨fun inp => resolveAction_mono g inp,
   fun inp => handleResponse_mono g inp,
   fun pid role => revealAndRedraw_mono g pid role,
   fun pid ci => loseInfluence_mono g pid ci⟩

/-- **C10**: no `"challenged"` responder mark survives a call: every reachable
state satisfies `noChalOpt`, and so does the state returned by any
`handleResponse` call or any (server-disciplined) `resolveAction` call on a
reachable state. -/
theorem C10_no_challenged_persists (g : Game) (hr : Reachable g) :
    noChalOpt g.pendingAction
    ∧ (∀ inp : ResponseInput, noChalOpt (handleResponse g inp).1.pendingAction)
    ∧ (∀ inp : ActionInput, g.pendingAction = none →
        noChalOpt (resolveAction g.touch inp).1.pendingAction) := by
  refine ⟨(reachable_inv g hr).noChal, ?_, ?_⟩
  · intro inp
    exact (handleResponse_inv g inp (reachable_inv g hr)).noChal
  · intro inp hpend
    exact (resolveAction_inv g.touch inp (Inv_touch g (reachable_inv g hr)) hpend).noChal

/-- **C4**: an actor sitting on 10 or more coins who initiates anything but a
coup is refused: the returned state is the input state with only a log line
appended (coins, pending action and — provided the turn index is already
settled on a live player — the turn are untouched). -/
theorem C4_must_coup_noop (g : Game) (inp : ActionInput) (actor : Player)
    (hga : g.getPlayer inp.actorId = some actor)
    (hcoins : actor.coins ≥ 10)
    (hne : inp.actionType ≠ "coup")
    (hstable : g.currentPlayerCalc.2 = g.turnIndex) :
    (resolveAction g inp).1
      = { g with log := g.log ++ [actor.name ++ " has 10+ coins and must Coup."] } := by
  have h := hga
  simp only [resolveAction]
  cases hga2 : g.getPlayer inp.actorId with
  | none =>
    exact Option.noConfusion (hga2.symm.trans h)
  | some actor2 =>
    have h2 := Option.some.inj (hga2.symm.trans h)
    subst h2
    dsimp only
    rw [if_pos (And.intro hne hcoins)]
    show ({ g with log := g.log ++ [actor2.name ++ " has 10+ coins and must Coup."] } : Game).touch = _
    unfold Game.touch
    rw [currentPlayerCalc_log]
    rw [hstable]

/-- **C9**: coup performs no self-target check — a living actor with at least
7 coins may coup themself, paying 7 and receiving the forced influence loss —
whereas assassinate and steal refuse `targetId = actorId` outright. -/
theorem C9_self_targeting (g : Game) (aid : PId) (actor : Player)
    (hga : g.getPlayer aid = some actor)
    (halive : g.isAlive aid = true) :
    (actor.coins ≥ 7 →
        (resolveAction g { actorId := aid, actionType := "coup", targetId := some aid }).1.pendingAction
            = some (.loseInfluence aid "coup" .endTurn)
          ∧ (resolveAction g { actorId := aid, actionType := "coup", targetId := some aid }).1.coinsOf aid
            = some (actor.coins - 7))
    ∧ (actor.coins < 10 →
        (resolveAction g { actorId := aid, actionType := "assassinate", targetId := some aid }).1
          = ({ g with log := g.log ++ ["Invalid Assassination target."] } : Game).touch)
    ∧ (actor.coins < 10 →
        (resolveAction g { actorId := aid, actionType := "steal", targetId := some aid }).1
          = ({ g with log := g.log ++ ["Invalid Steal target."] } : Game).touch) := by
  have hid : actor.id = aid := findPlayer_id g.players aid actor hga
  refine ⟨?_, ?_, ?_⟩
  · intro hcoins
    have h := hga
    simp only [resolveAction]
    cases hga2 : g.getPlayer aid with
    | none =>
      exact Option.noConfusion (hga2.symm.trans h)
    | some actor2 =>
      have h2s := (Option.some.inj (hga2.symm.trans h)).symm
      subst h2s
      dsimp only
      rw [if_neg (fun hand => hand.1 rfl)]
      rw [if_neg (by decide)]
      rw [if_pos trivial]
      cases hgt : g.getPlayerOpt (some aid) with
      | none =>
        have hgt2 : g.getPlayer aid = none := hgt
        exact Option.noConfusion (hgt2.symm.trans hga)
      | some target =>
        have hgt2 : g.getPlayer aid = some target := hgt
        have h3 := Option.some.inj (hga.symm.trans hgt2)
        subst h3
        dsimp only
        rw [hid]
        rw [if_neg (not_not_intro halive)]
        rw [if_neg (not_lt.mpr hcoins)]
        refine ⟨rfl, ?_⟩
        show (findPlayer (modPlayer g.players aid (fun p => { p with coins := p.coins - 7 })) aid).map
          Player.coins = some (actor.coins - 7)
        rw [findPlayer_modPlayer_self _ aid (fun p => { p with coins := p.coins - 7 }) (fun q => rfl)]
        unfold Game.getPlayer at hga
        rw [hga]
        rfl
  · intro hlt10
    have h := hga
    simp only [resolveAction]
    cases hga2 : g.getPlayer aid with
    | none =>
      exact Option.noConfusion (hga2.symm.trans h)
    | some actor2 =>
      have h2s := (Option.some.inj (hga2.symm.trans h)).symm
      subst h2s
      dsimp only
      rw [if_neg (fun hand => absurd hand.2 (not_le.mpr hlt10))]
      rw [if_neg (by decide)]
      rw [if_neg (by decide)]
      rw [if_neg (by decide)]
      rw [if_neg (by decide)]
      rw [if_pos trivial]
      cases hgt : g.getPlayerOpt (some aid) with
      | none =>
        have hgt2 : g.getPlayer aid = none := hgt
        exact Option.noConfusion (hgt2.symm.trans hga)
      | some target =>
        have hgt2 : g.getPlayer aid = some target := hgt
        have h3 := Option.some.inj (hga.symm.trans hgt2)
        subst h3
        dsimp only
        rw [if_pos (Or.inr hid)]
  · intro hlt10
    have h := hga
    simp only [resolveAction]
    cases hga2 : g.getPlayer aid with
    | none =>
      exact Option.noConfusion (hga2.symm.trans h)
    | some actor2 =>
      have h2s := (Option.some.inj (hga2.symm.trans h)).symm
      subst h2s
      dsimp only
      rw [if_neg (fun hand => absurd hand.2 (not_le.mpr hlt10))]
      rw [if_neg (by decide)]
      rw [if_neg (by decide)]
      rw [if_neg (by decide)]
      rw [if_neg (by decide)]
      rw [if_neg (by decide)]
      rw [if_pos trivial]
      cases hgt : g.getPlayerOpt (some aid) with
      | none =>
        have hgt2 : g.getPlayer aid = none := hgt
        exact Option.noConfusion (hgt2.symm.trans hga)
      | some target =>
        have hgt2 : g.getPlayer aid = some target := hgt
        have h3 := Option.some.inj (hga.symm.trans hgt2)
        subst h3
        dsimp only
        rw [if_pos (Or.inr hid)]

/-- **C7**: a resolved steal — whether the target passed the block window or
the target's block was successfully challenged — moves exactly
`min 2 target.coins` coins from target to actor, and cannot push a
non-negative target balance below zero. -/
theorem C7_steal_amount (g : Game) (aid tid : PId) (actor target : Player)
    (ha : g.getPlayer aid = some actor) (ht : g.getPlayer tid = some target)
    (hne : aid ≠ tid) :
    (applySteal g aid tid).coinsOf aid = some (actor.coins + min 2 target.coins)
    ∧ (applySteal g aid tid).coinsOf tid = some (target.coins - min 2 target.coins)
    ∧ (0 ≤ target.coins → ∀ v : Int, (applySteal g aid tid).coinsOf tid = some v → 0 ≤ v)
    ∧ (∀ (bb : Option PId) (brole : Option Role) (resp : Responders) (inp : ResponseInput),
        inp.playerId = tid → inp.responseType = "pass" →
        (stealResponse g .awaitingBlock aid tid bb brole resp inp).1.coinsOf aid
            = some (actor.coins + min 2 target.coins)
          ∧ (stealResponse g .awaitingBlock aid tid bb brole resp inp).1.coinsOf tid
            = some (target.coins - min 2 target.coins))
    ∧ ((continueAfterLoseInfluence g (.stealApplyAfterBlockFail aid tid)).1.coinsOf aid
          = some (actor.coins + min 2 target.coins)
        ∧ (continueAfterLoseInfluence g (.stealApplyAfterBlockFail aid tid)).1.coinsOf tid
          = some (target.coins - min 2 target.coins)) := by
  have hmain := applySteal_coins g aid tid actor target ha ht hne
  refine ⟨hmain.2, hmain.1, ?_, ?_, ?_⟩
  · intro h0 v hv
    rw [hmain.1] at hv
    have hv2 := Option.some.inj hv
    subst hv2
    omega
  · intro bb brole resp inp hpid hps
    simp only [stealResponse]
    rw [if_neg (not_not_intro hpid)]
    rw [hps]
    rw [if_pos rfl]
    have hmain2 := applySteal_coins { g with pendingAction := none } aid tid actor target ha ht hne
    constructor
    · rw [coinsOf_finishTurn]
      exact hmain2.2
    · rw [coinsOf_finishTurn]
      exact hmain2.1
  · constructor
    · show (finishTurn (applySteal g aid tid)).1.coinsOf aid = _
      rw [coinsOf_finishTurn]
      exact hmain.2
    · show (finishTurn (applySteal g aid tid)).1.coinsOf tid = _
      rw [coinsOf_finishTurn]
      exact hmain.1

/-- **C1**: confidentiality of `getStateFor` — the projection for `viewer`
shows `"?"` in place of any unrevealed card of another player, and shows a
card's true role string only to its owner or once the card is revealed. -/
theorem C1_confidentiality (g : Game) (hr : Reachable g) (viewer : Option PId)
    (i j : Nat) (p : Player) (c : Card)
    (hp : g.players.get? i = some p)
    (hc : p.influence.get? j = some c) :
    ∃ vp : ViewPlayer, (g.getStateFor viewer).1.players.get? i = some vp
      ∧ vp.id = p.id
      ∧ ∃ vc : ViewCard, vp.influence.get? j = some vc
        ∧ (c.revealed = false → some p.id ≠ viewer → vc.role = "?")
        ∧ (vc.role = c.role.str → some p.id = viewer ∨ c.revealed = true) := by
  have h1 : (g.getStateFor viewer).1.players.get? i
      = (g.players.get? i).map (fun q =>
          ({ id := q.id, name := q.name, coins := q.coins, alive := g.isAlive q.id,
             influence := q.influence.map (viewCardFor viewer q.id) } : ViewPlayer)) := by
    show (g.players.map _).get? i = _
    exact List.get?_map _ _ _
  refine ⟨{ id := p.id, name := p.name, coins := p.coins, alive := g.isAlive p.id,
            influence := p.influence.map (viewCardFor viewer p.id) }, ?_, rfl, ?_⟩
  · rw [h1, hp]
    rfl
  · refine ⟨viewCardFor viewer p.id c, ?_, ?_, ?_⟩
    · show (p.influence.map (viewCardFor viewer p.id)).get? j = _
      rw [List.get?_map, hc]
      rfl
    · intro hrev hne
      unfold viewCardFor
      rw [hrev]
      rw [if_neg (by decide)]
      rw [if_neg hne]
    · intro hrole
      by_cases hrev : c.revealed = true
      · exact Or.inr hrev
      · have hrf : c.revealed = false := by
          cases hb : c.revealed
          · rfl
          · exact absurd hb hrev
        by_cases hown : some p.id = viewer
        · exact Or.inl hown
        · exfalso
          unfold viewCardFor at hrole
          rw [hrf] at hrole
          rw [if_neg (by decide)] at hrole
          rw [if_neg hown] at hrole
          have hq : ("?" : String) = c.role.str := hrole
          cases hcr : c.role <;> rw [hcr] at hq <;> exact absurd hq (by decide)

/-- **C2**, counterexample to the claim as stated: deck + hands alone is not
conserved at every reachable state — while an exchange's `awaitingChoice`
stage is pending, the two drawn cards live only in the private secret store,
so `cardBag` holds 13 of the 15 cards.  (Reached by: fresh 2-player game, the
current player initiates exchange, the other player passes.) -/
theorem C2_counterexample : ∃ g : Game, Reachable g ∧ g.cardBag ≠ fullBag := by
  refine ⟨(handleResponse (resolveAction (newGame [("A", "Alice"), ("B", "Bob")] (fun _ => 0)).touch
      { actorId := "A", actionType := "exchange", targetId := none }).1
      { playerId := "B", responseType := "pass",
        payload := { role := none, cardIndex := none, keep := none } }).1, ?_, ?_⟩
  · refine Reachable.resp _ _ ?_ ?_
    · exact Reachable.act (newGame [("A", "Alice"), ("B", "Bob")] (fun _ => 0))
        { actorId := "A", actionType := "exchange", targetId := none }
        { id := "A", name := "Alice", coins := 2, influence := [{ role := Role.Duke, revealed := false }, { role := Role.Contessa, revealed := false }] }
        (Reachable.init _ _) (by decide) (by decide) (by decide) (by decide)
    · decide
  · intro h
    exact absurd (congrArg Multiset.card h) (by decide)

/-- **C2** (amended): conservation holds once the in-flight exchange draws
are counted — for every reachable state with at most 6 players, deck + hands
+ secret-store draws is exactly the full 15-card bag; whenever no
`exchangeChoice` stage is pending the secret store is empty, so deck + hands
alone is the full bag. -/
theorem C2_conservation_amended (g : Game) (hr : Reachable g)
    (hn : g.players.length ≤ 6) :
    g.fullCardBag = fullBag
    ∧ ((∀ (aid : PId) (k : Nat), g.pendingAction ≠ some (.exchangeChoice aid k)) →
        g.cardBag = fullBag) := by
  have hInv := reachable_inv g hr
  have hbag := hInv.bag hn
  constructor
  · exact hbag
  · intro hne
    have hsec : g.exchangeSecrets = [] := by
      have h := hInv.secOK
      cases hpd : g.pendingAction with
      | none =>
        rw [hpd] at h
        exact h
      | some p =>
        rw [hpd] at h
        cases p with
        | loseInfluence pid reason cont => exact h
        | tax aid resp => exact h
        | foreignAid st aid resp bb => exact h
        | assassinate st aid tid bb resp => exact h
        | steal st aid tid bb br resp => exact h
        | exchange aid resp => exact h
        | exchangeChoice aid k => exact absurd hpd (hne aid k)
    have hbag2 : g.cardBag + secretBagL g.exchangeSecrets = fullBag := hbag
    rw [hsec] at hbag2
    simpa [secretBagL] using hbag2

/-- Witness for C1 at a concrete fresh game: viewer `"B"`, player 0 (`"A"`,
holding an unrevealed Duke at slot 0). -/
theorem C1_confidentiality_witness :
    ((newGame [("A", "Alice"), ("B", "Bob")] (fun _ => 0)).players.get? 0 = some { id := "A", name := "Alice", coins := 2, influence := [{ role := Role.Duke, revealed := false }, { role := Role.Contessa, revealed := false }] })
    ∧ (({ id := "A", name := "Alice", coins := 2, influence := [{ role := Role.Duke, revealed := false }, { role := Role.Contessa, revealed := false }] } : Player).influence.get? 0 = some { role := Role.Duke, revealed := false })
    ∧ (∃ vp : ViewPlayer,
        ((newGame [("A", "Alice"), ("B", "Bob")] (fun _ => 0)).getStateFor (some "B")).1.players.get? 0 = some vp
          ∧ vp.id = ({ id := "A", name := "Alice", coins := 2, influence := [{ role := Role.Duke, revealed := false }, { role := Role.Contessa, revealed := false }] } : Player).id
          ∧ ∃ vc : ViewCard, vp.influence.get? 0 = some vc
            ∧ (({ role := Role.Duke, revealed := false } : Card).revealed = false →
                some ({ id := "A", name := "Alice", coins := 2, influence := [{ role := Role.Duke, revealed := false }, { role := Role.Contessa, revealed := false }] } : Player).id ≠ some "B" → vc.role = "?")
            ∧ (vc.role = ({ role := Role.Duke, revealed := false } : Card).role.str →
                some ({ id := "A", name := "Alice", coins := 2, influence := [{ role := Role.Duke, revealed := false }, { role := Role.Contessa, revealed := false }] } : Player).id = some "B"
                  ∨ ({ role := Role.Duke, revealed := false } : Card).revealed = true)) :=
  ⟨by decide, by decide,
    C1_confidentiality (newGame [("A", "Alice"), ("B", "Bob")] (fun _ => 0)) (Reachable.init _ _) (some "B") 0 0
      { id := "A", name := "Alice", coins := 2, influence := [{ role := Role.Duke, revealed := false }, { role := Role.Contessa, revealed := false }] }
      { role := Role.Duke, revealed := false }
      (by decide) (by decide)⟩

/-- Witness for the amended C2 at a concrete fresh 2-player game. -/
theorem C2_conservation_amended_witness :
    (newGame [("C", "Cara"), ("D", "Dan")] (fun _ => 0)).players.length ≤ 6
    ∧ ((newGame [("C", "Cara"), ("D", "Dan")] (fun _ => 0)).fullCardBag = fullBag
      ∧ ((∀ (aid : PId) (k : Nat),
            (newGame [("C", "Cara"), ("D", "Dan")] (fun _ => 0)).pendingAction ≠ some (.exchangeChoice aid k)) →
          (newGame [("C", "Cara"), ("D", "Dan")] (fun _ => 0)).cardBag = fullBag)) :=
  ⟨by decide,
    C2_conservation_amended (newGame [("C", "Cara"), ("D", "Dan")] (fun _ => 0)) (Reachable.init _ _) (by decide)⟩

/-- Witness for C10 at a concrete fresh 2-player game. -/
theorem C10_no_challenged_persists_witness :
    noChalOpt (newGame [("E", "Eve"), ("F", "Fay")] (fun _ => 0)).pendingAction
    ∧ (∀ inp : ResponseInput,
        noChalOpt (handleResponse (newGame [("E", "Eve"), ("F", "Fay")] (fun _ => 0)) inp).1.pendingAction)
    ∧ (∀ inp : ActionInput, (newGame [("E", "Eve"), ("F", "Fay")] (fun _ => 0)).pendingAction = none →
        noChalOpt (resolveAction (newGame [("E", "Eve"), ("F", "Fay")] (fun _ => 0)).touch inp).1.pendingAction) :=
  C10_no_challenged_persists (newGame [("E", "Eve"), ("F", "Fay")] (fun _ => 0)) (Reachable.init _ _)

/-- Witness for C4: a 10-coin actor initiating income is refused with only a
log line appended. -/
theorem C4_must_coup_noop_witness :
    (({ players := [{ id := "A", name := "Alice", coins := 10, influence := [{ role := Role.Duke, revealed := false }, { role := Role.Duke, revealed := false }] }], deck := [], log := [], turnIndex := 0, pendingAction := none, gameOver := false, winnerId := none, exchangeSecrets := [], rng := fun _ => 0, rngIdx := 0 } : Game).getPlayer "A" = some { id := "A", name := "Alice", coins := 10, influence := [{ role := Role.Duke, revealed := false }, { role := Role.Duke, revealed := false }] })
    ∧ (({ id := "A", name := "Alice", coins := 10, influence := [{ role := Role.Duke, revealed := false }, { role := Role.Duke, revealed := false }] } : Player).coins ≥ 10)
    ∧ (("income" : String) ≠ "coup")
    ∧ (({ players := [{ id := "A", name := "Alice", coins := 10, influence := [{ role := Role.Duke, revealed := false }, { role := Role.Duke, revealed := false }] }], deck := [], log := [], turnIndex := 0, pendingAction := none, gameOver := false, winnerId := none, exchangeSecrets := [], rng := fun _ => 0, rngIdx := 0 } : Game).currentPlayerCalc.2 = ({ players := [{ id := "A", name := "Alice", coins := 10, influence := [{ role := Role.Duke, revealed := false }, { role := Role.Duke, revealed := false }] }], deck := [], log := [], turnIndex := 0, pendingAction := none, gameOver := false, winnerId := none, exchangeSecrets := [], rng := fun _ => 0, rngIdx := 0 } : Game).turnIndex)
    ∧ ((resolveAction ({ players := [{ id := "A", name := "Alice", coins := 10, influence := [{ role := Role.Duke, revealed := false }, { role := Role.Duke, revealed := false }] }], deck := [], log := [], turnIndex := 0, pendingAction := none, gameOver := false, winnerId := none, exchangeSecrets := [], rng := fun _ => 0, rngIdx := 0 } : Game)
        { actorId := "A", actionType := "income", targetId := none }).1
      = { ({ players := [{ id := "A", name := "Alice", coins := 10, influence := [{ role := Role.Duke, revealed := false }, { role := Role.Duke, revealed := false }] }], deck := [], log := [], turnIndex := 0, pendingAction := none, gameOver := false, winnerId := none, exchangeSecrets := [], rng := fun _ => 0, rngIdx := 0 } : Game) with
            log := ({ players := [{ id := "A", name := "Alice", coins := 10, influence := [{ role := Role.Duke, revealed := false }, { role := Role.Duke, revealed := false }] }], deck := [], log := [], turnIndex := 0, pendingAction := none, gameOver := false, winnerId := none, exchangeSecrets := [], rng := fun _ => 0, rngIdx := 0 } : Game).log
              ++ [({ id := "A", name := "Alice", coins := 10, influence := [{ role := Role.Duke, revealed := false }, { role := Role.Duke, revealed := false }] } : Player).name ++ " has 10+ coins and must Coup."] }) :=
  ⟨by decide, by decide, by decide, by decide,
    C4_must_coup_noop
      ({ players := [{ id := "A", name := "Alice", coins := 10, influence := [{ role := Role.Duke, revealed := false }, { role := Role.Duke, revealed := false }] }], deck := [], log := [], turnIndex := 0, pendingAction := none, gameOver := false, winnerId := none, exchangeSecrets := [], rng := fun _ => 0, rngIdx := 0 } : Game)
      { actorId := "A", actionType := "income", targetId := none }
      { id := "A", name := "Alice", coins := 10, influence := [{ role := Role.Duke, revealed := false }, { role := Role.Duke, revealed := false }] }
      (by decide) (by decide) (by decide) (by decide)⟩

/-- Witness for C9: an 8-coin living actor self-coups; self-assassinate and
self-steal are refused. -/
theorem C9_self_targeting_witness :
    (({ players := [{ id := "A", name := "Alice", coins := 8, influence := [{ role := Role.Duke, revealed := false }, { role := Role.Duke, revealed := false }] }], deck := [], log := [], turnIndex := 0, pendingAction := none, gameOver := false, winnerId := none, exchangeSecrets := [], rng := fun _ => 0, rngIdx := 0 } : Game).getPlayer "A" = some { id := "A", name := "Alice", coins := 8, influence := [{ role := Role.Duke, revealed := false }, { role := Role.Duke, revealed := false }] })
    ∧ (({ players := [{ id := "A", name := "Alice", coins := 8, influence := [{ role := Role.Duke, revealed := false }, { role := Role.Duke, revealed := false }] }], deck := [], log := [], turnIndex := 0, pendingAction := none, gameOver := false, winnerId := none, exchangeSecrets := [], rng := fun _ => 0, rngIdx := 0 } : Game).isAlive "A" = true)
    ∧ ((({ id := "A", name := "Alice", coins := 8, influence := [{ role := Role.Duke, revealed := false }, { role := Role.Duke, revealed := false }] } : Player).coins ≥ 7 →
        (resolveAction ({ players := [{ id := "A", name := "Alice", coins := 8, influence := [{ role := Role.Duke, revealed := false }, { role := Role.Duke, revealed := false }] }], deck := [], log := [], turnIndex := 0, pendingAction := none, gameOver := false, winnerId := none, exchangeSecrets := [], rng := fun _ => 0, rngIdx := 0 } : Game)
            { actorId := "A", actionType := "coup", targetId := some "A" }).1.pendingAction
            = some (.loseInfluence "A" "coup" .endTurn)
          ∧ (resolveAction ({ players := [{ id := "A", name := "Alice", coins := 8, influence := [{ role := Role.Duke, revealed := false }, { role := Role.Duke, revealed := false }] }], deck := [], log := [], turnIndex := 0, pendingAction := none, gameOver := false, winnerId := none, exchangeSecrets := [], rng := fun _ => 0, rngIdx := 0 } : Game)
              { actorId := "A", actionType := "coup", targetId := some "A" }).1.coinsOf "A"
            = some (({ id := "A", name := "Alice", coins := 8, influence := [{ role := Role.Duke, revealed := false }, { role := Role.Duke, revealed := false }] } : Player).coins - 7))
      ∧ (({ id := "A", name := "Alice", coins := 8, influence := [{ role := Role.Duke, revealed := false }, { role := Role.Duke, revealed := false }] } : Player).coins < 10 →
          (resolveAction ({ players := [{ id := "A", name := "Alice", coins := 8, influence := [{ role := Role.Duke, revealed := false }, { role := Role.Duke, revealed := false }] }], deck := [], log := [], turnIndex := 0, pendingAction := none, gameOver := false, winnerId := none, exchangeSecrets := [], rng := fun _ => 0, rngIdx := 0 } : Game)
              { actorId := "A", actionType := "assassinate", targetId := some "A" }).1
            = ({ ({ players := [{ id := "A", name := "Alice", coins := 8, influence := [{ role := Role.Duke, revealed := false }, { role := Role.Duke, revealed := false }] }], deck := [], log := [], turnIndex := 0, pendingAction := none, gameOver := false, winnerId := none, exchangeSecrets := [], rng := fun _ => 0, rngIdx := 0 } : Game) with
                  log := ({ players := [{ id := "A", name := "Alice", coins := 8, influence := [{ role := Role.Duke, revealed := false }, { role := Role.Duke, revealed := false }] }], deck := [], log := [], turnIndex := 0, pendingAction := none, gameOver := false, winnerId := none, exchangeSecrets := [], rng := fun _ => 0, rngIdx := 0 } : Game).log ++ ["Invalid Assassination target."] } : Game).touch)
      ∧ (({ id := "A", name := "Alice", coins := 8, influence := [{ role := Role.Duke, revealed := false }, { role := Role.Duke, revealed := false }] } : Player).coins < 10 →
          (resolveAction ({ players := [{ id := "A", name := "Alice", coins := 8, influence := [{ role := Role.Duke, revealed := false }, { role := Role.Duke, revealed := false }] }], deck := [], log := [], turnIndex := 0, pendingAction := none, gameOver := false, winnerId := none, exchangeSecrets := [], rng := fun _ => 0, rngIdx := 0 } : Game)
              { actorId := "A", actionType := "steal", targetId := some "A" }).1
            = ({ ({ players := [{ id := "A", name := "Alice", coins := 8, influence := [{ role := Role.Duke, revealed := false }, { role := Role.Duke, revealed := false }] }], deck := [], log := [], turnIndex := 0, pendingAction := none, gameOver := false, winnerId := none, exchangeSecrets := [], rng := fun _ => 0, rngIdx := 0 } : Game) with
                  log := ({ players := [{ id := "A", name := "Alice", coins := 8, influence := [{ role := Role.Duke, revealed := false }, { role := Role.Duke, revealed := false }] }], deck := [], log := [], turnIndex := 0, pendingAction := none, gameOver := false, winnerId := none, exchangeSecrets := [], rng := fun _ => 0, rngIdx := 0 } : Game).log ++ ["Invalid Steal target."] } : Game).touch)) :=
  ⟨by decide, by decide,
    C9_self_targeting
      ({ players := [{ id := "A", name := "Alice", coins := 8, influence := [{ role := Role.Duke, revealed := false }, { role := Role.Duke, revealed := false }] }], deck := [], log := [], turnIndex := 0, pendingAction := none, gameOver := false, winnerId := none, exchangeSecrets := [], rng := fun _ => 0, rngIdx := 0 } : Game)
      "A"
      { id := "A", name := "Alice", coins := 8, influence := [{ role := Role.Duke, revealed := false }, { role := Role.Duke, revealed := false }] }
      (by decide) (by decide)⟩

/-- Witness for C7 at a concrete game: actor `"A"` (2 coins) steals from
target `"B"` (5 coins). -/
theorem C7_steal_amount_witness :
    (({ players := [{ id := "A", name := "Alice", coins := 2, influence := [{ role := Role.Captain, revealed := false }, { role := Role.Duke, revealed := false }] },
       { id := "B", name := "Bob", coins := 5, influence := [{ role := Role.Contessa, revealed := false }, { role := Role.Duke, revealed := false }] }], deck := [], log := [], turnIndex := 0, pendingAction := none, gameOver := false, winnerId := none, exchangeSecrets := [], rng := fun _ => 0, rngIdx := 0 } : Game).getPlayer "A" = some { id := "A", name := "Alice", coins := 2, influence := [{ role := Role.Captain, revealed := false }, { role := Role.Duke, revealed := false }] })
    ∧ (({ players := [{ id := "A", name := "Alice", coins := 2, influence := [{ role := Role.Captain, revealed := false }, { role := Role.Duke, revealed := false }] },
       { id := "B", name := "Bob", coins := 5, influence := [{ role := Role.Contessa, revealed := false }, { role := Role.Duke, revealed := false }] }], deck := [], log := [], turnIndex := 0, pendingAction := none, gameOver := false, winnerId := none, exchangeSecrets := [], rng := fun _ => 0, rngIdx := 0 } : Game).getPlayer "B" = some { id := "B", name := "Bob", coins := 5, influence := [{ role := Role.Contessa, revealed := false }, { role := Role.Duke, revealed := false }] })
    ∧ (("A" : PId) ≠ "B")
    ∧ ((applySteal ({ players := [{ id := "A", name := "Alice", coins := 2, influence := [{ role := Role.Captain, revealed := false }, { role := Role.Duke, revealed := false }] },
       { id := "B", name := "Bob", coins := 5, influence := [{ role := Role.Contessa, revealed := false }, { role := Role.Duke, revealed := false }] }], deck := [], log := [], turnIndex := 0, pendingAction := none, gameOver := false, winnerId := none, exchangeSecrets := [], rng := fun _ => 0, rngIdx := 0 } : Game) "A" "B").coinsOf "A"
        = some (({ id := "A", name := "Alice", coins := 2, influence := [{ role := Role.Captain, revealed := false }, { role := Role.Duke, revealed := false }] } : Player).coins
          + min 2 ({ id := "B", name := "Bob", coins := 5, influence := [{ role := Role.Contessa, revealed := false }, { role := Role.Duke, revealed := false }] } : Player).coins)) :=
  ⟨by decide, by decide, by decide,
    (C7_steal_amount
      ({ players := [{ id := "A", name := "Alice", coins := 2, influence := [{ role := Role.Captain, revealed := false }, { role := Role.Duke, revealed := false }] },
       { id := "B", name := "Bob", coins := 5, influence := [{ role := Role.Contessa, revealed := false }, { role := Role.Duke, revealed := false }] }], deck := [], log := [], turnIndex := 0, pendingAction := none, gameOver := false, winnerId := none, exchangeSecrets := [], rng := fun _ => 0, rngIdx := 0 } : Game)
      "A" "B"
      { id := "A", name := "Alice", coins := 2, influence := [{ role := Role.Captain, revealed := false }, { role := Role.Duke, revealed := false }] }
      { id := "B", name := "Bob", coins := 5, influence := [{ role := Role.Contessa, revealed := false }, { role := Role.Duke, revealed := false }] }
      (by decide) (by decide) (by decide)).1⟩

theorem coinsOf_challengeFail {g : Game} (tid aid : PId) (role : Role) {lg : List String}
    (cid : PId) (reason : String) (cont : Continuation) :
    ((beginLoseInfluence { (g.revealAndRedraw tid role).2.updatePlayer aid (fun p => { p with coins := p.coins - 2 }) with log := lg } cid reason cont).touch).coinsOf aid
      = (g.coinsOf aid).map (fun x : Int => x - 2) :=
  (coinsOf_updatePlayer_map (g.revealAndRedraw tid role).2 aid (fun x : Int => x - 2)).trans
    (by rw [coinsOf_revealAndRedraw])

theorem coinsOf_minusFinish {g : Game} (aid : PId) {lg : List String} :
    (finishTurn { g.updatePlayer aid (fun p => { p with coins := p.coins - 2 }) with log := lg }).1.coinsOf aid
      = (g.coinsOf aid).map (fun x : Int => x - 2) := by
  rw [coinsOf_finishTurn]
  show (g.updatePlayer aid (fun p => { p with coins := p.coins - 2 })).coinsOf aid = _
  exact coinsOf_updatePlayer_map g aid (fun x : Int => x - 2)

/-- **C5**: the foreign-aid coin flow — +2 at initiation (with a block window
opened); the tentative +2 is reverted when a Duke block stands, whether the
block survives a challenge or every responder passes the challenge-block
stage; and the actor keeps the +2 when the blocker fails to prove Duke. -/
theorem C5_foreign_aid_coins (g : Game) (aid : PId) (actor : Player)
    (hga : g.getPlayer aid = some actor) :
    (actor.coins < 10 →
        (resolveAction g { actorId := aid, actionType := "foreign_aid", targetId := none }).1.coinsOf aid
            = some (actor.coins + 2)
          ∧ ∃ resp : Responders,
            (resolveAction g { actorId := aid, actionType := "foreign_aid", targetId := none }).1.pendingAction
              = some (.foreignAid .awaitingBlock aid resp none))
    ∧ (∀ (resp : Responders) (blockerId : PId) (inp : ResponseInput),
        hasResponder resp inp.playerId = true →
        inp.responseType = "challenge" →
        (∀ e ∈ resp, e.2 ≠ RStatus.challenged) →
        g.playerHasRole blockerId Role.Duke = true →
        (foreignAidResponse g .awaitingChallengeBlock aid resp (some blockerId) inp).1.coinsOf aid
          = some (actor.coins - 2))
    ∧ (∀ (resp : Responders) (bb : Option PId) (inp : ResponseInput),
        hasResponder resp inp.playerId = true →
        inp.responseType = "pass" →
        (∀ e ∈ resp, e.2 ≠ RStatus.challenged) →
        everyonePassed (setStatus resp inp.playerId RStatus.passed) = true →
        (foreignAidResponse g .awaitingChallengeBlock aid resp bb inp).1.coinsOf aid
          = some (actor.coins - 2))
    ∧ (∀ (resp : Responders) (blockerId : PId) (inp : ResponseInput),
        hasResponder resp inp.playerId = true →
        inp.responseType = "challenge" →
        (∀ e ∈ resp, e.2 ≠ RStatus.challenged) →
        g.playerHasRole blockerId Role.Duke = false →
        (foreignAidResponse g .awaitingChallengeBlock aid resp (some blockerId) inp).1.coinsOf aid
          = some actor.coins) := by
  have hga2 : findPlayer g.players aid = some actor := hga
  refine ⟨?_, ?_, ?_, ?_⟩
  · intro hlt10
    have h := hga
    simp only [resolveAction]
    cases hga3 : g.getPlayer aid with
    | none => exact Option.noConfusion (hga3.symm.trans h)
    | some actor2 =>
      have h2s := (Option.some.inj (hga3.symm.trans h)).symm
      subst h2s
      dsimp only
      rw [if_neg (fun hand => absurd hand.2 (not_le.mpr hlt10))]
      rw [if_neg (by decide)]
      rw [if_neg (by decide)]
      rw [if_pos trivial]
      refine ⟨?_, ?_⟩
      · show (findPlayer (modPlayer g.players aid (fun p => { p with coins := p.coins + 2 })) aid).map Player.coins = some (actor.coins + 2)
        rw [findPlayer_modPlayer_self _ aid (fun p => { p with coins := p.coins + 2 }) (fun q => rfl)]
        rw [hga2]
        rfl
      · exact ⟨_, rfl⟩
  · intro resp blockerId inp hk hch hnc hhas
    simp only [foreignAidResponse]
    rw [if_neg (not_not_intro hk)]
    have hr2 : (if inp.responseType = "pass" then some (setStatus resp inp.playerId RStatus.passed)
        else if inp.responseType = "challenge" then some (setStatus resp inp.playerId RStatus.challenged)
        else none) = some (setStatus resp inp.playerId RStatus.challenged) := by
      rw [hch]
      rw [if_neg (by decide)]
      rw [if_pos rfl]
    rw [hr2]
    dsimp only
    rw [firstChallenger_setStatus_challenged resp inp.playerId hk hnc]
    dsimp only
    have hhas2 : ({ g with pendingAction := some (.foreignAid .awaitingChallengeBlock aid (setStatus resp inp.playerId RStatus.challenged) (some blockerId)) } : Game).playerHasRole blockerId Role.Duke = true := hhas
    rw [if_pos hhas2]
    refine Eq.trans (coinsOf_challengeFail blockerId aid Role.Duke inp.playerId
      "failed_challenge" .endTurn) ?_
    show (Option.map Player.coins (findPlayer g.players aid)).map (fun x : Int => x - 2)
      = some (actor.coins - 2)
    rw [hga2]
    rfl
  · intro resp bb inp hk hps hnc hep
    simp only [foreignAidResponse]
    rw [if_neg (not_not_intro hk)]
    have hr2 : (if inp.responseType = "pass" then some (setStatus resp inp.playerId RStatus.passed)
        else if inp.responseType = "challenge" then some (setStatus resp inp.playerId RStatus.challenged)
        else none) = some (setStatus resp inp.playerId RStatus.passed) := by
      rw [hps]
      rw [if_pos rfl]
    rw [hr2]
    dsimp only
    rw [(firstChallenger_eq_none_iff (setStatus resp inp.playerId RStatus.passed)).mpr
      (setStatus_noChal resp inp.playerId hnc)]
    dsimp only
    rw [if_pos hep]
    refine Eq.trans (coinsOf_minusFinish aid) ?_
    show (Option.map Player.coins (findPlayer g.players aid)).map (fun x : Int => x - 2)
      = some (actor.coins - 2)
    rw [hga2]
    rfl
  · intro resp blockerId inp hk hch hnc hhasn
    simp only [foreignAidResponse]
    rw [if_neg (not_not_intro hk)]
    have hr2 : (if inp.responseType = "pass" then some (setStatus resp inp.playerId RStatus.passed)
        else if inp.responseType = "challenge" then some (setStatus resp inp.playerId RStatus.challenged)
        else none) = some (setStatus resp inp.playerId RStatus.challenged) := by
      rw [hch]
      rw [if_neg (by decide)]
      rw [if_pos rfl]
    rw [hr2]
    dsimp only
    rw [firstChallenger_setStatus_challenged resp inp.playerId hk hnc]
    dsimp only
    have hhasn2 : ¬ (({ g with pendingAction := some (.foreignAid .awaitingChallengeBlock aid (setStatus resp inp.playerId RStatus.challenged) (some blockerId)) } : Game).playerHasRole blockerId Role.Duke = true) :=
      fun hc => Bool.noConfusion (hhasn.symm.trans
        (show g.playerHasRole blockerId Role.Duke = true from hc))
    rw [if_neg hhasn2]
    show Option.map Player.coins (findPlayer g.players aid) = some actor.coins
    rw [hga2]
    rfl

theorem challengeFail_leaf_hand (g2 : Game) (aid cid : PId) (role : Role) (reason : String)
    (cont : Continuation) (p : Player) (idx : Nat)
    (hp : g2.getPlayer aid = some p)
    (hidx : p.influence.findIdx? (fun c => !c.revealed && c.role == role) = some idx) :
    ∃ (r : Role) (p2 : Player),
      ((beginLoseInfluence (g2.revealAndRedraw aid role).2 cid reason cont).touch).getPlayer aid
          = some p2
        ∧ p2.influence = p.influence.set idx { role := r, revealed := false } := by
  rcases revealAndRedraw_succ g2 aid role p idx hp hidx with ⟨-, h2⟩
  exact ⟨(g2.rrMid aid role p.name idx).draw.1,
    { p with influence := (p.influence.set idx { role := (g2.rrMid aid role p.name idx).draw.1, revealed := false }) },
    h2, rfl⟩

theorem challengeFailCoins_leaf_hand (g2 : Game) (aid cid : PId) (role : Role)
    {lg : List String} (reason : String) (cont : Continuation) (p : Player) (idx : Nat)
    (hp : g2.getPlayer aid = some p)
    (hidx : p.influence.findIdx? (fun c => !c.revealed && c.role == role) = some idx) :
    ∃ (r : Role) (p2 : Player),
      ((beginLoseInfluence { (g2.revealAndRedraw aid role).2.updatePlayer aid (fun q => { q with coins := q.coins + 3 }) with log := lg } cid reason cont).touch).getPlayer aid
          = some p2
        ∧ p2.influence = p.influence.set idx { role := r, revealed := false } := by
  rcases revealAndRedraw_succ g2 aid role p idx hp hidx with ⟨-, h2⟩
  refine ⟨(g2.rrMid aid role p.name idx).draw.1,
    { { p with influence := (p.influence.set idx { role := (g2.rrMid aid role p.name idx).draw.1, revealed := false }) } with coins := p.coins + 3 }, ?_, rfl⟩
  show findPlayer (modPlayer (g2.revealAndRedraw aid role).2.players aid
    (fun q => { q with coins := q.coins + 3 })) aid = _
  rw [findPlayer_modPlayer_self _ aid (fun q => { q with coins := q.coins + 3 }) (fun q => rfl)]
  have h2b : findPlayer (g2.revealAndRedraw aid role).2.players aid
      = some { p with influence := (p.influence.set idx { role := (g2.rrMid aid role p.name idx).draw.1, revealed := false }) } := h2
  rw [h2b]
  rfl

/-- **C3**: a challenge against a true claim backfires — when the actor of a
pending tax / assassinate / steal / exchange really holds the claimed role
unrevealed (slot `idx`), a challenge from an eligible responder revealed-and-
redraws that slot (a fresh unrevealed card sits at the same position) and the
new pending action is a forced loseInfluence addressed to the challenger. -/
theorem C3_true_claim_challenge (g : Game) (aid : PId) (actor : Player) (idx : Nat)
    (hga : g.getPlayer aid = some actor)
    (resp : Responders) (inp : ResponseInput)
    (hk : hasResponder resp inp.playerId = true)
    (hch : inp.responseType = "challenge")
    (hnc : ∀ e ∈ resp, e.2 ≠ RStatus.challenged) :
    (actor.influence.findIdx? (fun c => !c.revealed && c.role == Role.Duke) = some idx →
        (taxResponse g aid resp inp).1.pendingAction
            = some (.loseInfluence inp.playerId "failed_challenge" .endTurn)
          ∧ ∃ (r : Role) (p2 : Player), (taxResponse g aid resp inp).1.getPlayer aid = some p2
              ∧ p2.influence = actor.influence.set idx { role := r, revealed := false })
    ∧ (∀ (tid : PId) (bb : Option PId),
        actor.influence.findIdx? (fun c => !c.revealed && c.role == Role.Assassin) = some idx →
        (assassinateResponse g .awaitingChallenge aid tid bb resp inp).1.pendingAction
            = some (.loseInfluence inp.playerId "failed_challenge" (.assassinateOpenBlock aid tid))
          ∧ ∃ (r : Role) (p2 : Player),
              (assassinateResponse g .awaitingChallenge aid tid bb resp inp).1.getPlayer aid = some p2
                ∧ p2.influence = actor.influence.set idx { role := r, revealed := false })
    ∧ (∀ (tid : PId) (bb : Option PId) (brole : Option Role),
        actor.influence.findIdx? (fun c => !c.revealed && c.role == Role.Captain) = some idx →
        (stealResponse g .awaitingChallenge aid tid bb brole resp inp).1.pendingAction
            = some (.loseInfluence inp.playerId "failed_challenge" (.stealOpenBlock aid tid))
          ∧ ∃ (r : Role) (p2 : Player),
              (stealResponse g .awaitingChallenge aid tid bb brole resp inp).1.getPlayer aid = some p2
                ∧ p2.influence = actor.influence.set idx { role := r, revealed := false })
    ∧ (actor.influence.findIdx? (fun c => !c.revealed && c.role == Role.Ambassador) = some idx →
        (exchangeChallengeResponse g aid resp inp).1.pendingAction
            = some (.loseInfluence inp.playerId "failed_challenge" (.exchangeStartChoice aid))
          ∧ ∃ (r : Role) (p2 : Player),
              (exchangeChallengeResponse g aid resp inp).1.getPlayer aid = some p2
                ∧ p2.influence = actor.influence.set idx { role := r, revealed := false }) := by
  refine ⟨?_, ?_, ?_, ?_⟩
  · intro hidx
    simp only [taxResponse]
    rw [if_neg (not_not_intro hk)]
    have hr2 : (if inp.responseType = "pass" then some (setStatus resp inp.playerId RStatus.passed)
        else if inp.responseType = "challenge" then some (setStatus resp inp.playerId RStatus.challenged)
        else none) = some (setStatus resp inp.playerId RStatus.challenged) := by
      rw [hch]
      rw [if_neg (by decide)]
      rw [if_pos rfl]
    rw [hr2]
    dsimp only
    rw [firstChallenger_setStatus_challenged resp inp.playerId hk hnc]
    dsimp only
    have hhas : ({ g with pendingAction := some (.tax aid (setStatus resp inp.playerId RStatus.challenged)) } : Game).playerHasRole aid Role.Duke = true := by
      show g.playerHasRole aid Role.Duke = true
      unfold Game.playerHasRole
      rw [hga]
      dsimp only
      rw [any_eq_findIdx?_isSome]
      rw [hidx]
      rfl
    rw [if_pos hhas]
    refine ⟨rfl, ?_⟩
    exact challengeFailCoins_leaf_hand _ aid inp.playerId Role.Duke "failed_challenge"
      .endTurn actor idx (by exact hga) hidx
  · intro tid bb hidx
    simp only [assassinateResponse]
    rw [if_neg (not_not_intro hk)]
    have hr2 : (if inp.responseType = "pass" then some (setStatus resp inp.playerId RStatus.passed)
        else if inp.responseType = "challenge" then some (setStatus resp inp.playerId RStatus.challenged)
        else none) = some (setStatus resp inp.playerId RStatus.challenged) := by
      rw [hch]
      rw [if_neg (by decide)]
      rw [if_pos rfl]
    rw [hr2]
    dsimp only
    rw [firstChallenger_setStatus_challenged resp inp.playerId hk hnc]
    dsimp only
    have hhas : ({ g with pendingAction := some (.assassinate .awaitingChallenge aid tid bb (setStatus resp inp.playerId RStatus.challenged)) } : Game).playerHasRole aid Role.Assassin = true := by
      show g.playerHasRole aid Role.Assassin = true
      unfold Game.playerHasRole
      rw [hga]
      dsimp only
      rw [any_eq_findIdx?_isSome]
      rw [hidx]
      rfl
    rw [if_pos hhas]
    refine ⟨rfl, ?_⟩
    exact challengeFail_leaf_hand _ aid inp.playerId Role.Assassin "failed_challenge"
      (.assassinateOpenBlock aid tid) actor idx (by exact hga) hidx
  · intro tid bb brole hidx
    simp only [stealResponse]
    rw [if_neg (not_not_intro hk)]
    have hr2 : (if inp.responseType = "pass" then some (setStatus resp inp.playerId RStatus.passed)
        else if inp.responseType = "challenge" then some (setStatus resp inp.playerId RStatus.challenged)
        else none) = some (setStatus resp inp.playerId RStatus.challenged) := by
      rw [hch]
      rw [if_neg (by decide)]
      rw [if_pos rfl]
    rw [hr2]
    dsimp only
    rw [firstChallenger_setStatus_challenged resp inp.playerId hk hnc]
    dsimp only
    have hhas : ({ g with pendingAction := some (.steal .awaitingChallenge aid tid bb brole (setStatus resp inp.playerId RStatus.challenged)) } : Game).playerHasRole aid Role.Captain = true := by
      show g.playerHasRole aid Role.Captain = true
      unfold Game.playerHasRole
      rw [hga]
      dsimp only
      rw [any_eq_findIdx?_isSome]
      rw [hidx]
      rfl
    rw [if_pos hhas]
    refine ⟨rfl, ?_⟩
    exact challengeFail_leaf_hand _ aid inp.playerId Role.Captain "failed_challenge"
      (.stealOpenBlock aid tid) actor idx (by exact hga) hidx
  · intro hidx
    simp only [exchangeChallengeResponse]
    rw [if_neg (not_not_intro hk)]
    have hr2 : (if inp.responseType = "pass" then some (setStatus resp inp.playerId RStatus.passed)
        else if inp.responseType = "challenge" then some (setStatus resp inp.playerId RStatus.challenged)
        else none) = some (setStatus resp inp.playerId RStatus.challenged) := by
      rw [hch]
      rw [if_neg (by decide)]
      rw [if_pos rfl]
    rw [hr2]
    dsimp only
    rw [firstChallenger_setStatus_challenged resp inp.playerId hk hnc]
    dsimp only
    have hhas : ({ g with pendingAction := some (.exchange aid (setStatus resp inp.playerId RStatus.challenged)) } : Game).playerHasRole aid Role.Ambassador = true := by
      show g.playerHasRole aid Role.Ambassador = true
      unfold Game.playerHasRole
      rw [hga]
      dsimp only
      rw [any_eq_findIdx?_isSome]
      rw [hidx]
      rfl
    rw [if_pos hhas]
    refine ⟨rfl, ?_⟩
    exact challengeFail_leaf_hand _ aid inp.playerId Role.Ambassador "failed_challenge"
      (.exchangeStartChoice aid) actor idx (by exact hga) hidx

/-- **C6**: exchange-choice validation — with the `awaitingChoice` secret
stored for the actor: a keep-set whose distinct ids do not number exactly
`keepCount`, or that names an id absent from the stored options, is rejected
(the state is returned untouched but for the turn-index nudge, the pending
action unchanged); a valid submission installs the chosen roles in the
actor's unrevealed slots in order, keeps the revealed cards as they were,
returns the unchosen option roles to the deck, deletes the actor's secret
entry and ends the turn. -/
theorem C6_exchange_choice (g : Game) (aid : PId) (secret : ExchangeSecret)
    (inp : ResponseInput)
    (hpid : inp.playerId = aid)
    (hrt : inp.responseType = "exchangeChoice")
    (hsec : getEntry g.exchangeSecrets aid = some secret) :
    ((jsSetDedup (inp.payload.keep.getD [])).length ≠ secret.keepCount →
        (exchangeChoiceResponse g aid inp).1 = g.touch
          ∧ (exchangeChoiceResponse g aid inp).1.pendingAction = g.pendingAction)
    ∧ (∀ x : String, (secret.options.map (fun o => o.id)).Nodup →
        x ∈ jsSetDedup (inp.payload.keep.getD []) →
        x ∉ secret.options.map (fun o => o.id) →
        (exchangeChoiceResponse g aid inp).1 = g.touch
          ∧ (exchangeChoiceResponse g aid inp).1.pendingAction = g.pendingAction)
    ∧ (∀ actor : Player,
        g.getPlayer aid = some actor →
        (jsSetDedup (inp.payload.keep.getD [])).length = secret.keepCount →
        (secret.options.filter (fun o => (jsSetDedup (inp.payload.keep.getD [])).contains o.id)).length = secret.keepCount →
        (unrevSlots actor.influence).length = secret.keepCount →
        ∃ p2 : Player, (exchangeChoiceResponse g aid inp).1.getPlayer aid = some p2
          ∧ (p2.influence.filter (fun c => !c.revealed)).map Card.role
              = (secret.options.filter (fun o => (jsSetDedup (inp.payload.keep.getD [])).contains o.id)).map (fun o => o.role)
          ∧ p2.influence.filter (fun c => c.revealed) = actor.influence.filter (fun c => c.revealed)
          ∧ ((exchangeChoiceResponse g aid inp).1.deck : Multiset Role)
              = (((secret.options.filter (fun o => !(jsSetDedup (inp.payload.keep.getD [])).contains o.id)).map (fun o => o.role) : List Role) : Multiset Role)
                + (g.deck : Multiset Role)
          ∧ (exchangeChoiceResponse g aid inp).1.exchangeSecrets = delEntry g.exchangeSecrets aid
          ∧ (exchangeChoiceResponse g aid inp).1.pendingAction = none) := by
  refine ⟨?_, ?_, ?_⟩
  · intro hlen
    simp only [exchangeChoiceResponse]
    rw [hpid, hrt]
    rw [if_neg (not_not_intro rfl)]
    rw [if_neg (not_not_intro rfl)]
    rw [hsec]
    dsimp only
    rw [if_pos hlen]
    exact ⟨rfl, rfl⟩
  · intro x hnd hx hxa
    simp only [exchangeChoiceResponse]
    rw [hpid, hrt]
    rw [if_neg (not_not_intro rfl)]
    rw [if_neg (not_not_intro rfl)]
    rw [hsec]
    dsimp only
    by_cases hul : (jsSetDedup (inp.payload.keep.getD [])).length ≠ secret.keepCount
    · rw [if_pos hul]
      exact ⟨rfl, rfl⟩
    · rw [if_neg hul]
      have hul2 : (jsSetDedup (inp.payload.keep.getD [])).length = secret.keepCount :=
        not_not.mp hul
      have hsub : ((secret.options.filter (fun o => (jsSetDedup (inp.payload.keep.getD [])).contains o.id)).map (fun o => o.id)) ⊆ (jsSetDedup (inp.payload.keep.getD [])).erase x := by
        intro y hy
        rcases List.mem_map.mp hy with ⟨o, ho, rfl⟩
        have hof := List.mem_filter.mp ho
        have hyid : o.id ∈ jsSetDedup (inp.payload.keep.getD []) := by
          have hb := hof.2
          simpa using hb
        have hne : o.id ≠ x := by
          intro he
          exact hxa (he ▸ List.mem_map.mpr ⟨o, hof.1, rfl⟩)
        exact (List.mem_erase_of_ne hne).mpr hyid
      have hnd2 : (((secret.options.filter (fun o => (jsSetDedup (inp.payload.keep.getD [])).contains o.id)).map (fun o => o.id))).Nodup := by
        refine List.Nodup.sublist ?_ hnd
        exact List.Sublist.map _ (List.filter_sublist _)
      have hle := (List.subperm_of_subset hnd2 hsub).length_le
      rw [List.length_map] at hle
      have herase := List.length_erase_of_mem hx
      have hpos : 0 < (jsSetDedup (inp.payload.keep.getD [])).length :=
        List.length_pos_of_mem hx
      have hlt : (secret.options.filter (fun o => (jsSetDedup (inp.payload.keep.getD [])).contains o.id)).length ≠ secret.keepCount := by
        omega
      rw [if_pos hlt]
      exact ⟨rfl, rfl⟩
  · intro actor hgp h1 h2 h3
    simp only [exchangeChoiceResponse]
    rw [hpid, hrt]
    rw [if_neg (not_not_intro rfl)]
    rw [if_neg (not_not_intro rfl)]
    rw [hsec]
    dsimp only
    rw [if_neg (not_not_intro h1)]
    rw [if_neg (not_not_intro h2)]
    rw [hgp]
    dsimp only
    rw [if_neg (not_not_intro h3)]
    have hlenr : ((secret.options.filter (fun o => (jsSetDedup (inp.payload.keep.getD [])).contains o.id)).map (fun o => o.role)).length = (unrevSlots actor.influence).length := by
      rw [List.length_map, h2, h3]
    rcases applyChosen_spec actor.influence
      ((secret.options.filter (fun o => (jsSetDedup (inp.payload.keep.getD [])).contains o.id)).map (fun o => o.role))
      hlenr with ⟨hs1, hs2, -⟩
    refine ⟨{ actor with influence := (applyChosen actor.influence (unrevSlots actor.influence) ((secret.options.filter (fun o => (jsSetDedup (inp.payload.keep.getD [])).contains o.id)).map (fun o => o.role))) }, ?_, ?_, ?_, ?_, ?_, ?_⟩
    · unfold Game.getPlayer
      rw [(finishTurn_fields _).1]
      dsimp only
      rw [(returnToDeck_fields _ _).1]
      show findPlayer (modPlayer g.players aid (fun pl => { pl with influence := applyChosen pl.influence (unrevSlots actor.influence) ((secret.options.filter (fun o => (jsSetDedup (inp.payload.keep.getD [])).contains o.id)).map (fun o => o.role)) })) aid = _
      rw [findPlayer_modPlayer_self _ aid (fun pl => { pl with influence := applyChosen pl.influence (unrevSlots actor.influence) ((secret.options.filter (fun o => (jsSetDedup (inp.payload.keep.getD [])).contains o.id)).map (fun o => o.role)) }) (fun q => rfl)]
      have hgp2 : findPlayer g.players aid = some actor := hgp
      rw [hgp2]
      rfl
    · exact hs1
    · exact hs2
    · rw [(finishTurn_fields _).2.1]
      dsimp only
      rw [returnToDeck_bag]
      rfl
    · rw [(finishTurn_fields _).2.2.1]
      rfl
    · exact (finishTurn_fields _).2.2.2

/-- Witness for C3 at a concrete game: actor `"A"` truly holds Duke at slot 0,
responder `"B"` challenges. -/
theorem C3_true_claim_challenge_witness :
    (({ players := [{ id := "A", name := "Alice", coins := 2, influence := [{ role := Role.Duke, revealed := false }, { role := Role.Duke, revealed := false }] }, { id := "B", name := "Bob", coins := 2, influence := [{ role := Role.Contessa, revealed := false }, { role := Role.Contessa, revealed := false }] }], deck := [Role.Captain], log := [], turnIndex := 0, pendingAction := none, gameOver := false, winnerId := none, exchangeSecrets := [], rng := fun _ => 0, rngIdx := 0 } : Game).getPlayer "A" = some { id := "A", name := "Alice", coins := 2, influence := [{ role := Role.Duke, revealed := false }, { role := Role.Duke, revealed := false }] })
    ∧ hasResponder [("B", RStatus.pending)] (({ playerId := "B", responseType := "challenge", payload := { role := none, cardIndex := none, keep := none } } : ResponseInput) : ResponseInput).playerId = true
    ∧ (({ playerId := "B", responseType := "challenge", payload := { role := none, cardIndex := none, keep := none } } : ResponseInput) : ResponseInput).responseType = "challenge"
    ∧ (∀ e ∈ ([("B", RStatus.pending)] : Responders), e.2 ≠ RStatus.challenged)
    ∧ ((({ id := "A", name := "Alice", coins := 2, influence := [{ role := Role.Duke, revealed := false }, { role := Role.Duke, revealed := false }] } : Player).influence.findIdx? (fun c => !c.revealed && c.role == Role.Duke) = some 0 →
        (taxResponse ({ players := [{ id := "A", name := "Alice", coins := 2, influence := [{ role := Role.Duke, revealed := false }, { role := Role.Duke, revealed := false }] }, { id := "B", name := "Bob", coins := 2, influence := [{ role := Role.Contessa, revealed := false }, { role := Role.Contessa, revealed := false }] }], deck := [Role.Captain], log := [], turnIndex := 0, pendingAction := none, gameOver := false, winnerId := none, exchangeSecrets := [], rng := fun _ => 0, rngIdx := 0 } : Game) "A" [("B", RStatus.pending)] ({ playerId := "B", responseType := "challenge", payload := { role := none, cardIndex := none, keep := none } } : ResponseInput)).1.pendingAction
            = some (.loseInfluence (({ playerId := "B", responseType := "challenge", payload := { role := none, cardIndex := none, keep := none } } : ResponseInput) : ResponseInput).playerId "failed_challenge" .endTurn)
          ∧ ∃ (r : Role) (p2 : Player), (taxResponse ({ players := [{ id := "A", name := "Alice", coins := 2, influence := [{ role := Role.Duke, revealed := false }, { role := Role.Duke, revealed := false }] }, { id := "B", name := "Bob", coins := 2, influence := [{ role := Role.Contessa, revealed := false }, { role := Role.Contessa, revealed := false }] }], deck := [Role.Captain], log := [], turnIndex := 0, pendingAction := none, gameOver := false, winnerId := none, exchangeSecrets := [], rng := fun _ => 0, rngIdx := 0 } : Game) "A" [("B", RStatus.pending)] ({ playerId := "B", responseType := "challenge", payload := { role := none, cardIndex := none, keep := none } } : ResponseInput)).1.getPlayer "A" = some p2
              ∧ p2.influence = ({ id := "A", name := "Alice", coins := 2, influence := [{ role := Role.Duke, revealed := false }, { role := Role.Duke, revealed := false }] } : Player).influence.set 0 { role := r, revealed := false })
    ∧ (∀ (tid : PId) (bb : Option PId),
        ({ id := "A", name := "Alice", coins := 2, influence := [{ role := Role.Duke, revealed := false }, { role := Role.Duke, revealed := false }] } : Player).influence.findIdx? (fun c => !c.revealed && c.role == Role.Assassin) = some 0 →
        (assassinateResponse ({ players := [{ id := "A", name := "Alice", coins := 2, influence := [{ role := Role.Duke, revealed := false }, { role := Role.Duke, revealed := false }] }, { id := "B", name := "Bob", coins := 2, influence := [{ role := Role.Contessa, revealed := false }, { role := Role.Contessa, revealed := false }] }], deck := [Role.Captain], log := [], turnIndex := 0, pendingAction := none, gameOver := false, winnerId := none, exchangeSecrets := [], rng := fun _ => 0, rngIdx := 0 } : Game) .awaitingChallenge "A" tid bb [("B", RStatus.pending)] ({ playerId := "B", responseType := "challenge", payload := { role := none, cardIndex := none, keep := none } } : ResponseInput)).1.pendingAction
            = some (.loseInfluence (({ playerId := "B", responseType := "challenge", payload := { role := none, cardIndex := none, keep := none } } : ResponseInput) : ResponseInput).playerId "failed_challenge" (.assassinateOpenBlock "A" tid))
          ∧ ∃ (r : Role) (p2 : Player),
              (assassinateResponse ({ players := [{ id := "A", name := "Alice", coins := 2, influence := [{ role := Role.Duke, revealed := false }, { role := Role.Duke, revealed := false }] }, { id := "B", name := "Bob", coins := 2, influence := [{ role := Role.Contessa, revealed := false }, { role := Role.Contessa, revealed := false }] }], deck := [Role.Captain], log := [], turnIndex := 0, pendingAction := none, gameOver := false, winnerId := none, exchangeSecrets := [], rng := fun _ => 0, rngIdx := 0 } : Game) .awaitingChallenge "A" tid bb [("B", RStatus.pending)] ({ playerId := "B", responseType := "challenge", payload := { role := none, cardIndex := none, keep := none } } : ResponseInput)).1.getPlayer "A" = some p2
                ∧ p2.influence = ({ id := "A", name := "Alice", coins := 2, influence := [{ role := Role.Duke, revealed := false }, { role := Role.Duke, revealed := false }] } : Player).influence.set 0 { role := r, revealed := false })
    ∧ (∀ (tid : PId) (bb : Option PId) (brole : Option Role),
        ({ id := "A", name := "Alice", coins := 2, influence := [{ role := Role.Duke, revealed := false }, { role := Role.Duke, revealed := false }] } : Player).influence.findIdx? (fun c => !c.revealed && c.role == Role.Captain) = some 0 →
        (stealResponse ({ players := [{ id := "A", name := "Alice", coins := 2, influence := [{ role := Role.Duke, revealed := false }, { role := Role.Duke, revealed := false }] }, { id := "B", name := "Bob", coins := 2, influence := [{ role := Role.Contessa, revealed := false }, { role := Role.Contessa, revealed := false }] }], deck := [Role.Captain], log := [], turnIndex := 0, pendingAction := none, gameOver := false, winnerId := none, exchangeSecrets := [], rng := fun _ => 0, rngIdx := 0 } : Game) .awaitingChallenge "A" tid bb brole [("B", RStatus.pending)] ({ playerId := "B", responseType := "challenge", payload := { role := none, cardIndex := none, keep := none } } : ResponseInput)).1.pendingAction
            = some (.loseInfluence (({ playerId := "B", responseType := "challenge", payload := { role := none, cardIndex := none, keep := none } } : ResponseInput) : ResponseInput).playerId "failed_challenge" (.stealOpenBlock "A" tid))
          ∧ ∃ (r : Role) (p2 : Player),
              (stealResponse ({ players := [{ id := "A", name := "Alice", coins := 2, influence := [{ role := Role.Duke, revealed := false }, { role := Role.Duke, revealed := false }] }, { id := "B", name := "Bob", coins := 2, influence := [{ role := Role.Contessa, revealed := false }, { role := Role.Contessa, revealed := false }] }], deck := [Role.Captain], log := [], turnIndex := 0, pendingAction := none, gameOver := false, winnerId := none, exchangeSecrets := [], rng := fun _ => 0, rngIdx := 0 } : Game) .awaitingChallenge "A" tid bb brole [("B", RStatus.pending)] ({ playerId := "B", responseType := "challenge", payload := { role := none, cardIndex := none, keep := none } } : ResponseInput)).1.getPlayer "A" = some p2
                ∧ p2.influence = ({ id := "A", name := "Alice", coins := 2, influence := [{ role := Role.Duke, revealed := false }, { role := Role.Duke, revealed := false }] } : Player).influence.set 0 { role := r, revealed := false })
    ∧ (({ id := "A", name := "Alice", coins := 2, influence := [{ role := Role.Duke, revealed := false }, { role := Role.Duke, revealed := false }] } : Player).influence.findIdx? (fun c => !c.revealed && c.role == Role.Ambassador) = some 0 →
        (exchangeChallengeResponse ({ players := [{ id := "A", name := "Alice", coins := 2, influence := [{ role := Role.Duke, revealed := false }, { role := Role.Duke, revealed := false }] }, { id := "B", name := "Bob", coins := 2, influence := [{ role := Role.Contessa, revealed := false }, { role := Role.Contessa, revealed := false }] }], deck := [Role.Captain], log := [], turnIndex := 0, pendingAction := none, gameOver := false, winnerId := none, exchangeSecrets := [], rng := fun _ => 0, rngIdx := 0 } : Game) "A" [("B", RStatus.pending)] ({ playerId := "B", responseType := "challenge", payload := { role := none, cardIndex := none, keep := none } } : ResponseInput)).1.pendingAction
            = some (.loseInfluence (({ playerId := "B", responseType := "challenge", payload := { role := none, cardIndex := none, keep := none } } : ResponseInput) : ResponseInput).playerId "failed_challenge" (.exchangeStartChoice "A"))
          ∧ ∃ (r : Role) (p2 : Player),
              (exchangeChallengeResponse ({ players := [{ id := "A", name := "Alice", coins := 2, influence := [{ role := Role.Duke, revealed := false }, { role := Role.Duke, revealed := false }] }, { id := "B", name := "Bob", coins := 2, influence := [{ role := Role.Contessa, revealed := false }, { role := Role.Contessa, revealed := false }] }], deck := [Role.Captain], log := [], turnIndex := 0, pendingAction := none, gameOver := false, winnerId := none, exchangeSecrets := [], rng := fun _ => 0, rngIdx := 0 } : Game) "A" [("B", RStatus.pending)] ({ playerId := "B", responseType := "challenge", payload := { role := none, cardIndex := none, keep := none } } : ResponseInput)).1.getPlayer "A" = some p2
                ∧ p2.influence = ({ id := "A", name := "Alice", coins := 2, influence := [{ role := Role.Duke, revealed := false }, { role := Role.Duke, revealed := false }] } : Player).influence.set 0 { role := r, revealed := false })) :=
  ⟨by decide, by decide, by decide, by decide,
    C3_true_claim_challenge ({ players := [{ id := "A", name := "Alice", coins := 2, influence := [{ role := Role.Duke, revealed := false }, { role := Role.Duke, revealed := false }] }, { id := "B", name := "Bob", coins := 2, influence := [{ role := Role.Contessa, revealed := false }, { role := Role.Contessa, revealed := false }] }], deck := [Role.Captain], log := [], turnIndex := 0, pendingAction := none, gameOver := false, winnerId := none, exchangeSecrets := [], rng := fun _ => 0, rngIdx := 0 } : Game) "A"
      { id := "A", name := "Alice", coins := 2, influence := [{ role := Role.Duke, revealed := false }, { role := Role.Duke, revealed := false }] } 0 (by decide) [("B", RStatus.pending)] ({ playerId := "B", responseType := "challenge", payload := { role := none, cardIndex := none, keep := none } } : ResponseInput)
      (by decide) (by decide) (by decide)⟩

/-- Witness for C5 at a concrete game with actor `"A"` (2 coins). -/
theorem C5_foreign_aid_coins_witness :
    (({ players := [{ id := "A", name := "Alice", coins := 2, influence := [{ role := Role.Duke, revealed := false }, { role := Role.Duke, revealed := false }] }, { id := "B", name := "Bob", coins := 2, influence := [{ role := Role.Duke, revealed := false }, { role := Role.Contessa, revealed := false }] }], deck := [], log := [], turnIndex := 0, pendingAction := none, gameOver := false, winnerId := none, exchangeSecrets := [], rng := fun _ => 0, rngIdx := 0 } : Game).getPlayer "A" = some { id := "A", name := "Alice", coins := 2, influence := [{ role := Role.Duke, revealed := false }, { role := Role.Duke, revealed := false }] })
    ∧ ((({ id := "A", name := "Alice", coins := 2, influence := [{ role := Role.Duke, revealed := false }, { role := Role.Duke, revealed := false }] } : Player).coins < 10 →
        (resolveAction ({ players := [{ id := "A", name := "Alice", coins := 2, influence := [{ role := Role.Duke, revealed := false }, { role := Role.Duke, revealed := false }] }, { id := "B", name := "Bob", coins := 2, influence := [{ role := Role.Duke, revealed := false }, { role := Role.Contessa, revealed := false }] }], deck := [], log := [], turnIndex := 0, pendingAction := none, gameOver := false, winnerId := none, exchangeSecrets := [], rng := fun _ => 0, rngIdx := 0 } : Game) { actorId := "A", actionType := "foreign_aid", targetId := none }).1.coinsOf "A"
            = some (({ id := "A", name := "Alice", coins := 2, influence := [{ role := Role.Duke, revealed := false }, { role := Role.Duke, revealed := false }] } : Player).coins + 2)
          ∧ ∃ resp : Responders,
            (resolveAction ({ players := [{ id := "A", name := "Alice", coins := 2, influence := [{ role := Role.Duke, revealed := false }, { role := Role.Duke, revealed := false }] }, { id := "B", name := "Bob", coins := 2, influence := [{ role := Role.Duke, revealed := false }, { role := Role.Contessa, revealed := false }] }], deck := [], log := [], turnIndex := 0, pendingAction := none, gameOver := false, winnerId := none, exchangeSecrets := [], rng := fun _ => 0, rngIdx := 0 } : Game) { actorId := "A", actionType := "foreign_aid", targetId := none }).1.pendingAction
              = some (.foreignAid .awaitingBlock "A" resp none))
    ∧ (∀ (resp : Responders) (blockerId : PId) (inp : ResponseInput),
        hasResponder resp inp.playerId = true →
        inp.responseType = "challenge" →
        (∀ e ∈ resp, e.2 ≠ RStatus.challenged) →
        ({ players := [{ id := "A", name := "Alice", coins := 2, influence := [{ role := Role.Duke, revealed := false }, { role := Role.Duke, revealed := false }] }, { id := "B", name := "Bob", coins := 2, influence := [{ role := Role.Duke, revealed := false }, { role := Role.Contessa, revealed := false }] }], deck := [], log := [], turnIndex := 0, pendingAction := none, gameOver := false, winnerId := none, exchangeSecrets := [], rng := fun _ => 0, rngIdx := 0 } : Game).playerHasRole blockerId Role.Duke = true →
        (foreignAidResponse ({ players := [{ id := "A", name := "Alice", coins := 2, influence := [{ role := Role.Duke, revealed := false }, { role := Role.Duke, revealed := false }] }, { id := "B", name := "Bob", coins := 2, influence := [{ role := Role.Duke, revealed := false }, { role := Role.Contessa, revealed := false }] }], deck := [], log := [], turnIndex := 0, pendingAction := none, gameOver := false, winnerId := none, exchangeSecrets := [], rng := fun _ => 0, rngIdx := 0 } : Game) .awaitingChallengeBlock "A" resp (some blockerId) inp).1.coinsOf "A"
          = some (({ id := "A", name := "Alice", coins := 2, influence := [{ role := Role.Duke, revealed := false }, { role := Role.Duke, revealed := false }] } : Player).coins - 2))
    ∧ (∀ (resp : Responders) (bb : Option PId) (inp : ResponseInput),
        hasResponder resp inp.playerId = true →
        inp.responseType = "pass" →
        (∀ e ∈ resp, e.2 ≠ RStatus.challenged) →
        everyonePassed (setStatus resp inp.playerId RStatus.passed) = true →
        (foreignAidResponse ({ players := [{ id := "A", name := "Alice", coins := 2, influence := [{ role := Role.Duke, revealed := false }, { role := Role.Duke, revealed := false }] }, { id := "B", name := "Bob", coins := 2, influence := [{ role := Role.Duke, revealed := false }, { role := Role.Contessa, revealed := false }] }], deck := [], log := [], turnIndex := 0, pendingAction := none, gameOver := false, winnerId := none, exchangeSecrets := [], rng := fun _ => 0, rngIdx := 0 } : Game) .awaitingChallengeBlock "A" resp bb inp).1.coinsOf "A"
          = some (({ id := "A", name := "Alice", coins := 2, influence := [{ role := Role.Duke, revealed := false }, { role := Role.Duke, revealed := false }] } : Player).coins - 2))
    ∧ (∀ (resp : Responders) (blockerId : PId) (inp : ResponseInput),
        hasResponder resp inp.playerId = true →
        inp.responseType = "challenge" →
        (∀ e ∈ resp, e.2 ≠ RStatus.challenged) →
        ({ players := [{ id := "A", name := "Alice", coins := 2, influence := [{ role := Role.Duke, revealed := false }, { role := Role.Duke, revealed := false }] }, { id := "B", name := "Bob", coins := 2, influence := [{ role := Role.Duke, revealed := false }, { role := Role.Contessa, revealed := false }] }], deck := [], log := [], turnIndex := 0, pendingAction := none, gameOver := false, winnerId := none, exchangeSecrets := [], rng := fun _ => 0, rngIdx := 0 } : Game).playerHasRole blockerId Role.Duke = false →
        (foreignAidResponse ({ players := [{ id := "A", name := "Alice", coins := 2, influence := [{ role := Role.Duke, revealed := false }, { role := Role.Duke, revealed := false }] }, { id := "B", name := "Bob", coins := 2, influence := [{ role := Role.Duke, revealed := false }, { role := Role.Contessa, revealed := false }] }], deck := [], log := [], turnIndex := 0, pendingAction := none, gameOver := false, winnerId := none, exchangeSecrets := [], rng := fun _ => 0, rngIdx := 0 } : Game) .awaitingChallengeBlock "A" resp (some blockerId) inp).1.coinsOf "A"
          = some ({ id := "A", name := "Alice", coins := 2, influence := [{ role := Role.Duke, revealed := false }, { role := Role.Duke, revealed := false }] } : Player).coins)) :=
  ⟨by decide,
    C5_foreign_aid_coins ({ players := [{ id := "A", name := "Alice", coins := 2, influence := [{ role := Role.Duke, revealed := false }, { role := Role.Duke, revealed := false }] }, { id := "B", name := "Bob", coins := 2, influence := [{ role := Role.Duke, revealed := false }, { role := Role.Contessa, revealed := false }] }], deck := [], log := [], turnIndex := 0, pendingAction := none, gameOver := false, winnerId := none, exchangeSecrets := [], rng := fun _ => 0, rngIdx := 0 } : Game) "A" { id := "A", name := "Alice", coins := 2, influence := [{ role := Role.Duke, revealed := false }, { role := Role.Duke, revealed := false }] } (by decide)⟩

/-- Witness for C6 at a concrete `awaitingChoice` game for actor `"A"`. -/
theorem C6_exchange_choice_witness :
    ((({ playerId := "A", responseType := "exchangeChoice", payload := { role := none, cardIndex := none, keep := some ["h0", "d2"] } } : ResponseInput) : ResponseInput).playerId = "A")
    ∧ ((({ playerId := "A", responseType := "exchangeChoice", payload := { role := none, cardIndex := none, keep := some ["h0", "d2"] } } : ResponseInput) : ResponseInput).responseType = "exchangeChoice")
    ∧ (getEntry ({ players := [{ id := "A", name := "Alice", coins := 2, influence := [{ role := Role.Duke, revealed := false }, { role := Role.Contessa, revealed := false }] }], deck := [Role.Captain, Role.Captain], log := [], turnIndex := 0, pendingAction := some (.exchangeChoice "A" 2), gameOver := false, winnerId := none, exchangeSecrets := [("A", ({ keepCount := 2, options := [{ id := "h0", role := Role.Duke, source := OptSource.hand, handIndex := some 0 }, { id := "h1", role := Role.Contessa, source := OptSource.hand, handIndex := some 1 }, { id := "d2", role := Role.Ambassador, source := OptSource.drawn, handIndex := none }, { id := "d3", role := Role.Ambassador, source := OptSource.drawn, handIndex := none }] } : ExchangeSecret))], rng := fun _ => 0, rngIdx := 0 } : Game).exchangeSecrets "A" = some ({ keepCount := 2, options := [{ id := "h0", role := Role.Duke, source := OptSource.hand, handIndex := some 0 }, { id := "h1", role := Role.Contessa, source := OptSource.hand, handIndex := some 1 }, { id := "d2", role := Role.Ambassador, source := OptSource.drawn, handIndex := none }, { id := "d3", role := Role.Ambassador, source := OptSource.drawn, handIndex := none }] } : ExchangeSecret))
    ∧ (((jsSetDedup ((({ playerId := "A", responseType := "exchangeChoice", payload := { role := none, cardIndex := none, keep := some ["h0", "d2"] } } : ResponseInput) : ResponseInput).payload.keep.getD [])).length ≠ (({ keepCount := 2, options := [{ id := "h0", role := Role.Duke, source := OptSource.hand, handIndex := some 0 }, { id := "h1", role := Role.Contessa, source := OptSource.hand, handIndex := some 1 }, { id := "d2", role := Role.Ambassador, source := OptSource.drawn, handIndex := none }, { id := "d3", role := Role.Ambassador, source := OptSource.drawn, handIndex := none }] } : ExchangeSecret) : ExchangeSecret).keepCount →
        (exchangeChoiceResponse ({ players := [{ id := "A", name := "Alice", coins := 2, influence := [{ role := Role.Duke, revealed := false }, { role := Role.Contessa, revealed := false }] }], deck := [Role.Captain, Role.Captain], log := [], turnIndex := 0, pendingAction := some (.exchangeChoice "A" 2), gameOver := false, winnerId := none, exchangeSecrets := [("A", ({ keepCount := 2, options := [{ id := "h0", role := Role.Duke, source := OptSource.hand, handIndex := some 0 }, { id := "h1", role := Role.Contessa, source := OptSource.hand, handIndex := some 1 }, { id := "d2", role := Role.Ambassador, source := OptSource.drawn, handIndex := none }, { id := "d3", role := Role.Ambassador, source := OptSource.drawn, handIndex := none }] } : ExchangeSecret))], rng := fun _ => 0, rngIdx := 0 } : Game) "A" ({ playerId := "A", responseType := "exchangeChoice", payload := { role := none, cardIndex := none, keep := some ["h0", "d2"] } } : ResponseInput)).1 = ({ players := [{ id := "A", name := "Alice", coins := 2, influence := [{ role := Role.Duke, revealed := false }, { role := Role.Contessa, revealed := false }] }], deck := [Role.Captain, Role.Captain], log := [], turnIndex := 0, pendingAction := some (.exchangeChoice "A" 2), gameOver := false, winnerId := none, exchangeSecrets := [("A", ({ keepCount := 2, options := [{ id := "h0", role := Role.Duke, source := OptSource.hand, handIndex := some 0 }, { id := "h1", role := Role.Contessa, source := OptSource.hand, handIndex := some 1 }, { id := "d2", role := Role.Ambassador, source := OptSource.drawn, handIndex := none }, { id := "d3", role := Role.Ambassador, source := OptSource.drawn, handIndex := none }] } : ExchangeSecret))], rng := fun _ => 0, rngIdx := 0 } : Game).touch
          ∧ (exchangeChoiceResponse ({ players := [{ id := "A", name := "Alice", coins := 2, influence := [{ role := Role.Duke, revealed := false }, { role := Role.Contessa, revealed := false }] }], deck := [Role.Captain, Role.Captain], log := [], turnIndex := 0, pendingAction := some (.exchangeChoice "A" 2), gameOver := false, winnerId := none, exchangeSecrets := [("A", ({ keepCount := 2, options := [{ id := "h0", role := Role.Duke, source := OptSource.hand, handIndex := some 0 }, { id := "h1", role := Role.Contessa, source := OptSource.hand, handIndex := some 1 }, { id := "d2", role := Role.Ambassador, source := OptSource.drawn, handIndex := none }, { id := "d3", role := Role.Ambassador, source := OptSource.drawn, handIndex := none }] } : ExchangeSecret))], rng := fun _ => 0, rngIdx := 0 } : Game) "A" ({ playerId := "A", responseType := "exchangeChoice", payload := { role := none, cardIndex := none, keep := some ["h0", "d2"] } } : ResponseInput)).1.pendingAction = ({ players := [{ id := "A", name := "Alice", coins := 2, influence := [{ role := Role.Duke, revealed := false }, { role := Role.Contessa, revealed := false }] }], deck := [Role.Captain, Role.Captain], log := [], turnIndex := 0, pendingAction := some (.exchangeChoice "A" 2), gameOver := false, winnerId := none, exchangeSecrets := [("A", ({ keepCount := 2, options := [{ id := "h0", role := Role.Duke, source := OptSource.hand, handIndex := some 0 }, { id := "h1", role := Role.Contessa, source := OptSource.hand, handIndex := some 1 }, { id := "d2", role := Role.Ambassador, source := OptSource.drawn, handIndex := none }, { id := "d3", role := Role.Ambassador, source := OptSource.drawn, handIndex := none }] } : ExchangeSecret))], rng := fun _ => 0, rngIdx := 0 } : Game).pendingAction)
    ∧ (∀ x : String, ((({ keepCount := 2, options := [{ id := "h0", role := Role.Duke, source := OptSource.hand, handIndex := some 0 }, { id := "h1", role := Role.Contessa, source := OptSource.hand, handIndex := some 1 }, { id := "d2", role := Role.Ambassador, source := OptSource.drawn, handIndex := none }, { id := "d3", role := Role.Ambassador, source := OptSource.drawn, handIndex := none }] } : ExchangeSecret) : ExchangeSecret).options.map (fun o => o.id)).Nodup →
        x ∈ jsSetDedup ((({ playerId := "A", responseType := "exchangeChoice", payload := { role := none, cardIndex := none, keep := some ["h0", "d2"] } } : ResponseInput) : ResponseInput).payload.keep.getD []) →
        x ∉ (({ keepCount := 2, options := [{ id := "h0", role := Role.Duke, source := OptSource.hand, handIndex := some 0 }, { id := "h1", role := Role.Contessa, source := OptSource.hand, handIndex := some 1 }, { id := "d2", role := Role.Ambassador, source := OptSource.drawn, handIndex := none }, { id := "d3", role := Role.Ambassador, source := OptSource.drawn, handIndex := none }] } : ExchangeSecret) : ExchangeSecret).options.map (fun o => o.id) →
        (exchangeChoiceResponse ({ players := [{ id := "A", name := "Alice", coins := 2, influence := [{ role := Role.Duke, revealed := false }, { role := Role.Contessa, revealed := false }] }], deck := [Role.Captain, Role.Captain], log := [], turnIndex := 0, pendingAction := some (.exchangeChoice "A" 2), gameOver := false, winnerId := none, exchangeSecrets := [("A", ({ keepCount := 2, options := [{ id := "h0", role := Role.Duke, source := OptSource.hand, handIndex := some 0 }, { id := "h1", role := Role.Contessa, source := OptSource.hand, handIndex := some 1 }, { id := "d2", role := Role.Ambassador, source := OptSource.drawn, handIndex := none }, { id := "d3", role := Role.Ambassador, source := OptSource.drawn, handIndex := none }] } : ExchangeSecret))], rng := fun _ => 0, rngIdx := 0 } : Game) "A" ({ playerId := "A", responseType := "exchangeChoice", payload := { role := none, cardIndex := none, keep := some ["h0", "d2"] } } : ResponseInput)).1 = ({ players := [{ id := "A", name := "Alice", coins := 2, influence := [{ role := Role.Duke, revealed := false }, { role := Role.Contessa, revealed := false }] }], deck := [Role.Captain, Role.Captain], log := [], turnIndex := 0, pendingAction := some (.exchangeChoice "A" 2), gameOver := false, winnerId := none, exchangeSecrets := [("A", ({ keepCount := 2, options := [{ id := "h0", role := Role.Duke, source := OptSource.hand, handIndex := some 0 }, { id := "h1", role := Role.Contessa, source := OptSource.hand, handIndex := some 1 }, { id := "d2", role := Role.Ambassador, source := OptSource.drawn, handIndex := none }, { id := "d3", role := Role.Ambassador, source := OptSource.drawn, handIndex := none }] } : ExchangeSecret))], rng := fun _ => 0, rngIdx := 0 } : Game).touch
          ∧ (exchangeChoiceResponse ({ players := [{ id := "A", name := "Alice", coins := 2, influence := [{ role := Role.Duke, revealed := false }, { role := Role.Contessa, revealed := false }] }], deck := [Role.Captain, Role.Captain], log := [], turnIndex := 0, pendingAction := some (.exchangeChoice "A" 2), gameOver := false, winnerId := none, exchangeSecrets := [("A", ({ keepCount := 2, options := [{ id := "h0", role := Role.Duke, source := OptSource.hand, handIndex := some 0 }, { id := "h1", role := Role.Contessa, source := OptSource.hand, handIndex := some 1 }, { id := "d2", role := Role.Ambassador, source := OptSource.drawn, handIndex := none }, { id := "d3", role := Role.Ambassador, source := OptSource.drawn, handIndex := none }] } : ExchangeSecret))], rng := fun _ => 0, rngIdx := 0 } : Game) "A" ({ playerId := "A", responseType := "exchangeChoice", payload := { role := none, cardIndex := none, keep := some ["h0", "d2"] } } : ResponseInput)).1.pendingAction = ({ players := [{ id := "A", name := "Alice", coins := 2, influence := [{ role := Role.Duke, revealed := false }, { role := Role.Contessa, revealed := false }] }], deck := [Role.Captain, Role.Captain], log := [], turnIndex := 0, pendingAction := some (.exchangeChoice "A" 2), gameOver := false, winnerId := none, exchangeSecrets := [("A", ({ keepCount := 2, options := [{ id := "h0", role := Role.Duke, source := OptSource.hand, handIndex := some 0 }, { id := "h1", role := Role.Contessa, source := OptSource.hand, handIndex := some 1 }, { id := "d2", role := Role.Ambassador, source := OptSource.drawn, handIndex := none }, { id := "d3", role := Role.Ambassador, source := OptSource.drawn, handIndex := none }] } : ExchangeSecret))], rng := fun _ => 0, rngIdx := 0 } : Game).pendingAction)
    ∧ (∀ actor : Player,
        ({ players := [{ id := "A", name := "Alice", coins := 2, influence := [{ role := Role.Duke, revealed := false }, { role := Role.Contessa, revealed := false }] }], deck := [Role.Captain, Role.Captain], log := [], turnIndex := 0, pendingAction := some (.exchangeChoice "A" 2), gameOver := false, winnerId := none, exchangeSecrets := [("A", ({ keepCount := 2, options := [{ id := "h0", role := Role.Duke, source := OptSource.hand, handIndex := some 0 }, { id := "h1", role := Role.Contessa, source := OptSource.hand, handIndex := some 1 }, { id := "d2", role := Role.Ambassador, source := OptSource.drawn, handIndex := none }, { id := "d3", role := Role.Ambassador, source := OptSource.drawn, handIndex := none }] } : ExchangeSecret))], rng := fun _ => 0, rngIdx := 0 } : Game).getPlayer "A" = some actor →
        (jsSetDedup ((({ playerId := "A", responseType := "exchangeChoice", payload := { role := none, cardIndex := none, keep := some ["h0", "d2"] } } : ResponseInput) : ResponseInput).payload.keep.getD [])).length = (({ keepCount := 2, options := [{ id := "h0", role := Role.Duke, source := OptSource.hand, handIndex := some 0 }, { id := "h1", role := Role.Contessa, source := OptSource.hand, handIndex := some 1 }, { id := "d2", role := Role.Ambassador, source := OptSource.drawn, handIndex := none }, { id := "d3", role := Role.Ambassador, source := OptSource.drawn, handIndex := none }] } : ExchangeSecret) : ExchangeSecret).keepCount →
        ((({ keepCount := 2, options := [{ id := "h0", role := Role.Duke, source := OptSource.hand, handIndex := some 0 }, { id := "h1", role := Role.Contessa, source := OptSource.hand, handIndex := some 1 }, { id := "d2", role := Role.Ambassador, source := OptSource.drawn, handIndex := none }, { id := "d3", role := Role.Ambassador, source := OptSource.drawn, handIndex := none }] } : ExchangeSecret) : ExchangeSecret).options.filter (fun o => (jsSetDedup ((({ playerId := "A", responseType := "exchangeChoice", payload := { role := none, cardIndex := none, keep := some ["h0", "d2"] } } : ResponseInput) : ResponseInput).payload.keep.getD [])).contains o.id)).length = (({ keepCount := 2, options := [{ id := "h0", role := Role.Duke, source := OptSource.hand, handIndex := some 0 }, { id := "h1", role := Role.Contessa, source := OptSource.hand, handIndex := some 1 }, { id := "d2", role := Role.Ambassador, source := OptSource.drawn, handIndex := none }, { id := "d3", role := Role.Ambassador, source := OptSource.drawn, handIndex := none }] } : ExchangeSecret) : ExchangeSecret).keepCount →
        (unrevSlots actor.influence).length = (({ keepCount := 2, options := [{ id := "h0", role := Role.Duke, source := OptSource.hand, handIndex := some 0 }, { id := "h1", role := Role.Contessa, source := OptSource.hand, handIndex := some 1 }, { id := "d2", role := Role.Ambassador, source := OptSource.drawn, handIndex := none }, { id := "d3", role := Role.Ambassador, source := OptSource.drawn, handIndex := none }] } : ExchangeSecret) : ExchangeSecret).keepCount →
        ∃ p2 : Player, (exchangeChoiceResponse ({ players := [{ id := "A", name := "Alice", coins := 2, influence := [{ role := Role.Duke, revealed := false }, { role := Role.Contessa, revealed := false }] }], deck := [Role.Captain, Role.Captain], log := [], turnIndex := 0, pendingAction := some (.exchangeChoice "A" 2), gameOver := false, winnerId := none, exchangeSecrets := [("A", ({ keepCount := 2, options := [{ id := "h0", role := Role.Duke, source := OptSource.hand, handIndex := some 0 }, { id := "h1", role := Role.Contessa, source := OptSource.hand, handIndex := some 1 }, { id := "d2", role := Role.Ambassador, source := OptSource.drawn, handIndex := none }, { id := "d3", role := Role.Ambassador, source := OptSource.drawn, handIndex := none }] } : ExchangeSecret))], rng := fun _ => 0, rngIdx := 0 } : Game) "A" ({ playerId := "A", responseType := "exchangeChoice", payload := { role := none, cardIndex := none, keep := some ["h0", "d2"] } } : ResponseInput)).1.getPlayer "A" = some p2
          ∧ (p2.influence.filter (fun c => !c.revealed)).map Card.role
              = ((({ keepCount := 2, options := [{ id := "h0", role := Role.Duke, source := OptSource.hand, handIndex := some 0 }, { id := "h1", role := Role.Contessa, source := OptSource.hand, handIndex := some 1 }, { id := "d2", role := Role.Ambassador, source := OptSource.drawn, handIndex := none }, { id := "d3", role := Role.Ambassador, source := OptSource.drawn, handIndex := none }] } : ExchangeSecret) : ExchangeSecret).options.filter (fun o => (jsSetDedup ((({ playerId := "A", responseType := "exchangeChoice", payload := { role := none, cardIndex := none, keep := some ["h0", "d2"] } } : ResponseInput) : ResponseInput).payload.keep.getD [])).contains o.id)).map (fun o => o.role)
          ∧ p2.influence.filter (fun c => c.revealed) = actor.influence.filter (fun c => c.revealed)
          ∧ ((exchangeChoiceResponse ({ players := [{ id := "A", name := "Alice", coins := 2, influence := [{ role := Role.Duke, revealed := false }, { role := Role.Contessa, revealed := false }] }], deck := [Role.Captain, Role.Captain], log := [], turnIndex := 0, pendingAction := some (.exchangeChoice "A" 2), gameOver := false, winnerId := none, exchangeSecrets := [("A", ({ keepCount := 2, options := [{ id := "h0", role := Role.Duke, source := OptSource.hand, handIndex := some 0 }, { id := "h1", role := Role.Contessa, source := OptSource.hand, handIndex := some 1 }, { id := "d2", role := Role.Ambassador, source := OptSource.drawn, handIndex := none }, { id := "d3", role := Role.Ambassador, source := OptSource.drawn, handIndex := none }] } : ExchangeSecret))], rng := fun _ => 0, rngIdx := 0 } : Game) "A" ({ playerId := "A", responseType := "exchangeChoice", payload := { role := none, cardIndex := none, keep := some ["h0", "d2"] } } : ResponseInput)).1.deck : Multiset Role)
              = ((((({ keepCount := 2, options := [{ id := "h0", role := Role.Duke, source := OptSource.hand, handIndex := some 0 }, { id := "h1", role := Role.Contessa, source := OptSource.hand, handIndex := some 1 }, { id := "d2", role := Role.Ambassador, source := OptSource.drawn, handIndex := none }, { id := "d3", role := Role.Ambassador, source := OptSource.drawn, handIndex := none }] } : ExchangeSecret) : ExchangeSecret).options.filter (fun o => !(jsSetDedup ((({ playerId := "A", responseType := "exchangeChoice", payload := { role := none, cardIndex := none, keep := some ["h0", "d2"] } } : ResponseInput) : ResponseInput).payload.keep.getD [])).contains o.id)).map (fun o => o.role) : List Role) : Multiset Role)
                + (({ players := [{ id := "A", name := "Alice", coins := 2, influence := [{ role := Role.Duke, revealed := false }, { role := Role.Contessa, revealed := false }] }], deck := [Role.Captain, Role.Captain], log := [], turnIndex := 0, pendingAction := some (.exchangeChoice "A" 2), gameOver := false, winnerId := none, exchangeSecrets := [("A", ({ keepCount := 2, options := [{ id := "h0", role := Role.Duke, source := OptSource.hand, handIndex := some 0 }, { id := "h1", role := Role.Contessa, source := OptSource.hand, handIndex := some 1 }, { id := "d2", role := Role.Ambassador, source := OptSource.drawn, handIndex := none }, { id := "d3", role := Role.Ambassador, source := OptSource.drawn, handIndex := none }] } : ExchangeSecret))], rng := fun _ => 0, rngIdx := 0 } : Game).deck : Multiset Role)
          ∧ (exchangeChoiceResponse ({ players := [{ id := "A", name := "Alice", coins := 2, influence := [{ role := Role.Duke, revealed := false }, { role := Role.Contessa, revealed := false }] }], deck := [Role.Captain, Role.Captain], log := [], turnIndex := 0, pendingAction := some (.exchangeChoice "A" 2), gameOver := false, winnerId := none, exchangeSecrets := [("A", ({ keepCount := 2, options := [{ id := "h0", role := Role.Duke, source := OptSource.hand, handIndex := some 0 }, { id := "h1", role := Role.Contessa, source := OptSource.hand, handIndex := some 1 }, { id := "d2", role := Role.Ambassador, source := OptSource.drawn, handIndex := none }, { id := "d3", role := Role.Ambassador, source := OptSource.drawn, handIndex := none }] } : ExchangeSecret))], rng := fun _ => 0, rngIdx := 0 } : Game) "A" ({ playerId := "A", responseType := "exchangeChoice", payload := { role := none, cardIndex := none, keep := some ["h0", "d2"] } } : ResponseInput)).1.exchangeSecrets = delEntry ({ players := [{ id := "A", name := "Alice", coins := 2, influence := [{ role := Role.Duke, revealed := false }, { role := Role.Contessa, revealed := false }] }], deck := [Role.Captain, Role.Captain], log := [], turnIndex := 0, pendingAction := some (.exchangeChoice "A" 2), gameOver := false, winnerId := none, exchangeSecrets := [("A", ({ keepCount := 2, options := [{ id := "h0", role := Role.Duke, source := OptSource.hand, handIndex := some 0 }, { id := "h1", role := Role.Contessa, source := OptSource.hand, handIndex := some 1 }, { id := "d2", role := Role.Ambassador, source := OptSource.drawn, handIndex := none }, { id := "d3", role := Role.Ambassador, source := OptSource.drawn, handIndex := none }] } : ExchangeSecret))], rng := fun _ => 0, rngIdx := 0 } : Game).exchangeSecrets "A"
          ∧ (exchangeChoiceResponse ({ players := [{ id := "A", name := "Alice", coins := 2, influence := [{ role := Role.Duke, revealed := false }, { role := Role.Contessa, revealed := false }] }], deck := [Role.Captain, Role.Captain], log := [], turnIndex := 0, pendingAction := some (.exchangeChoice "A" 2), gameOver := false, winnerId := none, exchangeSecrets := [("A", ({ keepCount := 2, options := [{ id := "h0", role := Role.Duke, source := OptSource.hand, handIndex := some 0 }, { id := "h1", role := Role.Contessa, source := OptSource.hand, handIndex := some 1 }, { id := "d2", role := Role.Ambassador, source := OptSource.drawn, handIndex := none }, { id := "d3", role := Role.Ambassador, source := OptSource.drawn, handIndex := none }] } : ExchangeSecret))], rng := fun _ => 0, rngIdx := 0 } : Game) "A" ({ playerId := "A", responseType := "exchangeChoice", payload := { role := none, cardIndex := none, keep := some ["h0", "d2"] } } : ResponseInput)).1.pendingAction = none)) :=
  ⟨by decide, by decide, by decide,
    C6_exchange_choice ({ players := [{ id := "A", name := "Alice", coins := 2, influence := [{ role := Role.Duke, revealed := false }, { role := Role.Contessa, revealed := false }] }], deck := [Role.Captain, Role.Captain], log := [], turnIndex := 0, pendingAction := some (.exchangeChoice "A" 2), gameOver := false, winnerId := none, exchangeSecrets := [("A", ({ keepCount := 2, options := [{ id := "h0", role := Role.Duke, source := OptSource.hand, handIndex := some 0 }, { id := "h1", role := Role.Contessa, source := OptSource.hand, handIndex := some 1 }, { id := "d2", role := Role.Ambassador, source := OptSource.drawn, handIndex := none }, { id := "d3", role := Role.Ambassador, source := OptSource.drawn, handIndex := none }] } : ExchangeSecret))], rng := fun _ => 0, rngIdx := 0 } : Game) "A" ({ keepCount := 2, options := [{ id := "h0", role := Role.Duke, source := OptSource.hand, handIndex := some 0 }, { id := "h1", role := Role.Contessa, source := OptSource.hand, handIndex := some 1 }, { id := "d2", role := Role.Ambassador, source := OptSource.drawn, handIndex := none }, { id := "d3", role := Role.Ambassador, source := OptSource.drawn, handIndex := none }] } : ExchangeSecret) ({ playerId := "A", responseType := "exchangeChoice", payload := { role := none, cardIndex := none, keep := some ["h0", "d2"] } } : ResponseInput)
      (by decide) (by decide) (by decide)⟩

end Coup
